import Mathlib

/-!
# vmount: MAVLink inputs of the mount driver

Shallow embedding of `src/drivers/vmount/input_mavlink.cpp`
(`InputMavlinkROI` and `InputMavlinkCmdMount`) and the properties proved
about it.

Conventions of the embedding

* C `float` is `F32`, an IEEE-754 binary32 bit pattern with the operations the
  file uses (multiplication, `isfinite`, conversions to and from integers).
* C integers are `Int`/`Nat` with explicit wrap-around where the code converts
  between widths.
* Everything the code obtains from outside (what `px4_poll` returns, what
  `orb_copy` copies out, the clock reads, `errno`) is an explicit input: one
  record per `px4_poll` call.
* Everything the code sends outside (the timeouts passed to `px4_poll`, the
  acknowledgments published) is collected in the result of a call.
* Constants declared in headers outside the translated file (command ids,
  mount modes, ROI modes, `POLLIN`, `M_DEG_TO_RAD_F`) are fields of `Consts`.
-/

set_option linter.unusedVariables false

namespace vmount

/-! ## binary32 -/

/-- C `float`: an IEEE-754 binary32 value kept as its 32-bit pattern. -/
structure F32 where
  bits : Nat
deriving DecidableEq, Repr

/-- C `double`: an IEEE-754 binary64 value kept as its 64-bit pattern. -/
structure F64 where
  bits : Nat
deriving DecidableEq, Repr

namespace F32

/-- Sign bit. -/
def sign (x : F32) : Nat := x.bits / 2 ^ 31 % 2

/-- Biased exponent field. -/
def expo (x : F32) : Nat := x.bits / 2 ^ 23 % 256

/-- Fraction field. -/
def frac (x : F32) : Nat := x.bits % 2 ^ 23

/-- `PX4_ISFINITE`: neither an infinity nor a NaN. -/
def isFinite (x : F32) : Bool := x.expo != 255

/-- NaN test. -/
def isNaN (x : F32) : Bool := x.expo == 255 && x.frac != 0

/-- Infinity test. -/
def isInf (x : F32) : Bool := x.expo == 255 && x.frac == 0

/-- Zero test (either sign). -/
def isZero (x : F32) : Bool := x.expo == 0 && x.frac == 0

/-- Integer significand: the value of a finite `x` is `± mant x * 2 ^ qexp x`. -/
def mant (x : F32) : Nat := if x.expo = 0 then x.frac else 2 ^ 23 + x.frac

/-- Exponent of the unit in the last place of `x`. -/
def qexp (x : F32) : Int := if x.expo = 0 then -149 else (x.expo : Int) - 150

/-- Assemble a bit pattern from sign, biased exponent and fraction. -/
def pack (s e f : Nat) : F32 := ⟨s * 2 ^ 31 + e * 2 ^ 23 + f⟩

/-- The default quiet NaN. -/
def qNaN : F32 := pack 0 255 (2 ^ 22)

/-- Number of binary digits of `n` (the first argument bounds the recursion). -/
def bitLength : Nat → Nat → Nat
  | 0, _ => 0
  | fuel + 1, n => if n = 0 then 0 else bitLength fuel (n / 2) + 1

/-- Divide `m` by `2 ^ k`, rounding to nearest, ties to even. -/
def roundShift (m k : Nat) : Nat :=
  let n0 := m / 2 ^ k
  let rem := m % 2 ^ k
  let half := 2 ^ (k - 1)
  if k = 0 then m
  else if rem > half ∨ (rem = half ∧ n0 % 2 = 1) then n0 + 1 else n0

/-- Round the exact value `(-1)^s * m * 2^q` to binary32, to nearest, ties to even
(the default rounding mode). -/
def round (s m : Nat) (q : Int) : F32 :=
  if m = 0 then pack s 0 0
  else
    let len : Int := (bitLength m m : Nat)
    let q1 : Int := max (q + len - 24) (-149)
    let n : Nat := if q1 ≤ q then m * 2 ^ (q - q1).toNat else roundShift m (q1 - q).toNat
    let n2 : Nat := if n ≥ 2 ^ 24 then n / 2 else n
    let q2 : Int := if n ≥ 2 ^ 24 then q1 + 1 else q1
    if n2 < 2 ^ 23 then pack s 0 n2
    else if q2 + 150 ≥ 255 then pack s 255 0
    else pack s (q2 + 150).toNat (n2 - 2 ^ 23)

/-- C `x * y` on `float`. A NaN result is returned as the default quiet NaN
(hardware may instead propagate an operand's payload; nothing in this file
reads the payload of a NaN). -/
def mul (x y : F32) : F32 :=
  let s := (x.sign + y.sign) % 2
  if x.isNaN || y.isNaN then qNaN
  else if x.isInf then (if y.isZero then qNaN else pack s 255 0)
  else if y.isInf then (if x.isZero then qNaN else pack s 255 0)
  else round s (x.mant * y.mant) (x.qexp + y.qexp)

/-- Value of `x` with its fraction discarded (rounded toward zero). -/
def trunc (x : F32) : Int :=
  let a : Nat :=
    if 0 ≤ x.qexp then x.mant * 2 ^ x.qexp.toNat else x.mant / 2 ^ (-x.qexp).toNat
  if x.sign = 1 then -(a : Int) else (a : Int)

/-- C `(int)x`. In the range of `int` this is truncation toward zero. Outside
that range and on NaN the C standard leaves the conversion undefined; the
embedding takes the result of the ARM `VCVT` instruction (saturation, NaN to 0),
the instruction the firmware's targets execute. -/
def toInt (x : F32) : Int :=
  if x.isNaN then 0
  else max (-(2 ^ 31)) (min (2 ^ 31 - 1) x.trunc)

/-- C `(uint8_t)x`. In `0..255` this is truncation toward zero; elsewhere
(undefined in C) the embedding takes the unsigned `VCVT` result reduced to
8 bits. -/
def toUInt8 (x : F32) : Nat :=
  if x.isNaN then 0
  else (max 0 (min (2 ^ 32 - 1) x.trunc)).toNat % 256

/-- C conversion `int` to `float` (round to nearest, ties to even). -/
def ofInt (z : Int) : F32 := round (if z < 0 then 1 else 0) z.natAbs 0

/-- Last step of `round`: the significand `n` at exponent `q1`, as `round`
computes them, is renormalised and packed. -/
def encode (s n : Nat) (q1 : Int) : F32 :=
  let n2 : Nat := if n ≥ 2 ^ 24 then n / 2 else n
  let q2 : Int := if n ≥ 2 ^ 24 then q1 + 1 else q1
  if n2 < 2 ^ 23 then pack s 0 n2
  else if q2 + 150 ≥ 255 then pack s 255 0
  else pack s (q2 + 150).toNat (n2 - 2 ^ 23)

/-- The rational number a finite `x` stands for. -/
def toRat (x : F32) : ℚ := (if x.sign = 1 then -1 else 1) * (x.mant : ℚ) * 2 ^ x.qexp

end F32


namespace F64

/-- Sign bit. -/
def sign (x : F64) : Nat := x.bits / 2 ^ 63 % 2

/-- Biased exponent field. -/
def expo (x : F64) : Nat := x.bits / 2 ^ 52 % 2048

/-- Fraction field. -/
def frac (x : F64) : Nat := x.bits % 2 ^ 52

/-- NaN test. -/
def isNaN (x : F64) : Bool := x.expo == 2047 && x.frac != 0

/-- Integer significand. -/
def mant (x : F64) : Nat := if x.expo = 0 then x.frac else 2 ^ 52 + x.frac

/-- Exponent of the unit in the last place. -/
def qexp (x : F64) : Int := if x.expo = 0 then -1074 else (x.expo : Int) - 1075

/-- Value with its fraction discarded (rounded toward zero). -/
def trunc (x : F64) : Int :=
  let a : Nat :=
    if 0 ≤ x.qexp then x.mant * 2 ^ x.qexp.toNat else x.mant / 2 ^ (-x.qexp).toNat
  if x.sign = 1 then -(a : Int) else (a : Int)

/-- C `(uint8_t)x` on `double`, same convention as `F32.toUInt8`. -/
def toUInt8 (x : F64) : Nat :=
  if x.isNaN then 0
  else (max 0 (min (2 ^ 32 - 1) x.trunc)).toNat % 256

end F64

/-! ## Integer conversions -/

/-- Conversion to `int` (32 bits, two's complement) of an integer value. -/
def toInt32 (z : Int) : Int := (z + 2 ^ 31) % 2 ^ 32 - 2 ^ 31

/-- Conversion to `uint64_t` of an integer value. -/
def toUInt64 (z : Int) : Int := z % 2 ^ 64

/-! ## Declarations from headers outside the translated file -/

/-- Constants the file uses and does not define: enumerators of the uORB
message types, `POLLIN` and `M_DEG_TO_RAD_F`. -/
structure Consts where
  POLLIN : Nat
  M_DEG_TO_RAD_F : F32
  VEHICLE_CMD_DO_MOUNT_CONTROL : Nat
  VEHICLE_CMD_DO_MOUNT_CONFIGURE : Nat
  VEHICLE_CMD_DO_DIGICAM_CONTROL : Nat
  VEHICLE_MOUNT_MODE_RETRACT : Int
  VEHICLE_MOUNT_MODE_NEUTRAL : Int
  VEHICLE_MOUNT_MODE_MAVLINK_TARGETING : Int
  VEHICLE_CMD_RESULT_ACCEPTED : Nat
  ORB_QUEUE_LENGTH : Nat
  ROI_NONE : Nat
  ROI_WPNEXT : Nat
  ROI_WPINDEX : Nat
  ROI_LOCATION : Nat
  ROI_TARGET : Nat
deriving DecidableEq, Repr

/-- The labels of the two `switch` statements are pairwise different (C
requires it) and the three command ids and the ROI modes are different
enumerators. -/
def Consts.distinct (K : Consts) : Prop :=
  K.VEHICLE_MOUNT_MODE_RETRACT ≠ K.VEHICLE_MOUNT_MODE_NEUTRAL ∧
  K.VEHICLE_MOUNT_MODE_RETRACT ≠ K.VEHICLE_MOUNT_MODE_MAVLINK_TARGETING ∧
  K.VEHICLE_MOUNT_MODE_NEUTRAL ≠ K.VEHICLE_MOUNT_MODE_MAVLINK_TARGETING ∧
  K.VEHICLE_CMD_DO_MOUNT_CONTROL ≠ K.VEHICLE_CMD_DO_MOUNT_CONFIGURE ∧
  K.VEHICLE_CMD_DO_MOUNT_CONTROL ≠ K.VEHICLE_CMD_DO_DIGICAM_CONTROL ∧
  K.VEHICLE_CMD_DO_MOUNT_CONFIGURE ≠ K.VEHICLE_CMD_DO_DIGICAM_CONTROL ∧
  K.ROI_NONE ≠ K.ROI_WPNEXT

instance (K : Consts) : Decidable K.distinct := by
  unfold Consts.distinct; infer_instance

/-- The five ROI modes are pairwise different enumerators. -/
def Consts.roiDistinct (K : Consts) : Prop :=
  K.ROI_NONE ≠ K.ROI_WPNEXT ∧ K.ROI_NONE ≠ K.ROI_WPINDEX ∧ K.ROI_NONE ≠ K.ROI_LOCATION ∧
  K.ROI_NONE ≠ K.ROI_TARGET ∧ K.ROI_WPNEXT ≠ K.ROI_WPINDEX ∧ K.ROI_WPNEXT ≠ K.ROI_LOCATION ∧
  K.ROI_WPNEXT ≠ K.ROI_TARGET ∧ K.ROI_WPINDEX ≠ K.ROI_LOCATION ∧
  K.ROI_WPINDEX ≠ K.ROI_TARGET ∧ K.ROI_LOCATION ≠ K.ROI_TARGET

instance (K : Consts) : Decidable K.roiDistinct := by
  unfold Consts.roiDistinct; infer_instance

/-- The values of the MAVLink enumerations and of the NuttX `POLLIN`, with
`M_DEG_TO_RAD_F = 0.01745329251994f`; used for concrete runs. -/
def px4 : Consts where
  POLLIN := 1
  M_DEG_TO_RAD_F := ⟨0x3C8EFA35⟩
  VEHICLE_CMD_DO_MOUNT_CONTROL := 205
  VEHICLE_CMD_DO_MOUNT_CONFIGURE := 204
  VEHICLE_CMD_DO_DIGICAM_CONTROL := 203
  VEHICLE_MOUNT_MODE_RETRACT := 0
  VEHICLE_MOUNT_MODE_NEUTRAL := 1
  VEHICLE_MOUNT_MODE_MAVLINK_TARGETING := 2
  VEHICLE_CMD_RESULT_ACCEPTED := 0
  ORB_QUEUE_LENGTH := 3
  ROI_NONE := 0
  ROI_WPNEXT := 1
  ROI_WPINDEX := 2
  ROI_LOCATION := 3
  ROI_TARGET := 4

/-- A C array of three elements. -/
structure Arr3 (α : Type) where
  x0 : α
  x1 : α
  x2 : α
deriving DecidableEq, Repr

/-- Enumeration `ControlData::Type`. -/
inductive ControlDataType where
  | Neutral
  | Angle
  | LonLat
deriving DecidableEq, Repr

/-- Payload `type_data.angle`. -/
structure TypeAngle where
  angles : Arr3 F32
  is_speed : Arr3 Bool
deriving DecidableEq, Repr

/-- Payload `type_data.lonlat`. -/
structure TypeLonLat where
  lon : F64
  lat : F64
  altitude : F32
  roll_angle : F32
  pitch_fixed_angle : F32
deriving DecidableEq, Repr

/-- Member `type_data`: the two payloads, kept side by side. -/
structure TypeData where
  angle : TypeAngle
  lonlat : TypeLonLat
deriving DecidableEq, Repr

/-- Modelled from the spec: the declaration of `ControlData` is in a header
outside the translated file. The fields are the ones the spec lists in its data
model (`type`, the Angle and LonLat payloads, `gimbal_shutter_retract`, `zoom`,
`stabilize_axis[3]`) under the names the code uses for them. -/
structure ControlData where
  type_data : TypeData
  type : ControlDataType
  gimbal_shutter_retract : Bool
  zoom : F32
  stabilize_axis : Arr3 Bool
deriving DecidableEq, Repr

/-- Message `vehicle_roi_s` (the fields the file reads). -/
structure vehicle_roi_s where
  mode : Nat
  lat : F64
  lon : F64
  alt : F32
deriving DecidableEq, Repr

/-- Message `position_setpoint_s` (the fields the file reads). -/
structure position_setpoint_s where
  lat : F64
  lon : F64
  alt : F32
deriving DecidableEq, Repr

/-- Message `position_setpoint_triplet_s` (the fields the file reads). -/
structure position_setpoint_triplet_s where
  next : position_setpoint_s
deriving DecidableEq, Repr

/-- Message `vehicle_command_s` (the fields the file reads). -/
structure vehicle_command_s where
  param1 : F32
  param2 : F32
  param3 : F32
  param4 : F32
  param5 : F64
  param6 : F64
  param7 : F32
  command : Nat
  target_system : Nat
  target_component : Nat
  source_system : Nat
  source_component : Nat
deriving DecidableEq, Repr

/-- Message `vehicle_command_ack_s`. -/
structure vehicle_command_ack_s where
  timestamp : Nat
  result_param2 : Int
  command : Nat
  result : Nat
  from_external : Bool
  result_param1 : Nat
  target_system : Nat
  target_component : Nat
deriving DecidableEq, Repr

/-- A call made to the publishing side of uORB.
Modelled from the spec: `orb_advertise_queue` creates the publication channel,
publishes the record handed to it and returns the handle of the channel;
`orb_publish` publishes a record on an existing channel. -/
inductive OrbCall where
  | orb_advertise_queue (data : vehicle_command_ack_s) (queue_size : Nat)
  | orb_publish (data : vehicle_command_ack_s)
deriving DecidableEq, Repr

/-- The record a call publishes. -/
def OrbCall.data : OrbCall → vehicle_command_ack_s
  | .orb_advertise_queue d _ => d
  | .orb_publish d => d

/-! ## InputMavlinkROI -/

/-- Object state of `InputMavlinkROI` (with the `_control_data` member of its
base class). -/
structure InputMavlinkROI where
  _control_data : ControlData
  _cur_roi_mode : Nat
  _vehicle_roi_sub : Int
  _position_setpoint_triplet_sub : Int
deriving DecidableEq, Repr

/-- What the outside delivers to one call of `InputMavlinkROI::update_impl`:
the return value of `px4_poll`, `errno` after it, the `revents` of the two
descriptors, and what `orb_copy` copies out of the two topics. -/
structure RoiPoll where
  ret : Int
  errno : Int
  revents0 : Nat
  revents1 : Nat
  vehicle_roi : vehicle_roi_s
  position_setpoint_triplet : position_setpoint_triplet_s
deriving DecidableEq, Repr

/-- Result of one call of `InputMavlinkROI::update_impl`: the returned `int`,
whether `*control_data` points to `_control_data` (`true`) or is `nullptr`
(`false`), and the object after the call. -/
structure RoiResult where
  ret : Int
  changed : Bool
  self : InputMavlinkROI
deriving DecidableEq, Repr

/-- C `0.f`. -/
def F32.zero : F32 := ⟨0⟩

/-- C `-10.f`. -/
def F32.minusTen : F32 := ⟨0xC1200000⟩

/-- Method `InputMavlinkROI::_read_control_data_from_position_setpoint_sub`;
the second argument is what `orb_copy` copies out. -/
def InputMavlinkROI._read_control_data_from_position_setpoint_sub
    (self : InputMavlinkROI) (position_setpoint_triplet : position_setpoint_triplet_s) :
    InputMavlinkROI :=
  { self with
    _control_data :=
      { self._control_data with
        type_data :=
          { self._control_data.type_data with
            lonlat :=
              { self._control_data.type_data.lonlat with
                lon := position_setpoint_triplet.next.lon
                lat := position_setpoint_triplet.next.lat
                altitude := position_setpoint_triplet.next.alt } } } }

/-- Modelled from the spec: `control_data_set_lon_lat` is a method of the base
class, defined outside the translated file. The spec describes its use as
"set type = LonLat directly from the ROI message's longitude/latitude/altitude". -/
def InputMavlinkROI.control_data_set_lon_lat
    (self : InputMavlinkROI) (lon lat : F64) (altitude : F32) : InputMavlinkROI :=
  { self with
    _control_data :=
      { self._control_data with
        type := ControlDataType.LonLat
        type_data :=
          { self._control_data.type_data with
            lonlat :=
              { self._control_data.type_data.lonlat with
                lon := lon
                lat := lat
                altitude := altitude } } } }

/-- The part of `InputMavlinkROI::update_impl` guarded by
`polls[0].revents & POLLIN`: returns the object and the new value of
`*control_data` (as a flag). -/
def InputMavlinkROI.on_vehicle_roi (K : Consts) (self : InputMavlinkROI) (ev : RoiPoll) :
    InputMavlinkROI × Bool :=
  let vehicle_roi := ev.vehicle_roi
  let s1 : InputMavlinkROI :=
    { self with _control_data := { self._control_data with gimbal_shutter_retract := false } }
  let r : InputMavlinkROI × Bool :=
    if vehicle_roi.mode = K.ROI_NONE then
      ({ s1 with _control_data := { s1._control_data with type := ControlDataType.Neutral } },
        true)
    else if vehicle_roi.mode = K.ROI_WPNEXT then
      let s2 := s1._read_control_data_from_position_setpoint_sub ev.position_setpoint_triplet
      ({ s2 with
          _control_data :=
            { s2._control_data with
              type_data :=
                { s2._control_data.type_data with
                  lonlat :=
                    { s2._control_data.type_data.lonlat with
                      roll_angle := F32.zero
                      pitch_fixed_angle := F32.minusTen } } } },
        true)
    else if vehicle_roi.mode = K.ROI_WPINDEX then
      (s1, false)
    else if vehicle_roi.mode = K.ROI_LOCATION then
      (s1.control_data_set_lon_lat vehicle_roi.lon vehicle_roi.lat vehicle_roi.alt, true)
    else if vehicle_roi.mode = K.ROI_TARGET then
      (s1, false)
    else
      (s1, false)
  let s3 : InputMavlinkROI := { r.1 with _cur_roi_mode := vehicle_roi.mode }
  ({ s3 with
      _control_data :=
        { s3._control_data with stabilize_axis := ⟨false, false, false⟩ } },
    r.2)

/-- The part of `InputMavlinkROI::update_impl` guarded by
`polls[1].revents & POLLIN`; the flag is the value of `*control_data` so far. -/
def InputMavlinkROI.on_position_setpoint (K : Consts) (self : InputMavlinkROI)
    (changed : Bool) (ev : RoiPoll) : InputMavlinkROI × Bool :=
  if self._cur_roi_mode = K.ROI_WPNEXT then
    (self._read_control_data_from_position_setpoint_sub ev.position_setpoint_triplet, true)
  else
    (self, changed)

/-- Method `InputMavlinkROI::update_impl`. -/
def InputMavlinkROI.update_impl (K : Consts) (self : InputMavlinkROI)
    (timeout_ms : Nat) (already_active : Bool) (ev : RoiPoll) : RoiResult :=
  if ev.ret < 0 then
    { ret := -ev.errno, changed := false, self := self }
  else if ev.ret = 0 then
    { ret := 0, changed := false, self := self }
  else
    let a : InputMavlinkROI × Bool :=
      if ev.revents0 &&& K.POLLIN ≠ 0 then self.on_vehicle_roi K ev else (self, false)
    let b : InputMavlinkROI × Bool :=
      if ev.revents1 &&& K.POLLIN ≠ 0 then a.1.on_position_setpoint K a.2 ev else a
    { ret := 0, changed := b.2, self := b.1 }

/-! ## InputMavlinkCmdMount -/

/-- Object state of `InputMavlinkCmdMount` (with the `_control_data` member of
its base class). `_vehicle_command_ack_pub` is `true` when the handle is not
`nullptr`. -/
structure InputMavlinkCmdMount where
  _control_data : ControlData
  _stabilize : Arr3 Bool
  _mav_sys_id : Int
  _mav_comp_id : Int
  _vehicle_command_sub : Int
  _vehicle_command_ack_pub : Bool
deriving DecidableEq, Repr

/-- What the outside delivers around one `px4_poll` call of
`InputMavlinkCmdMount::update_impl`: the clock read before the call, the return
value, `errno`, the clock read after the call, `revents`, what `orb_copy`
copies out, and the clock read by `_ack_vehicle_command`. -/
structure CmdPoll where
  poll_start : Nat
  ret : Int
  errno : Int
  poll_end : Nat
  revents : Nat
  vehicle_command : vehicle_command_s
  ack_time : Nat
deriving DecidableEq, Repr

/-- The record `vehicle_command_ack` that `_ack_vehicle_command` builds; `now`
is the clock read for its timestamp. -/
def vehicle_command_ack_for (K : Consts) (cmd : vehicle_command_s) (now : Nat) :
    vehicle_command_ack_s where
  timestamp := now
  result_param2 := 0
  command := cmd.command
  result := K.VEHICLE_CMD_RESULT_ACCEPTED
  from_external := false
  result_param1 := 0
  target_system := cmd.source_system
  target_component := cmd.source_component

/-- Method `InputMavlinkCmdMount::_ack_vehicle_command`: the object after the
call and the call made to uORB. -/
def InputMavlinkCmdMount._ack_vehicle_command (K : Consts) (self : InputMavlinkCmdMount)
    (cmd : vehicle_command_s) (now : Nat) : InputMavlinkCmdMount × List OrbCall :=
  let vehicle_command_ack := vehicle_command_ack_for K cmd now
  if self._vehicle_command_ack_pub = false then
    ({ self with _vehicle_command_ack_pub := true },
      [OrbCall.orb_advertise_queue vehicle_command_ack K.ORB_QUEUE_LENGTH])
  else
    (self, [OrbCall.orb_publish vehicle_command_ack])

/-- The constructor `InputMavlinkCmdMount::InputMavlinkCmdMount(bool stabilize)`.
`init` is the object as its default member initialisers leave it (they are
declared in the header, outside the translated file). `MAV_SYS_ID` and
`MAV_COMP_ID` are what the parameter store yields for the two names: `none`
when `param_find` returns `PARAM_INVALID`, otherwise the value `param_get`
stores. -/
def InputMavlinkCmdMount.construct (init : InputMavlinkCmdMount)
    (stabilize : Bool) (MAV_SYS_ID MAV_COMP_ID : Option Int) : InputMavlinkCmdMount :=
  let s0 : InputMavlinkCmdMount := { init with _stabilize := ⟨stabilize, stabilize, stabilize⟩ }
  let s1 : InputMavlinkCmdMount :=
    match MAV_SYS_ID with
    | some v => { s0 with _mav_sys_id := v }
    | none => s0
  match MAV_COMP_ID with
  | some v => { s1 with _mav_comp_id := v }
  | none => s1

/-- Outcome of handling one command that passed the address check: the object,
whether `*control_data` was set to `&_control_data`, the calls made to uORB
and the value of `exit_loop`. -/
structure Dispatch where
  self : InputMavlinkCmdMount
  changed : Bool
  acks : List OrbCall
  exit_loop : Bool
deriving DecidableEq, Repr

/-- The block under `case VEHICLE_MOUNT_MODE_MAVLINK_TARGETING` of the
`DO_MOUNT_CONTROL` switch, up to its `break`. -/
def InputMavlinkCmdMount.case_MAVLINK_TARGETING (K : Consts) (self : InputMavlinkCmdMount)
    (vehicle_command : vehicle_command_s) : InputMavlinkCmdMount :=
  let s1 : InputMavlinkCmdMount :=
    { self with _control_data := { self._control_data with type := ControlDataType.Angle } }
  let roll := F32.mul vehicle_command.param2 K.M_DEG_TO_RAD_F
  let pitch := F32.mul vehicle_command.param1 K.M_DEG_TO_RAD_F
  let yaw := F32.mul vehicle_command.param3 K.M_DEG_TO_RAD_F
  if pitch.isFinite && yaw.isFinite then
    { s1 with
      _control_data :=
        { s1._control_data with
          type_data :=
            { s1._control_data.type_data with
              angle := { s1._control_data.type_data.angle with angles := ⟨roll, pitch, yaw⟩ } } } }
  else
    s1

/-- The `switch ((int)vehicle_command.param7)` of the `DO_MOUNT_CONTROL` branch:
the object and whether `*control_data` was set. `case ..._NEUTRAL` has no
`break` and runs on into `case ..._MAVLINK_TARGETING`. (The closing brace of
this switch is absent from the file; the switch is read as ending where the
`else if` on the command id follows.) -/
def InputMavlinkCmdMount.switch_mount_control (K : Consts) (self : InputMavlinkCmdMount)
    (vehicle_command : vehicle_command_s) : InputMavlinkCmdMount × Bool :=
  let mode : Int := F32.toInt vehicle_command.param7
  if mode = K.VEHICLE_MOUNT_MODE_RETRACT then
    ({ self with _control_data := { self._control_data with gimbal_shutter_retract := true } },
      true)
  else if mode = K.VEHICLE_MOUNT_MODE_NEUTRAL then
    let s1 : InputMavlinkCmdMount :=
      { self with
        _control_data :=
          { self._control_data with
            type := ControlDataType.Neutral
            gimbal_shutter_retract := false } }
    (s1.case_MAVLINK_TARGETING K vehicle_command, true)
  else if mode = K.VEHICLE_MOUNT_MODE_MAVLINK_TARGETING then
    (self.case_MAVLINK_TARGETING K vehicle_command, true)
  else
    (self, false)

/-- The `switch ((int)vehicle_command.param1)` of the `DO_MOUNT_CONFIGURE`
branch: the object and whether `*control_data` was set. -/
def InputMavlinkCmdMount.switch_mount_configure (K : Consts) (self : InputMavlinkCmdMount)
    (vehicle_command : vehicle_command_s) : InputMavlinkCmdMount × Bool :=
  let mode : Int := F32.toInt vehicle_command.param1
  if mode = K.VEHICLE_MOUNT_MODE_RETRACT then
    ({ self with _control_data := { self._control_data with gimbal_shutter_retract := true } },
      true)
  else if mode = K.VEHICLE_MOUNT_MODE_NEUTRAL then
    ({ self with
        _control_data :=
          { self._control_data with
            type := ControlDataType.Neutral
            gimbal_shutter_retract := false } },
      true)
  else
    (self, false)

/-- The six assignments to `_stabilize[i]` and `type_data.angle.is_speed[i]`
that follow the switch of the `DO_MOUNT_CONFIGURE` branch. -/
def InputMavlinkCmdMount.capture_flags (self : InputMavlinkCmdMount)
    (vehicle_command : vehicle_command_s) : InputMavlinkCmdMount :=
  let s1 : InputMavlinkCmdMount :=
    { self with
      _stabilize :=
        ⟨decide (F32.toUInt8 vehicle_command.param2 = 1),
         decide (F32.toUInt8 vehicle_command.param3 = 1),
         decide (F32.toUInt8 vehicle_command.param4 = 1)⟩ }
  { s1 with
    _control_data :=
      { s1._control_data with
        type_data :=
          { s1._control_data.type_data with
            angle :=
              { s1._control_data.type_data.angle with
                is_speed :=
                  ⟨decide (F64.toUInt8 vehicle_command.param5 = 1),
                   decide (F64.toUInt8 vehicle_command.param6 = 1),
                   decide (F32.toUInt8 vehicle_command.param7 = 1)⟩ } } } }

/-- The two statements `float zoom = (int)vehicle_command.param2;
_control_data.zoom = zoom;` of the `DO_DIGICAM_CONTROL` branch. -/
def InputMavlinkCmdMount.set_zoom (self : InputMavlinkCmdMount)
    (vehicle_command : vehicle_command_s) : InputMavlinkCmdMount :=
  let zoom : F32 := F32.ofInt (F32.toInt vehicle_command.param2)
  { self with _control_data := { self._control_data with zoom := zoom } }

/-- The if-chain on `vehicle_command.command` in
`InputMavlinkCmdMount::update_impl`, entered with `exit_loop == true` once the
address check has passed. `now` is the clock read by `_ack_vehicle_command`. -/
def InputMavlinkCmdMount.dispatch (K : Consts) (self : InputMavlinkCmdMount)
    (vehicle_command : vehicle_command_s) (now : Nat) : Dispatch :=
  if vehicle_command.command = K.VEHICLE_CMD_DO_MOUNT_CONTROL then
    let r := self.switch_mount_control K vehicle_command
    { self := r.1, changed := r.2, acks := [], exit_loop := true }
  else if vehicle_command.command = K.VEHICLE_CMD_DO_MOUNT_CONFIGURE then
    let r := self.switch_mount_configure K vehicle_command
    let s1 := r.1.capture_flags vehicle_command
    let a := s1._ack_vehicle_command K vehicle_command now
    { self := a.1, changed := true, acks := a.2, exit_loop := true }
  else if vehicle_command.command = K.VEHICLE_CMD_DO_DIGICAM_CONTROL then
    let s1 := self.set_zoom vehicle_command
    let a := s1._ack_vehicle_command K vehicle_command now
    { self := a.1, changed := false, acks := a.2, exit_loop := true }
  else
    { self := self, changed := false, acks := [], exit_loop := false }

/-- What is done with a command copied out by `orb_copy`: the address check,
then either `continue` with `exit_loop = false` or the dispatch on the
command id. -/
def InputMavlinkCmdMount.on_vehicle_command (K : Consts) (self : InputMavlinkCmdMount)
    (vehicle_command : vehicle_command_s) (now : Nat) : Dispatch :=
  let sysid_correct : Bool := decide ((vehicle_command.target_system : Int) = self._mav_sys_id)
  let compid_correct : Bool :=
    decide ((vehicle_command.target_component : Int) = self._mav_comp_id) ||
      decide (vehicle_command.target_component = 0)
  if !sysid_correct || !compid_correct then
    { self := self, changed := false, acks := [], exit_loop := false }
  else
    self.dispatch K vehicle_command now

/-- Result of one call of `InputMavlinkCmdMount::update_impl`.
`ret` is the returned `int`, or `none` when the delivered records are used up
while the call is blocked in a `px4_poll` whose outcome is not given.
`changed` tells whether `*control_data` points to `_control_data` (`true`) or
is `nullptr`. `acks` are the calls made to uORB and `waits` the timeouts passed
to `px4_poll`, both in order. -/
structure CmdResult where
  ret : Option Int
  changed : Bool
  self : InputMavlinkCmdMount
  acks : List OrbCall
  waits : List Int
deriving DecidableEq, Repr

/-- The expression `(hrt_absolute_time() - poll_start) / 1000`, computed in
`uint64_t`: the whole milliseconds measured for the wait. -/
def CmdPoll.elapsed_ms (ev : CmdPoll) : Int :=
  toUInt64 ((ev.poll_end : Int) - (ev.poll_start : Int)) / 1000

/-- The statement `poll_timeout -= (hrt_absolute_time() - poll_start) / 1000`:
the difference and the quotient are computed in `uint64_t`, the subtraction
from `poll_timeout` as well, and the result is converted back to `int`. -/
def CmdPoll.charge (ev : CmdPoll) (poll_timeout : Int) : Int :=
  toInt32 (toUInt64 (toUInt64 poll_timeout - ev.elapsed_ms))

/-- The `while (!exit_loop && poll_timeout >= 0)` loop of
`InputMavlinkCmdMount::update_impl`, entered with `exit_loop == false`; each
iteration uses up one delivered record. -/
def InputMavlinkCmdMount.poll_loop (K : Consts) :
    InputMavlinkCmdMount → Int → List CmdPoll → CmdResult
  | self, poll_timeout, [] =>
    if poll_timeout ≥ 0 then
      { ret := none, changed := false, self := self, acks := [], waits := [poll_timeout] }
    else
      { ret := some 0, changed := false, self := self, acks := [], waits := [] }
  | self, poll_timeout, ev :: rest =>
    if poll_timeout ≥ 0 then
      if ev.ret < 0 then
        { ret := some (-ev.errno), changed := false, self := self, acks := [],
          waits := [poll_timeout] }
      else
        let poll_timeout1 := ev.charge poll_timeout
        if ev.ret = 0 then
          { ret := some 0, changed := false, self := self, acks := [], waits := [poll_timeout] }
        else if ev.revents &&& K.POLLIN ≠ 0 then
          let d := self.on_vehicle_command K ev.vehicle_command ev.ack_time
          if d.exit_loop then
            { ret := some 0, changed := d.changed, self := d.self, acks := d.acks,
              waits := [poll_timeout] }
          else
            let r := InputMavlinkCmdMount.poll_loop K d.self poll_timeout1 rest
            { r with
              changed := d.changed || r.changed
              acks := d.acks ++ r.acks
              waits := poll_timeout :: r.waits }
        else
          { ret := some 0, changed := false, self := self, acks := [], waits := [poll_timeout] }
    else
      { ret := some 0, changed := false, self := self, acks := [], waits := [] }

/-- Method `InputMavlinkCmdMount::update_impl`; `timeout_ms` is an
`unsigned int`, converted to `int` by the cast that initialises `poll_timeout`. -/
def InputMavlinkCmdMount.update_impl (K : Consts) (self : InputMavlinkCmdMount)
    (timeout_ms : Nat) (already_active : Bool) (evs : List CmdPoll) : CmdResult :=
  self.poll_loop K (toInt32 (timeout_ms : Int)) evs

/-! ## Vocabulary of the statements -/

/-- The record delivers a command: `px4_poll` returned a positive count and
`POLLIN` is set in `revents`. -/
def CmdPoll.delivers (K : Consts) (ev : CmdPoll) : Prop :=
  0 < ev.ret ∧ ev.revents &&& K.POLLIN ≠ 0

instance (K : Consts) (ev : CmdPoll) : Decidable (ev.delivers K) := by
  unfold CmdPoll.delivers; infer_instance

/-- The wait timed out: `px4_poll` returned 0. -/
def CmdPoll.timesOut (ev : CmdPoll) : Prop := ev.ret = 0

instance (ev : CmdPoll) : Decidable ev.timesOut := by
  unfold CmdPoll.timesOut; infer_instance

/-- Address match in the words of the spec: the target system is the configured
system id and the target component is the configured component id or 0. -/
def InputMavlinkCmdMount.addressed (self : InputMavlinkCmdMount)
    (cmd : vehicle_command_s) : Prop :=
  (cmd.target_system : Int) = self._mav_sys_id ∧
    ((cmd.target_component : Int) = self._mav_comp_id ∨ cmd.target_component = 0)

instance (self : InputMavlinkCmdMount) (cmd : vehicle_command_s) :
    Decidable (self.addressed cmd) := by
  unfold InputMavlinkCmdMount.addressed; infer_instance

/-- The command id is none of the three the input handles. -/
def Consts.unrecognized (K : Consts) (cmd : vehicle_command_s) : Prop :=
  cmd.command ≠ K.VEHICLE_CMD_DO_MOUNT_CONTROL ∧
  cmd.command ≠ K.VEHICLE_CMD_DO_MOUNT_CONFIGURE ∧
  cmd.command ≠ K.VEHICLE_CMD_DO_DIGICAM_CONTROL

instance (K : Consts) (cmd : vehicle_command_s) : Decidable (K.unrecognized cmd) := by
  unfold Consts.unrecognized; infer_instance

/-- The record delivers a command that fails the address match or whose id is
not recognized. -/
def CmdPoll.discarded (K : Consts) (self : InputMavlinkCmdMount) (ev : CmdPoll) : Prop :=
  ev.delivers K ∧ (¬ self.addressed ev.vehicle_command ∨ K.unrecognized ev.vehicle_command)

instance (K : Consts) (self : InputMavlinkCmdMount) (ev : CmdPoll) :
    Decidable (ev.discarded K self) := by
  unfold CmdPoll.discarded; infer_instance

/-- Wall-clock duration of the wait in microseconds: the difference of the two
clock reads around `px4_poll`. -/
def CmdPoll.elapsed_us (ev : CmdPoll) : Int := (ev.poll_end : Int) - (ev.poll_start : Int)

/-- The two clock reads around the wait are `uint64_t` values of a monotonic
clock. -/
def CmdPoll.monotonic (ev : CmdPoll) : Prop :=
  ev.poll_start ≤ ev.poll_end ∧ ev.poll_end < 2 ^ 64

instance (ev : CmdPoll) : Decidable ev.monotonic := by
  unfold CmdPoll.monotonic; infer_instance

/-- The record delivers an ROI message: `px4_poll` returned a positive count
and `POLLIN` is set for the ROI descriptor. -/
def RoiPoll.roiReady (K : Consts) (ev : RoiPoll) : Prop :=
  0 < ev.ret ∧ ev.revents0 &&& K.POLLIN ≠ 0

instance (K : Consts) (ev : RoiPoll) : Decidable (ev.roiReady K) := by
  unfold RoiPoll.roiReady; infer_instance

/-- Only the position-setpoint source is ready: `px4_poll` returned a positive
count, `POLLIN` is set for the setpoint descriptor and not for the ROI
descriptor. -/
def RoiPoll.setpointOnly (K : Consts) (ev : RoiPoll) : Prop :=
  0 < ev.ret ∧ ev.revents0 &&& K.POLLIN = 0 ∧ ev.revents1 &&& K.POLLIN ≠ 0

instance (K : Consts) (ev : RoiPoll) : Decidable (ev.setpointOnly K) := by
  unfold RoiPoll.setpointOnly; infer_instance

/-- The object after a series of `update_impl` calls, one per record. -/
def InputMavlinkROI.after (K : Consts) (timeout_ms : Nat) (self : InputMavlinkROI)
    (evs : List RoiPoll) : InputMavlinkROI :=
  evs.foldl (fun s ev => (s.update_impl K timeout_ms false ev).self) self

/-- The records for which the call issued a wait: as many as timeouts were
passed to `px4_poll`. -/
def CmdResult.waited (r : CmdResult) (evs : List CmdPoll) : List CmdPoll :=
  evs.take r.waits.length

/-! ## Concrete data for runs -/

/-- A `ControlData` with every field zero or false and type Neutral. -/
def ControlData.zeroed : ControlData where
  type_data :=
    { angle := { angles := ⟨⟨0⟩, ⟨0⟩, ⟨0⟩⟩, is_speed := ⟨false, false, false⟩ }
      lonlat := { lon := ⟨0⟩, lat := ⟨0⟩, altitude := ⟨0⟩, roll_angle := ⟨0⟩,
                  pitch_fixed_angle := ⟨0⟩ } }
  type := ControlDataType.Neutral
  gimbal_shutter_retract := false
  zoom := ⟨0⟩
  stabilize_axis := ⟨false, false, false⟩

/-- An `InputMavlinkCmdMount` with system id 1 and component id 1, zeroed
control data and no acknowledgment channel yet. -/
def cmdMount0 : InputMavlinkCmdMount where
  _control_data := ControlData.zeroed
  _stabilize := ⟨false, false, false⟩
  _mav_sys_id := 1
  _mav_comp_id := 1
  _vehicle_command_sub := 3
  _vehicle_command_ack_pub := false

/-- A command to system 1, component 1, from system 255, component 190, with
the given id, `param1`, `param2`, `param3` and `param7` (bit patterns) and the
other parameters zero. -/
def mkCommand (command p1 p2 p3 p7 : Nat) : vehicle_command_s where
  param1 := ⟨p1⟩
  param2 := ⟨p2⟩
  param3 := ⟨p3⟩
  param4 := ⟨0⟩
  param5 := ⟨0⟩
  param6 := ⟨0⟩
  param7 := ⟨p7⟩
  command := command
  target_system := 1
  target_component := 1
  source_system := 255
  source_component := 190

/-- A `px4_poll` that returns 1 with `POLLIN` set after `us` microseconds,
`orb_copy` yielding `cmd`. -/
def delivered (us : Nat) (cmd : vehicle_command_s) : CmdPoll where
  poll_start := 1000000
  ret := 1
  errno := 0
  poll_end := 1000000 + us
  revents := 1
  vehicle_command := cmd
  ack_time := 1000000 + us

/-- A `px4_poll` that returns 0 after `us` microseconds. -/
def timedOut (us : Nat) : CmdPoll where
  poll_start := 1000000
  ret := 0
  errno := 0
  poll_end := 1000000 + us
  revents := 0
  vehicle_command := mkCommand 0 0 0 0 0
  ack_time := 0

/-- `DO_MOUNT_CONTROL` with `param7 = 0.0f` (mode RETRACT). -/
def retractCommand : vehicle_command_s := mkCommand 205 0 0 0 0

/-- `DO_MOUNT_CONTROL` with `param1 = 90.0f` (pitch), `param2 = 0.0f` (roll),
`param3 = 180.0f` (yaw) and `param7 = 2.0f` (mode MAVLINK_TARGETING). -/
def targetingCommand : vehicle_command_s := mkCommand 205 0x42B40000 0 0x43340000 0x40000000


/-- `DO_MOUNT_CONTROL`, mode RETRACT, addressed to system 7. -/
def otherSystemCommand : vehicle_command_s := { retractCommand with target_system := 7 }

/-- A command with id 999, addressed to system 1, component 1. -/
def unknownCommand : vehicle_command_s := mkCommand 999 0 0 0 0

/-- An `InputMavlinkROI` with zeroed control data and current ROI mode 0. -/
def roi0 : InputMavlinkROI where
  _control_data := ControlData.zeroed
  _cur_roi_mode := 0
  _vehicle_roi_sub := 3
  _position_setpoint_triplet_sub := 4

/-- A position setpoint triplet whose next leg has the given bit patterns. -/
def mkTriplet (lat lon alt : Nat) : position_setpoint_triplet_s where
  next := { lat := ⟨lat⟩, lon := ⟨lon⟩, alt := ⟨alt⟩ }

/-- A `px4_poll` on the two ROI descriptors returning `ret` with the given
`revents`, the ROI topic holding mode `mode` and the setpoint topic `triplet`. -/
def roiPoll (ret : Int) (revents0 revents1 mode : Nat)
    (triplet : position_setpoint_triplet_s) : RoiPoll where
  ret := ret
  errno := 0
  revents0 := revents0
  revents1 := revents1
  vehicle_roi := { mode := mode, lat := ⟨0⟩, lon := ⟨0⟩, alt := ⟨0⟩ }
  position_setpoint_triplet := triplet

/-- `DO_MOUNT_CONFIGURE` with `param1 = 1.0f` (mode NEUTRAL) and the other
parameters zero. -/
def configureCommand : vehicle_command_s := mkCommand 204 0x3F800000 0 0 0

/-- `DO_MOUNT_CONTROL`, mode MAVLINK_TARGETING, with `param1` (pitch) positive
infinity, `param2 = 0.0f` and `param3 = 180.0f`. -/
def infinitePitchCommand : vehicle_command_s := mkCommand 205 0x7F800000 0 0x43340000 0x40000000

/-- `DO_MOUNT_CONTROL` with `param7 = 1.0f` (mode NEUTRAL) and the angles of
`targetingCommand`. -/
def neutralCommand : vehicle_command_s := mkCommand 205 0x42B40000 0 0x43340000 0x3F800000

/-- An `InputMavlinkCmdMount` like `cmdMount0` but retracted, with type LonLat
and angles (1.0f, 2.0f, 3.0f). -/
def cmdMount1 : InputMavlinkCmdMount :=
  { cmdMount0 with
    _control_data :=
      { ControlData.zeroed with
        type := ControlDataType.LonLat
        gimbal_shutter_retract := true
        type_data :=
          { ControlData.zeroed.type_data with
            angle :=
              { angles := ⟨⟨0x3F800000⟩, ⟨0x40000000⟩, ⟨0x40400000⟩⟩
                is_speed := ⟨false, false, false⟩ } } } }

/-- A `px4_poll` that fails after `us` microseconds, leaving `errno = 4`. -/
def failed (us : Nat) : CmdPoll where
  poll_start := 1000000
  ret := -1
  errno := 4
  poll_end := 1000000 + us
  revents := 0
  vehicle_command := mkCommand 0 0 0 0 0
  ack_time := 0

/-- A failing `px4_poll` on the two ROI descriptors, leaving `errno = 4`. -/
def roiFailed : RoiPoll := { roiPoll (-1) 0 0 0 (mkTriplet 0 0 0) with errno := 4 }

/-- `DO_MOUNT_CONFIGURE` with `param1 = 0.0f` (mode RETRACT), `param2 = 1.5f`,
`param3 = 2.0f`, `param4 = 1.0f`, `param5 = 1.0` and `param6 = 2.0` (doubles)
and `param7 = 1.0f`. -/
def configureFlagsCommand : vehicle_command_s :=
  { mkCommand 204 0 0x3FC00000 0x40000000 0x3F800000 with
    param4 := ⟨0x3F800000⟩
    param5 := ⟨0x3FF0000000000000⟩
    param6 := ⟨0x4000000000000000⟩ }

/-- `DO_DIGICAM_CONTROL` with `param2 = 3.75f`. -/
def digicamCommand : vehicle_command_s := mkCommand 203 0 0x40700000 0 0

/-- `DO_MOUNT_CONTROL`, mode MAVLINK_TARGETING, with `param1 = 90.0f` (pitch),
`param2` (roll) a NaN and `param3 = 180.0f` (yaw). -/
def nanRollCommand : vehicle_command_s :=
  mkCommand 205 0x42B40000 0x7FC00000 0x43340000 0x40000000
/-! ## Lemmas on the conversions -/

theorem toInt32_of_lt (t : Nat) (h : t < 2 ^ 31) : toInt32 (t : Int) = (t : Int) := by
  unfold toInt32
  omega

theorem toInt32_nonneg_of_lt (t : Nat) (h : t < 2 ^ 31) : toInt32 (t : Int) ≥ 0 := by
  rw [toInt32_of_lt t h]
  omega

/-! ## Lemmas on the handling of one command -/

theorem on_vehicle_command_addressed (K : Consts) (self : InputMavlinkCmdMount)
    (cmd : vehicle_command_s) (now : Nat) (h : self.addressed cmd) :
    self.on_vehicle_command K cmd now = self.dispatch K cmd now := by
  obtain ⟨h1, h2⟩ := h
  unfold InputMavlinkCmdMount.on_vehicle_command
  rcases h2 with h2 | h2 <;> simp [h1, h2]

theorem on_vehicle_command_not_addressed (K : Consts) (self : InputMavlinkCmdMount)
    (cmd : vehicle_command_s) (now : Nat) (h : ¬ self.addressed cmd) :
    self.on_vehicle_command K cmd now =
      { self := self, changed := false, acks := [], exit_loop := false } := by
  unfold InputMavlinkCmdMount.addressed at h
  unfold InputMavlinkCmdMount.on_vehicle_command
  by_cases h1 : (cmd.target_system : Int) = self._mav_sys_id
  · have h2 : ¬ ((cmd.target_component : Int) = self._mav_comp_id ∨ cmd.target_component = 0) :=
      fun h2 => h ⟨h1, h2⟩
    push_neg at h2
    simp [h1, h2.1, h2.2]
  · simp [h1]

/-- One iteration of the loop on a delivered, addressed command that ends the
loop. -/
theorem poll_loop_delivered (K : Consts) (self : InputMavlinkCmdMount) (poll_timeout : Int)
    (ev : CmdPoll) (rest : List CmdPoll) (hp : 0 ≤ poll_timeout) (hd : ev.delivers K)
    (ha : self.addressed ev.vehicle_command)
    (hx : (self.dispatch K ev.vehicle_command ev.ack_time).exit_loop = true) :
    self.poll_loop K poll_timeout (ev :: rest) =
      { ret := some 0
        changed := (self.dispatch K ev.vehicle_command ev.ack_time).changed
        self := (self.dispatch K ev.vehicle_command ev.ack_time).self
        acks := (self.dispatch K ev.vehicle_command ev.ack_time).acks
        waits := [poll_timeout] } := by
  obtain ⟨hr, hv⟩ := hd
  have hr1 : ¬ ev.ret < 0 := by omega
  have hr2 : ¬ ev.ret = 0 := by omega
  simp only [InputMavlinkCmdMount.poll_loop]
  rw [on_vehicle_command_addressed K self _ _ ha]
  simp [hp, hr1, hr2, hv, hx]

theorem dispatch_mount_control (K : Consts) (self : InputMavlinkCmdMount)
    (cmd : vehicle_command_s) (now : Nat)
    (hc : cmd.command = K.VEHICLE_CMD_DO_MOUNT_CONTROL) :
    self.dispatch K cmd now =
      { self := (self.switch_mount_control K cmd).1
        changed := (self.switch_mount_control K cmd).2
        acks := []
        exit_loop := true } := by
  unfold InputMavlinkCmdMount.dispatch
  simp [hc]

theorem switch_mount_control_retract (K : Consts) (self : InputMavlinkCmdMount)
    (cmd : vehicle_command_s)
    (hm : F32.toInt cmd.param7 = K.VEHICLE_MOUNT_MODE_RETRACT) :
    self.switch_mount_control K cmd =
      ({ self with _control_data := { self._control_data with gimbal_shutter_retract := true } },
        true) := by
  unfold InputMavlinkCmdMount.switch_mount_control
  simp [hm]

theorem switch_mount_control_targeting (K : Consts) (hK : K.distinct)
    (self : InputMavlinkCmdMount) (cmd : vehicle_command_s)
    (hm : F32.toInt cmd.param7 = K.VEHICLE_MOUNT_MODE_MAVLINK_TARGETING) :
    self.switch_mount_control K cmd = (self.case_MAVLINK_TARGETING K cmd, true) := by
  obtain ⟨h1, h2, h3, _⟩ := hK
  unfold InputMavlinkCmdMount.switch_mount_control
  simp [hm, Ne.symm h2, Ne.symm h3]

theorem switch_mount_control_neutral (K : Consts) (hK : K.distinct)
    (self : InputMavlinkCmdMount) (cmd : vehicle_command_s)
    (hm : F32.toInt cmd.param7 = K.VEHICLE_MOUNT_MODE_NEUTRAL) :
    self.switch_mount_control K cmd =
      (InputMavlinkCmdMount.case_MAVLINK_TARGETING K
        { self with
          _control_data :=
            { self._control_data with
              type := ControlDataType.Neutral
              gimbal_shutter_retract := false } } cmd, true) := by
  obtain ⟨h1, h2, h3, _⟩ := hK
  unfold InputMavlinkCmdMount.switch_mount_control
  simp [hm, Ne.symm h1]

theorem case_MAVLINK_TARGETING_type (K : Consts) (self : InputMavlinkCmdMount)
    (cmd : vehicle_command_s) :
    (self.case_MAVLINK_TARGETING K cmd)._control_data.type = ControlDataType.Angle := by
  unfold InputMavlinkCmdMount.case_MAVLINK_TARGETING
  dsimp only
  split <;> rfl

theorem case_MAVLINK_TARGETING_retract (K : Consts) (self : InputMavlinkCmdMount)
    (cmd : vehicle_command_s) :
    (self.case_MAVLINK_TARGETING K cmd)._control_data.gimbal_shutter_retract =
      self._control_data.gimbal_shutter_retract := by
  unfold InputMavlinkCmdMount.case_MAVLINK_TARGETING
  dsimp only
  split <;> rfl

/-- The targeting case writes only `type` and the three angles. -/
theorem case_MAVLINK_TARGETING_frame (K : Consts) (self : InputMavlinkCmdMount)
    (cmd : vehicle_command_s) :
    (self.case_MAVLINK_TARGETING K cmd)._stabilize = self._stabilize ∧
    (self.case_MAVLINK_TARGETING K cmd)._mav_sys_id = self._mav_sys_id ∧
    (self.case_MAVLINK_TARGETING K cmd)._mav_comp_id = self._mav_comp_id ∧
    (self.case_MAVLINK_TARGETING K cmd)._vehicle_command_ack_pub =
      self._vehicle_command_ack_pub := by
  unfold InputMavlinkCmdMount.case_MAVLINK_TARGETING
  dsimp only
  split <;> exact ⟨rfl, rfl, rfl, rfl⟩

/-! ## C1: RETRACT, then MAVLINK_TARGETING in a second call -/

/-- C1, as the code has it: an addressed `DO_MOUNT_CONTROL` with mode RETRACT
handled by one call of `update_impl`, followed in a second call by an addressed
`DO_MOUNT_CONTROL` with mode MAVLINK_TARGETING. Both calls return 0, the second
reports a change and leaves type Angle, and `gimbal_shutter_retract` is still
`true`: the targeting case does not write that flag. -/
theorem C1_retract_then_targeting (K : Consts) (hK : K.distinct)
    (self : InputMavlinkCmdMount) (t1 t2 : Nat) (a1 a2 : Bool) (ev1 ev2 : CmdPoll)
    (ht1 : t1 < 2 ^ 31) (ht2 : t2 < 2 ^ 31)
    (hd1 : ev1.delivers K) (hd2 : ev2.delivers K)
    (ha1 : self.addressed ev1.vehicle_command) (ha2 : self.addressed ev2.vehicle_command)
    (hc1 : ev1.vehicle_command.command = K.VEHICLE_CMD_DO_MOUNT_CONTROL)
    (hc2 : ev2.vehicle_command.command = K.VEHICLE_CMD_DO_MOUNT_CONTROL)
    (hm1 : F32.toInt ev1.vehicle_command.param7 = K.VEHICLE_MOUNT_MODE_RETRACT)
    (hm2 : F32.toInt ev2.vehicle_command.param7 = K.VEHICLE_MOUNT_MODE_MAVLINK_TARGETING) :
    (self.update_impl K t1 a1 [ev1]).ret = some 0 ∧
    ((self.update_impl K t1 a1 [ev1]).self.update_impl K t2 a2 [ev2]).ret = some 0 ∧
    ((self.update_impl K t1 a1 [ev1]).self.update_impl K t2 a2 [ev2]).changed = true ∧
    ((self.update_impl K t1 a1 [ev1]).self.update_impl K t2 a2 [ev2]).self._control_data.type =
      ControlDataType.Angle ∧
    ((self.update_impl K t1 a1 [ev1]).self.update_impl K t2 a2
      [ev2]).self._control_data.gimbal_shutter_retract = true := by
  have e1 : self.update_impl K t1 a1 [ev1] =
      { ret := some 0, changed := true
        self :=
          { self with
            _control_data := { self._control_data with gimbal_shutter_retract := true } }
        acks := [], waits := [toInt32 (t1 : Int)] } := by
    unfold InputMavlinkCmdMount.update_impl
    rw [poll_loop_delivered K self _ ev1 [] (toInt32_nonneg_of_lt t1 ht1) hd1 ha1
      (by rw [dispatch_mount_control K self _ _ hc1])]
    rw [dispatch_mount_control K self _ _ hc1, switch_mount_control_retract K self _ hm1]
  rw [e1]
  refine ⟨rfl, ?_⟩
  dsimp only
  have ha2' : InputMavlinkCmdMount.addressed
      { self with _control_data := { self._control_data with gimbal_shutter_retract := true } }
      ev2.vehicle_command := ha2
  unfold InputMavlinkCmdMount.update_impl
  rw [poll_loop_delivered K _ _ ev2 [] (toInt32_nonneg_of_lt t2 ht2) hd2 ha2'
    (by rw [dispatch_mount_control K _ _ _ hc2])]
  rw [dispatch_mount_control K _ _ _ hc2, switch_mount_control_targeting K hK _ _ hm2]
  refine ⟨rfl, rfl, ?_, ?_⟩
  · exact case_MAVLINK_TARGETING_type K _ _
  · exact case_MAVLINK_TARGETING_retract K _ _

/-- C1 at a concrete run: system 1, component 1, RETRACT then MAVLINK_TARGETING
with pitch 90, roll 0, yaw 180. -/
theorem C1_retract_then_targeting_witness :
    ((cmdMount0.update_impl px4 100 false [delivered 500 retractCommand]).self.update_impl
        px4 100 false [delivered 500 targetingCommand]).self._control_data.type =
      ControlDataType.Angle ∧
    ((cmdMount0.update_impl px4 100 false [delivered 500 retractCommand]).self.update_impl
        px4 100 false [delivered 500 targetingCommand]).self._control_data.gimbal_shutter_retract
      = true :=
  (C1_retract_then_targeting px4 (by decide) cmdMount0 100 100 false false
    (delivered 500 retractCommand) (delivered 500 targetingCommand)
    (by decide) (by decide) (by decide) (by decide) (by decide) (by decide)
    (by decide) (by decide) (by decide) (by decide)).2.2.2

/-- C1 as stated fails: in the concrete run (all parameters finite, both
commands addressed to this component and delivered by the first wait of their
call) the final `gimbal_shutter_retract` is not `false`. -/
theorem C1_counterexample :
    px4.distinct ∧
    (delivered 500 retractCommand).delivers px4 ∧
    (delivered 500 targetingCommand).delivers px4 ∧
    cmdMount0.addressed retractCommand ∧ cmdMount0.addressed targetingCommand ∧
    retractCommand.command = px4.VEHICLE_CMD_DO_MOUNT_CONTROL ∧
    targetingCommand.command = px4.VEHICLE_CMD_DO_MOUNT_CONTROL ∧
    F32.toInt retractCommand.param7 = px4.VEHICLE_MOUNT_MODE_RETRACT ∧
    F32.toInt targetingCommand.param7 = px4.VEHICLE_MOUNT_MODE_MAVLINK_TARGETING ∧
    targetingCommand.param1.isFinite = true ∧ targetingCommand.param2.isFinite = true ∧
    targetingCommand.param3.isFinite = true ∧
    ¬ (((cmdMount0.update_impl px4 100 false [delivered 500 retractCommand]).self.update_impl
          px4 100 false
          [delivered 500 targetingCommand]).self._control_data.gimbal_shutter_retract = false ∧
       ((cmdMount0.update_impl px4 100 false [delivered 500 retractCommand]).self.update_impl
          px4 100 false [delivered 500 targetingCommand]).self._control_data.type =
         ControlDataType.Angle) := by
  decide

/-! ## Lemmas on the loop -/

theorem dispatch_unrecognized (K : Consts) (self : InputMavlinkCmdMount)
    (cmd : vehicle_command_s) (now : Nat) (h : K.unrecognized cmd) :
    self.dispatch K cmd now =
      { self := self, changed := false, acks := [], exit_loop := false } := by
  obtain ⟨h1, h2, h3⟩ := h
  unfold InputMavlinkCmdMount.dispatch
  simp [h1, h2, h3]

/-- A command that does not end the loop has no effect at all. -/
theorem on_vehicle_command_continue (K : Consts) (self : InputMavlinkCmdMount)
    (cmd : vehicle_command_s) (now : Nat)
    (h : (self.on_vehicle_command K cmd now).exit_loop = false) :
    self.on_vehicle_command K cmd now =
      { self := self, changed := false, acks := [], exit_loop := false } := by
  by_cases ha : self.addressed cmd
  · rw [on_vehicle_command_addressed K self cmd now ha] at h ⊢
    unfold InputMavlinkCmdMount.dispatch at h ⊢
    split_ifs at h ⊢
    rfl
  · exact on_vehicle_command_not_addressed K self cmd now ha

theorem on_vehicle_command_discarded (K : Consts) (self : InputMavlinkCmdMount)
    (ev : CmdPoll) (h : ev.discarded K self) :
    self.on_vehicle_command K ev.vehicle_command ev.ack_time =
      { self := self, changed := false, acks := [], exit_loop := false } := by
  obtain ⟨_, h | h⟩ := h
  · exact on_vehicle_command_not_addressed K self _ _ h
  · by_cases ha : self.addressed ev.vehicle_command
    · rw [on_vehicle_command_addressed K self _ _ ha]
      exact dispatch_unrecognized K self _ _ h
    · exact on_vehicle_command_not_addressed K self _ _ ha

/-- One iteration of the loop on a delivered command that does not end it: the
wait is recorded and the loop goes on with the budget charged. -/
theorem poll_loop_continue (K : Consts) (self : InputMavlinkCmdMount) (poll_timeout : Int)
    (ev : CmdPoll) (rest : List CmdPoll) (hp : 0 ≤ poll_timeout) (hd : ev.delivers K)
    (hx : (self.on_vehicle_command K ev.vehicle_command ev.ack_time).exit_loop = false) :
    self.poll_loop K poll_timeout (ev :: rest) =
      { self.poll_loop K (ev.charge poll_timeout) rest with
        waits := poll_timeout :: (self.poll_loop K (ev.charge poll_timeout) rest).waits } := by
  obtain ⟨hr, hv⟩ := hd
  have hr1 : ¬ ev.ret < 0 := by omega
  have hr2 : ¬ ev.ret = 0 := by omega
  have e := on_vehicle_command_continue K self _ _ hx
  simp only [InputMavlinkCmdMount.poll_loop]
  rw [e]
  simp [hp, hr1, hr2, hv]

theorem poll_loop_negative (K : Consts) (self : InputMavlinkCmdMount) (poll_timeout : Int)
    (evs : List CmdPoll) (hp : poll_timeout < 0) :
    self.poll_loop K poll_timeout evs =
      { ret := some 0, changed := false, self := self, acks := [], waits := [] } := by
  have hp1 : ¬ poll_timeout ≥ 0 := by omega
  cases evs <;> simp [InputMavlinkCmdMount.poll_loop, hp1]

theorem poll_loop_timesOut (K : Consts) (self : InputMavlinkCmdMount) (poll_timeout : Int)
    (ev : CmdPoll) (rest : List CmdPoll) (hp : 0 ≤ poll_timeout) (h : ev.timesOut) :
    self.poll_loop K poll_timeout (ev :: rest) =
      { ret := some 0, changed := false, self := self, acks := [], waits := [poll_timeout] } := by
  unfold CmdPoll.timesOut at h
  simp [InputMavlinkCmdMount.poll_loop, hp, h]

theorem poll_loop_fails (K : Consts) (self : InputMavlinkCmdMount) (poll_timeout : Int)
    (ev : CmdPoll) (rest : List CmdPoll) (hp : 0 ≤ poll_timeout) (h : ev.ret < 0) :
    self.poll_loop K poll_timeout (ev :: rest) =
      { ret := some (-ev.errno), changed := false, self := self, acks := [],
        waits := [poll_timeout] } := by
  simp [InputMavlinkCmdMount.poll_loop, hp, h]

/-- Discarded commands followed by a timeout: whatever the budget, the loop
returns 0 with nothing changed and nothing published. -/
theorem poll_loop_discarded_then_timeout (K : Consts) (self : InputMavlinkCmdMount)
    (evs : List CmdPoll) (last : CmdPoll)
    (hd : ∀ ev ∈ evs, ev.discarded K self) (hl : last.timesOut) (poll_timeout : Int) :
    (self.poll_loop K poll_timeout (evs ++ [last])).ret = some 0 ∧
    (self.poll_loop K poll_timeout (evs ++ [last])).changed = false ∧
    (self.poll_loop K poll_timeout (evs ++ [last])).self = self ∧
    (self.poll_loop K poll_timeout (evs ++ [last])).acks = [] := by
  induction evs generalizing poll_timeout with
  | nil =>
    by_cases hp : 0 ≤ poll_timeout
    · rw [List.nil_append, poll_loop_timesOut K self _ _ _ hp hl]
      exact ⟨rfl, rfl, rfl, rfl⟩
    · rw [poll_loop_negative K self _ _ (by omega)]
      exact ⟨rfl, rfl, rfl, rfl⟩
  | cons ev rest ih =>
    by_cases hp : 0 ≤ poll_timeout
    · have hev := hd ev (List.mem_cons_self _ _)
      have hx := on_vehicle_command_discarded K self ev hev
      rw [List.cons_append, poll_loop_continue K self _ _ _ hp hev.1 (by rw [hx])]
      exact ih (fun e he => hd e (List.mem_cons_of_mem _ he)) _
    · rw [poll_loop_negative K self _ _ (by omega)]
      exact ⟨rfl, rfl, rfl, rfl⟩

/-! ## C2: discarded commands leave everything as it was -/

/-- C2: for every state, timeout and finite sequence of delivered commands each
of which fails the address match or has an id other than `DO_MOUNT_CONTROL`,
`DO_MOUNT_CONFIGURE` and `DO_DIGICAM_CONTROL`, followed by a wait that times
out, `update_impl` returns 0 with `*control_data` null, the object (control
data, stabilize flags and all other members) is what it was before the call,
and nothing is published. -/
theorem C2_discarded_commands_no_change (K : Consts) (self : InputMavlinkCmdMount)
    (timeout_ms : Nat) (already_active : Bool) (evs : List CmdPoll) (last : CmdPoll)
    (hd : ∀ ev ∈ evs, ev.discarded K self) (hl : last.timesOut) :
    (self.update_impl K timeout_ms already_active (evs ++ [last])).ret = some 0 ∧
    (self.update_impl K timeout_ms already_active (evs ++ [last])).changed = false ∧
    (self.update_impl K timeout_ms already_active (evs ++ [last])).self = self ∧
    (self.update_impl K timeout_ms already_active (evs ++ [last])).acks = [] := by
  unfold InputMavlinkCmdMount.update_impl
  exact poll_loop_discarded_then_timeout K self evs last hd hl _

/-- C2 at a concrete run: a command for another system and a command with an
unknown id, then a timeout. -/
theorem C2_discarded_commands_no_change_witness :
    (cmdMount0.update_impl px4 100 false
      ([delivered 300 otherSystemCommand, delivered 300 unknownCommand] ++ [timedOut 400])).ret
      = some 0 ∧
    (cmdMount0.update_impl px4 100 false
      ([delivered 300 otherSystemCommand, delivered 300 unknownCommand] ++
        [timedOut 400])).changed = false ∧
    (cmdMount0.update_impl px4 100 false
      ([delivered 300 otherSystemCommand, delivered 300 unknownCommand] ++
        [timedOut 400])).self = cmdMount0 ∧
    (cmdMount0.update_impl px4 100 false
      ([delivered 300 otherSystemCommand, delivered 300 unknownCommand] ++
        [timedOut 400])).acks = [] :=
  C2_discarded_commands_no_change px4 cmdMount0 100 false
    [delivered 300 otherSystemCommand, delivered 300 unknownCommand] (timedOut 400)
    (by decide) (by decide)

/-! ## C4: when the loop waits again -/

theorem poll_loop_waits_nonneg (K : Consts) (self : InputMavlinkCmdMount)
    (evs : List CmdPoll) (poll_timeout : Int) :
    ∀ w ∈ (self.poll_loop K poll_timeout evs).waits, 0 ≤ w := by
  induction evs generalizing self poll_timeout with
  | nil =>
    intro w hw
    by_cases hp : poll_timeout ≥ 0
    · simp [InputMavlinkCmdMount.poll_loop, hp] at hw
      omega
    · simp [InputMavlinkCmdMount.poll_loop, hp] at hw
  | cons ev rest ih =>
    intro w hw
    by_cases hp : poll_timeout ≥ 0
    · simp only [InputMavlinkCmdMount.poll_loop, hp, if_true] at hw
      split_ifs at hw
      all_goals first
        | (simp at hw; omega)
        | (simp only [List.mem_cons] at hw
           rcases hw with hw | hw
           · omega
           · exact ih _ _ w hw)
    · simp [InputMavlinkCmdMount.poll_loop, hp] at hw

/-- The head of the recorded waits when the budget is not negative. -/
theorem poll_loop_waits_head (K : Consts) (self : InputMavlinkCmdMount)
    (evs : List CmdPoll) (poll_timeout : Int) (hp : 0 ≤ poll_timeout) :
    ∃ tl, (self.poll_loop K poll_timeout evs).waits = poll_timeout :: tl := by
  cases evs with
  | nil => exact ⟨[], by simp [InputMavlinkCmdMount.poll_loop, hp]⟩
  | cons ev rest =>
    simp only [InputMavlinkCmdMount.poll_loop, ge_iff_le, hp, if_true]
    split_ifs <;> simp

/-- C4, as the code has it: the loop condition is `poll_timeout >= 0`. No wait
is ever issued with a negative timeout. After a discarded command the loop
returns "no change" without another wait when the remaining budget is negative,
and waits again, with the remaining budget as timeout, when the remaining
budget is positive or zero. -/
theorem C4_waits_again_iff_budget_nonneg (K : Consts) (self : InputMavlinkCmdMount)
    (poll_timeout : Int) (ev : CmdPoll) (rest : List CmdPoll)
    (hp : 0 ≤ poll_timeout) (hd : ev.discarded K self) :
    (∀ (timeout_ms : Nat) (already_active : Bool) (evs : List CmdPoll),
      ∀ w ∈ (self.update_impl K timeout_ms already_active evs).waits, 0 ≤ w) ∧
    (ev.charge poll_timeout < 0 →
      self.poll_loop K poll_timeout (ev :: rest) =
        { ret := some 0, changed := false, self := self, acks := [],
          waits := [poll_timeout] }) ∧
    (0 ≤ ev.charge poll_timeout →
      ∃ tl, (self.poll_loop K poll_timeout (ev :: rest)).waits =
        poll_timeout :: ev.charge poll_timeout :: tl) := by
  have hx := on_vehicle_command_discarded K self ev hd
  have e := poll_loop_continue K self poll_timeout ev rest hp hd.1 (by rw [hx])
  refine ⟨?_, ?_, ?_⟩
  · intro timeout_ms already_active evs
    exact poll_loop_waits_nonneg K self evs _
  · intro hneg
    rw [e, poll_loop_negative K self _ _ hneg]
  · intro hnn
    obtain ⟨tl, htl⟩ := poll_loop_waits_head K self rest _ hnn
    exact ⟨tl, by rw [e, htl]⟩

/-- C4 at a concrete iteration: budget 1 ms, a command for another system
delivered after 1000 microseconds. -/
theorem C4_waits_again_iff_budget_nonneg_witness :
    ∃ tl, (cmdMount0.poll_loop px4 1 (delivered 1000 otherSystemCommand :: [timedOut 0])).waits
      = 1 :: (delivered 1000 otherSystemCommand).charge 1 :: tl :=
  (C4_waits_again_iff_budget_nonneg px4 cmdMount0 1 (delivered 1000 otherSystemCommand)
    [timedOut 0] (by decide) (by decide)).2.2 (by decide)

/-- C4 as stated fails: with a timeout of 1 ms and a discarded command delivered
after 1000 microseconds, the remaining budget is 0 and a second wait, with
timeout 0, is issued. -/
theorem C4_counterexample :
    (delivered 1000 otherSystemCommand).discarded px4 cmdMount0 ∧
    (delivered 1000 otherSystemCommand).charge (toInt32 1) = 0 ∧
    (cmdMount0.update_impl px4 1 false
      [delivered 1000 otherSystemCommand, timedOut 0]).waits = [1, 0] := by
  decide

/-! ## C3: what is charged against the timeout -/

theorem charge_of_le (ev : CmdPoll) (poll_timeout : Int) (hm : ev.monotonic)
    (h0 : 0 ≤ poll_timeout) (h1 : poll_timeout < 2 ^ 31)
    (hw : ev.elapsed_us ≤ 1000 * poll_timeout) :
    ev.charge poll_timeout = poll_timeout - ev.elapsed_ms ∧
    0 ≤ ev.elapsed_ms ∧ ev.elapsed_ms ≤ poll_timeout ∧
    ev.elapsed_us ≤ 1000 * ev.elapsed_ms + 999 := by
  obtain ⟨hm1, hm2⟩ := hm
  unfold CmdPoll.charge CmdPoll.elapsed_ms toUInt64 toInt32
  unfold CmdPoll.elapsed_us at hw ⊢
  omega

/-- Budget accounting of the loop over discarded commands followed by a
timeout, when every wait lasts at most the timeout it was given. -/
theorem poll_loop_budget (K : Consts) (self : InputMavlinkCmdMount)
    (evs : List CmdPoll) (last : CmdPoll)
    (hd : ∀ ev ∈ evs, ev.discarded K self) (hl : last.timesOut)
    (hm : ∀ ev ∈ evs ++ [last], ev.monotonic)
    (poll_timeout : Int) (h0 : 0 ≤ poll_timeout) (h1 : poll_timeout < 2 ^ 31)
    (hw : ∀ p ∈ List.zip (self.poll_loop K poll_timeout (evs ++ [last])).waits (evs ++ [last]),
      p.2.elapsed_us ≤ 1000 * p.1) :
    (self.poll_loop K poll_timeout (evs ++ [last])).waits.length = evs.length + 1 ∧
    ((evs ++ [last]).map CmdPoll.elapsed_ms).sum ≤ poll_timeout ∧
    ((evs ++ [last]).map CmdPoll.elapsed_us).sum ≤
      1000 * poll_timeout + 999 * ((evs.length : Int) + 1) := by
  induction evs generalizing poll_timeout with
  | nil =>
    rw [List.nil_append, poll_loop_timesOut K self _ _ _ h0 hl] at hw ⊢
    have hw1 := hw (poll_timeout, last) (by simp)
    have c := charge_of_le last poll_timeout (hm last (by simp)) h0 h1 hw1
    refine ⟨rfl, ?_, ?_⟩
    · simp only [List.map_cons, List.map_nil, List.sum_cons, List.sum_nil]
      omega
    · simp only [List.map_cons, List.map_nil, List.sum_cons, List.sum_nil, List.length_nil]
      push_cast
      omega
  | cons ev rest ih =>
    have hev := hd ev (List.mem_cons_self _ _)
    have hx := on_vehicle_command_discarded K self ev hev
    have e := poll_loop_continue K self poll_timeout ev (rest ++ [last]) h0 hev.1 (by rw [hx])
    rw [List.cons_append] at hw ⊢
    rw [e] at hw ⊢
    simp only [List.zip_cons_cons, List.mem_cons, forall_eq_or_imp] at hw
    obtain ⟨hw1, hw2⟩ := hw
    have c := charge_of_le ev poll_timeout (hm ev (by simp)) h0 h1 hw1
    obtain ⟨c1, c2, c3, c4⟩ := c
    have ih1 := ih (fun e he => hd e (List.mem_cons_of_mem _ he))
      (fun e he => hm e (by
        rw [List.cons_append]
        exact List.mem_cons_of_mem _ he))
      (ev.charge poll_timeout) (by omega) (by omega) hw2
    obtain ⟨i1, i2, i3⟩ := ih1
    simp only [List.map_cons, List.sum_cons, List.length_cons]
    refine ⟨by rw [i1], ?_, ?_⟩
    · omega
    · push_cast
      omega

/-- C3, as the code has it: what is charged against the timeout is, for each
wait, the whole milliseconds measured for it. For a timeout `T < 2^31`, a
monotonic clock, discarded commands followed by a wait that times out, and
every wait lasting at most the timeout it was given: every delivered record is
waited for, the call returns 0 with `*control_data` null, the whole milliseconds
of all waits sum to at most `T`, and the wall-clock time of the waits, in
microseconds, is at most `1000 * T` plus 999 for each wait. -/
theorem C3_budget_in_whole_milliseconds (K : Consts) (self : InputMavlinkCmdMount)
    (timeout_ms : Nat) (already_active : Bool) (evs : List CmdPoll) (last : CmdPoll)
    (hT : timeout_ms < 2 ^ 31)
    (hd : ∀ ev ∈ evs, ev.discarded K self) (hl : last.timesOut)
    (hm : ∀ ev ∈ evs ++ [last], ev.monotonic)
    (hw : ∀ p ∈ List.zip (self.update_impl K timeout_ms already_active (evs ++ [last])).waits
        (evs ++ [last]), p.2.elapsed_us ≤ 1000 * p.1) :
    (self.update_impl K timeout_ms already_active (evs ++ [last])).ret = some 0 ∧
    (self.update_impl K timeout_ms already_active (evs ++ [last])).changed = false ∧
    (self.update_impl K timeout_ms already_active (evs ++ [last])).waits.length =
      evs.length + 1 ∧
    ((evs ++ [last]).map CmdPoll.elapsed_ms).sum ≤ (timeout_ms : Int) ∧
    ((evs ++ [last]).map CmdPoll.elapsed_us).sum ≤
      1000 * (timeout_ms : Int) + 999 * ((evs.length : Int) + 1) := by
  unfold InputMavlinkCmdMount.update_impl at hw ⊢
  have b := poll_loop_budget K self evs last hd hl hm (toInt32 (timeout_ms : Int))
    (toInt32_nonneg_of_lt timeout_ms hT) (by rw [toInt32_of_lt timeout_ms hT]; omega) hw
  have q := poll_loop_discarded_then_timeout K self evs last hd hl (toInt32 (timeout_ms : Int))
  rw [toInt32_of_lt timeout_ms hT] at b q ⊢
  exact ⟨q.1, q.2.1, b.1, b.2.1, b.2.2⟩

/-- C3 at a concrete run: timeout 10 ms, discarded commands after 3000 and 4500
microseconds, then a timeout after 3000 microseconds. -/
theorem C3_budget_in_whole_milliseconds_witness :
    (([delivered 3000 otherSystemCommand, delivered 4500 unknownCommand] ++
        [timedOut 3000]).map CmdPoll.elapsed_ms).sum ≤ ((10 : Nat) : Int) ∧
    (([delivered 3000 otherSystemCommand, delivered 4500 unknownCommand] ++
        [timedOut 3000]).map CmdPoll.elapsed_us).sum ≤
      1000 * ((10 : Nat) : Int) +
        999 * ((([delivered 3000 otherSystemCommand,
          delivered 4500 unknownCommand] : List CmdPoll).length : Int) + 1) :=
  (C3_budget_in_whole_milliseconds px4 cmdMount0 10 false
    [delivered 3000 otherSystemCommand, delivered 4500 unknownCommand] (timedOut 3000)
    (by decide) (by decide) (by decide) (by decide) (by decide)).2.2.2

/-- C3 as stated fails: timeout 1 ms, a monotonic clock, two discarded commands
each delivered after 999 microseconds and a last wait that times out after 1000
microseconds. Every wait was given a timeout of 1 ms and lasted no longer, yet
the waits of the call add up to 2998 microseconds, and after 1998 microseconds
the call was still waiting. -/
theorem C3_counterexample :
    (∀ ev ∈ [delivered 999 otherSystemCommand, delivered 999 unknownCommand],
      ev.discarded px4 cmdMount0) ∧
    (timedOut 1000).timesOut ∧
    (∀ ev ∈ [delivered 999 otherSystemCommand, delivered 999 unknownCommand, timedOut 1000],
      ev.monotonic) ∧
    (cmdMount0.update_impl px4 1 false
      [delivered 999 otherSystemCommand, delivered 999 unknownCommand, timedOut 1000]).waits
      = [1, 1, 1] ∧
    (∀ p ∈ List.zip
        (cmdMount0.update_impl px4 1 false
          [delivered 999 otherSystemCommand, delivered 999 unknownCommand,
            timedOut 1000]).waits
        [delivered 999 otherSystemCommand, delivered 999 unknownCommand, timedOut 1000],
      p.2.elapsed_us ≤ 1000 * p.1) ∧
    ¬ (([delivered 999 otherSystemCommand, delivered 999 unknownCommand,
        timedOut 1000].map CmdPoll.elapsed_us).sum ≤ 1000 * 1) := by
  decide

/-! ## C5: the ROI mode persists across calls -/

theorem roi_update_without_roi_message (K : Consts) (self : InputMavlinkROI)
    (timeout_ms : Nat) (already_active : Bool) (ev : RoiPoll) (h : ¬ ev.roiReady K) :
    (self.update_impl K timeout_ms already_active ev).self._cur_roi_mode =
      self._cur_roi_mode := by
  unfold RoiPoll.roiReady at h
  unfold InputMavlinkROI.update_impl
  by_cases h1 : ev.ret < 0
  · simp [h1]
  · by_cases h2 : ev.ret = 0
    · simp [h2]
    · have h3 : ev.revents0 &&& K.POLLIN = 0 := by
        by_contra h3
        exact h ⟨by omega, h3⟩
      simp only [h1, h2, h3, if_false, ne_eq, not_true_eq_false]
      unfold InputMavlinkROI.on_position_setpoint
        InputMavlinkROI._read_control_data_from_position_setpoint_sub
      split_ifs <;> rfl

theorem roi_after_without_roi_message (K : Consts) (timeout_ms : Nat)
    (evs : List RoiPoll) (self : InputMavlinkROI) (h : ∀ ev ∈ evs, ¬ ev.roiReady K) :
    (self.after K timeout_ms evs)._cur_roi_mode = self._cur_roi_mode := by
  induction evs generalizing self with
  | nil => rfl
  | cons ev rest ih =>
    unfold InputMavlinkROI.after
    rw [List.foldl_cons]
    have := ih (self.update_impl K timeout_ms false ev).self
      (fun e he => h e (List.mem_cons_of_mem _ he))
    unfold InputMavlinkROI.after at this
    rw [this]
    exact roi_update_without_roi_message K self timeout_ms false ev
      (h ev (List.mem_cons_self _ _))

theorem roi_update_roi_message_mode (K : Consts) (self : InputMavlinkROI)
    (timeout_ms : Nat) (already_active : Bool) (ev : RoiPoll) (h : ev.roiReady K) :
    (self.update_impl K timeout_ms already_active ev).self._cur_roi_mode =
      ev.vehicle_roi.mode := by
  obtain ⟨h0, h3⟩ := h
  have h1 : ¬ ev.ret < 0 := by omega
  have h2 : ¬ ev.ret = 0 := by omega
  unfold InputMavlinkROI.update_impl
  simp only [h1, h2, h3, if_false, ne_eq, not_false_eq_true, if_true]
  unfold InputMavlinkROI.on_position_setpoint InputMavlinkROI.on_vehicle_roi
    InputMavlinkROI._read_control_data_from_position_setpoint_sub
  dsimp only
  split_ifs <;> rfl

theorem roi_update_setpoint_only (K : Consts) (self : InputMavlinkROI)
    (timeout_ms : Nat) (already_active : Bool) (ev : RoiPoll) (h : ev.setpointOnly K) :
    self.update_impl K timeout_ms already_active ev =
      { ret := 0
        changed := (self.on_position_setpoint K false ev).2
        self := (self.on_position_setpoint K false ev).1 } := by
  obtain ⟨h0, h3, h4⟩ := h
  have h1 : ¬ ev.ret < 0 := by omega
  have h2 : ¬ ev.ret = 0 := by omega
  unfold InputMavlinkROI.update_impl
  simp [h1, h2, h3, h4]

/-- C5: after an `update_impl` call that processed an ROI message with mode
WPNEXT, and any number of calls without an ROI message, a call in which only
the position-setpoint source is ready returns 0, reports a change and has the
LonLat payload's `lon`, `lat` and `altitude` equal to `next.lon`, `next.lat` and
`next.alt` of the setpoint triplet. After a call that processed an ROI message
with mode NONE instead, such a call returns 0, reports no change and leaves the
object, `_control_data` included, as it was. -/
theorem C5_roi_mode_persists (K : Consts) (hK : K.distinct) (self : InputMavlinkROI)
    (timeout_ms : Nat) (a0 a1 : Bool) (ev0 : RoiPoll) (mid : List RoiPoll) (ev : RoiPoll)
    (h0 : ev0.roiReady K) (hmid : ∀ e ∈ mid, ¬ e.roiReady K) (hs : ev.setpointOnly K) :
    (ev0.vehicle_roi.mode = K.ROI_WPNEXT →
      ((InputMavlinkROI.after K timeout_ms (self.update_impl K timeout_ms a0 ev0).self
          mid).update_impl K timeout_ms a1 ev).ret = 0 ∧
      ((InputMavlinkROI.after K timeout_ms (self.update_impl K timeout_ms a0 ev0).self
          mid).update_impl K timeout_ms a1 ev).changed = true ∧
      ((InputMavlinkROI.after K timeout_ms (self.update_impl K timeout_ms a0 ev0).self
          mid).update_impl K timeout_ms a1 ev).self._control_data.type_data.lonlat.lon =
        ev.position_setpoint_triplet.next.lon ∧
      ((InputMavlinkROI.after K timeout_ms (self.update_impl K timeout_ms a0 ev0).self
          mid).update_impl K timeout_ms a1 ev).self._control_data.type_data.lonlat.lat =
        ev.position_setpoint_triplet.next.lat ∧
      ((InputMavlinkROI.after K timeout_ms (self.update_impl K timeout_ms a0 ev0).self
          mid).update_impl K timeout_ms a1 ev).self._control_data.type_data.lonlat.altitude =
        ev.position_setpoint_triplet.next.alt) ∧
    (ev0.vehicle_roi.mode = K.ROI_NONE →
      (InputMavlinkROI.after K timeout_ms (self.update_impl K timeout_ms a0 ev0).self
          mid).update_impl K timeout_ms a1 ev =
        { ret := 0, changed := false
          self := InputMavlinkROI.after K timeout_ms
            (self.update_impl K timeout_ms a0 ev0).self mid }) := by
  have hmode :
      (InputMavlinkROI.after K timeout_ms (self.update_impl K timeout_ms a0 ev0).self
        mid)._cur_roi_mode = ev0.vehicle_roi.mode := by
    rw [roi_after_without_roi_message K timeout_ms mid _ hmid]
    exact roi_update_roi_message_mode K self timeout_ms a0 ev0 h0
  constructor
  · intro hw
    rw [roi_update_setpoint_only K _ timeout_ms a1 ev hs]
    unfold InputMavlinkROI.on_position_setpoint
      InputMavlinkROI._read_control_data_from_position_setpoint_sub
    rw [hmode, hw]
    simp
  · intro hn
    have hne : K.ROI_NONE ≠ K.ROI_WPNEXT := hK.2.2.2.2.2.2
    rw [roi_update_setpoint_only K _ timeout_ms a1 ev hs]
    unfold InputMavlinkROI.on_position_setpoint
    rw [hmode, hn]
    simp [hne]

/-- C5 at a concrete run: an ROI message with mode WPNEXT, one timeout, then a
setpoint-only wake-up. -/
theorem C5_roi_mode_persists_witness :
    ((InputMavlinkROI.after px4 100
        (roi0.update_impl px4 100 false (roiPoll 1 1 0 1 (mkTriplet 0 0 0))).self
        [roiPoll 0 0 0 0 (mkTriplet 0 0 0)]).update_impl px4 100 false
      (roiPoll 1 0 1 0 (mkTriplet 11 22 33))).changed = true :=
  ((C5_roi_mode_persists px4 (by decide) roi0 100 false false
    (roiPoll 1 1 0 1 (mkTriplet 0 0 0)) [roiPoll 0 0 0 0 (mkTriplet 0 0 0)]
    (roiPoll 1 0 1 0 (mkTriplet 11 22 33)) (by decide) (by decide) (by decide)).1
    (by decide)).2.1

/-! ## C6: acknowledgments -/

/-- The loop skips discarded commands and handles the first command that ends
it, provided it gets that far: one wait is issued for each record up to and
including that command. -/
theorem poll_loop_reaches (K : Consts) (self : InputMavlinkCmdMount)
    (pre : List CmdPoll) (ev : CmdPoll) (rest : List CmdPoll)
    (hd : ∀ e ∈ pre, e.discarded K self) (hev : ev.delivers K)
    (ha : self.addressed ev.vehicle_command)
    (hx : (self.dispatch K ev.vehicle_command ev.ack_time).exit_loop = true)
    (poll_timeout : Int)
    (hlen : (self.poll_loop K poll_timeout (pre ++ ev :: rest)).waits.length = pre.length + 1) :
    (self.poll_loop K poll_timeout (pre ++ ev :: rest)).ret = some 0 ∧
    (self.poll_loop K poll_timeout (pre ++ ev :: rest)).changed =
      (self.dispatch K ev.vehicle_command ev.ack_time).changed ∧
    (self.poll_loop K poll_timeout (pre ++ ev :: rest)).self =
      (self.dispatch K ev.vehicle_command ev.ack_time).self ∧
    (self.poll_loop K poll_timeout (pre ++ ev :: rest)).acks =
      (self.dispatch K ev.vehicle_command ev.ack_time).acks := by
  induction pre generalizing poll_timeout with
  | nil =>
    by_cases hp : 0 ≤ poll_timeout
    · rw [List.nil_append, poll_loop_delivered K self _ ev rest hp hev ha hx]
      exact ⟨rfl, rfl, rfl, rfl⟩
    · rw [poll_loop_negative K self _ _ (by omega)] at hlen
      simp at hlen
  | cons p pre ih =>
    by_cases hp : 0 ≤ poll_timeout
    · have hpd := hd p (List.mem_cons_self _ _)
      have hpx := on_vehicle_command_discarded K self p hpd
      have e := poll_loop_continue K self poll_timeout p (pre ++ ev :: rest) hp hpd.1
        (by rw [hpx])
      rw [List.cons_append] at hlen ⊢
      rw [e] at hlen ⊢
      simp only [List.length_cons, add_left_inj] at hlen
      exact ih (fun e he => hd e (List.mem_cons_of_mem _ he)) _ hlen
    · rw [poll_loop_negative K self _ _ (by omega)] at hlen
      simp at hlen

theorem dispatch_mount_configure (K : Consts) (hK : K.distinct) (self : InputMavlinkCmdMount)
    (cmd : vehicle_command_s) (now : Nat)
    (hc : cmd.command = K.VEHICLE_CMD_DO_MOUNT_CONFIGURE) :
    self.dispatch K cmd now =
      { self :=
          (((self.switch_mount_configure K cmd).1.capture_flags cmd)._ack_vehicle_command
            K cmd now).1
        changed := true
        acks :=
          (((self.switch_mount_configure K cmd).1.capture_flags cmd)._ack_vehicle_command
            K cmd now).2
        exit_loop := true } := by
  have hne : K.VEHICLE_CMD_DO_MOUNT_CONFIGURE ≠ K.VEHICLE_CMD_DO_MOUNT_CONTROL :=
    Ne.symm hK.2.2.2.1
  unfold InputMavlinkCmdMount.dispatch
  simp only [hc, hne, if_false, if_true]

theorem dispatch_digicam_control (K : Consts) (hK : K.distinct) (self : InputMavlinkCmdMount)
    (cmd : vehicle_command_s) (now : Nat)
    (hc : cmd.command = K.VEHICLE_CMD_DO_DIGICAM_CONTROL) :
    self.dispatch K cmd now =
      { self := ((self.set_zoom cmd)._ack_vehicle_command K cmd now).1
        changed := false
        acks := ((self.set_zoom cmd)._ack_vehicle_command K cmd now).2
        exit_loop := true } := by
  have hne1 : K.VEHICLE_CMD_DO_DIGICAM_CONTROL ≠ K.VEHICLE_CMD_DO_MOUNT_CONTROL :=
    Ne.symm hK.2.2.2.2.1
  have hne2 : K.VEHICLE_CMD_DO_DIGICAM_CONTROL ≠ K.VEHICLE_CMD_DO_MOUNT_CONFIGURE :=
    Ne.symm hK.2.2.2.2.2.1
  unfold InputMavlinkCmdMount.dispatch
  simp only [hc, hne1, hne2, if_false, if_true]

theorem switch_mount_configure_pub (K : Consts) (self : InputMavlinkCmdMount)
    (cmd : vehicle_command_s) :
    (self.switch_mount_configure K cmd).1._vehicle_command_ack_pub =
      self._vehicle_command_ack_pub := by
  unfold InputMavlinkCmdMount.switch_mount_configure
  dsimp only
  split_ifs <;> rfl

/-- The acknowledgment `_ack_vehicle_command` publishes for a command. -/
theorem ack_vehicle_command_spec (K : Consts) (s : InputMavlinkCmdMount)
    (cmd : vehicle_command_s) (now : Nat) :
    ∃ call : OrbCall,
      (s._ack_vehicle_command K cmd now).2 = [call] ∧
      call.data = vehicle_command_ack_for K cmd now ∧
      (s._vehicle_command_ack_pub = false →
        call = OrbCall.orb_advertise_queue call.data K.ORB_QUEUE_LENGTH) ∧
      (s._vehicle_command_ack_pub = true → call = OrbCall.orb_publish call.data) ∧
      (s._ack_vehicle_command K cmd now).1._vehicle_command_ack_pub = true := by
  unfold InputMavlinkCmdMount._ack_vehicle_command
  cases h : s._vehicle_command_ack_pub
  · refine ⟨OrbCall.orb_advertise_queue (vehicle_command_ack_for K cmd now) K.ORB_QUEUE_LENGTH,
      ?_, ?_, ?_, ?_, ?_⟩
    · simp
    · rfl
    · intro _
      rfl
    · intro h1
      simp at h1
    · simp
  · refine ⟨OrbCall.orb_publish (vehicle_command_ack_for K cmd now), ?_, ?_, ?_, ?_, ?_⟩
    · simp
    · rfl
    · intro h1
      simp at h1
    · intro _
      rfl
    · simp [h]

/-- When the loop issues a wait for the record that delivers a command that
ends it, that wait is the last one of the call. -/
theorem poll_loop_reaches_exact (K : Consts) (self : InputMavlinkCmdMount)
    (pre : List CmdPoll) (ev : CmdPoll) (rest : List CmdPoll)
    (hd : ∀ e ∈ pre, e.discarded K self) (hev : ev.delivers K)
    (ha : self.addressed ev.vehicle_command)
    (hx : (self.dispatch K ev.vehicle_command ev.ack_time).exit_loop = true)
    (poll_timeout : Int)
    (hlt : pre.length < (self.poll_loop K poll_timeout (pre ++ ev :: rest)).waits.length) :
    (self.poll_loop K poll_timeout (pre ++ ev :: rest)).waits.length = pre.length + 1 := by
  induction pre generalizing poll_timeout with
  | nil =>
    by_cases hp : 0 ≤ poll_timeout
    · rw [List.nil_append, poll_loop_delivered K self _ ev rest hp hev ha hx]
      rfl
    · rw [poll_loop_negative K self _ _ (by omega)] at hlt
      simp at hlt
  | cons p pre ih =>
    by_cases hp : 0 ≤ poll_timeout
    · have hpd := hd p (List.mem_cons_self _ _)
      have hpx := on_vehicle_command_discarded K self p hpd
      have e := poll_loop_continue K self poll_timeout p (pre ++ ev :: rest) hp hpd.1
        (by rw [hpx])
      rw [List.cons_append] at hlt ⊢
      rw [e] at hlt ⊢
      simp only [List.length_cons, add_lt_add_iff_right] at hlt
      simp only [List.length_cons, add_left_inj]
      exact ih (fun e he => hd e (List.mem_cons_of_mem _ he)) _ hlt
    · rw [poll_loop_negative K self _ _ (by omega)] at hlt
      simp at hlt

/-- The records that follow a command that ends the loop are not used. -/
theorem poll_loop_rest_unused (K : Consts) (self : InputMavlinkCmdMount)
    (pre : List CmdPoll) (ev : CmdPoll) (rest : List CmdPoll)
    (hd : ∀ e ∈ pre, e.discarded K self) (hev : ev.delivers K)
    (ha : self.addressed ev.vehicle_command)
    (hx : (self.dispatch K ev.vehicle_command ev.ack_time).exit_loop = true)
    (poll_timeout : Int) :
    self.poll_loop K poll_timeout (pre ++ ev :: rest) =
      self.poll_loop K poll_timeout (pre ++ [ev]) := by
  induction pre generalizing poll_timeout with
  | nil =>
    by_cases hp : 0 ≤ poll_timeout
    · rw [List.nil_append, List.nil_append,
        poll_loop_delivered K self _ ev rest hp hev ha hx,
        poll_loop_delivered K self _ ev [] hp hev ha hx]
    · rw [poll_loop_negative K self _ _ (by omega), poll_loop_negative K self _ _ (by omega)]
  | cons p pre ih =>
    by_cases hp : 0 ≤ poll_timeout
    · have hpd := hd p (List.mem_cons_self _ _)
      have hpx := on_vehicle_command_discarded K self p hpd
      rw [List.cons_append, List.cons_append,
        poll_loop_continue K self poll_timeout p (pre ++ ev :: rest) hp hpd.1 (by rw [hpx]),
        poll_loop_continue K self poll_timeout p (pre ++ [ev]) hp hpd.1 (by rw [hpx]),
        ih (fun e he => hd e (List.mem_cons_of_mem _ he)) _]
    · rw [poll_loop_negative K self _ _ (by omega), poll_loop_negative K self _ _ (by omega)]

/-- C6: whenever `update_impl` issues the wait that delivers an addressed
`DO_MOUNT_CONFIGURE` or `DO_DIGICAM_CONTROL` command (every command before it
in the call being discarded), that wait is the last one of the call, the
records after it are not used, and the call makes exactly one publication to
uORB. The record published has the command's id as `command`, `result`
ACCEPTED, the command's `source_system` and `source_component` as
`target_system` and `target_component`, `result_param1 = result_param2 = 0`
and `from_external = false`. Without a channel the record goes out through
`orb_advertise_queue`, which creates the channel; with a channel it goes out
through `orb_publish`; the channel exists after the call. (`hreach` says that
the call gets to the command: it issues more waits than there are records
before the one that delivers it.) -/
theorem C6_exactly_one_ack (K : Consts) (hK : K.distinct) (self : InputMavlinkCmdMount)
    (timeout_ms : Nat) (already_active : Bool)
    (pre : List CmdPoll) (ev : CmdPoll) (rest : List CmdPoll)
    (hd : ∀ e ∈ pre, e.discarded K self) (hev : ev.delivers K)
    (ha : self.addressed ev.vehicle_command)
    (hc : ev.vehicle_command.command = K.VEHICLE_CMD_DO_MOUNT_CONFIGURE ∨
      ev.vehicle_command.command = K.VEHICLE_CMD_DO_DIGICAM_CONTROL)
    (hreach : pre.length <
      (self.update_impl K timeout_ms already_active (pre ++ ev :: rest)).waits.length) :
    (self.update_impl K timeout_ms already_active (pre ++ ev :: rest)).waits.length =
      pre.length + 1 ∧
    self.update_impl K timeout_ms already_active (pre ++ ev :: rest) =
      self.update_impl K timeout_ms already_active (pre ++ [ev]) ∧
    (self.update_impl K timeout_ms already_active (pre ++ ev :: rest)).ret = some 0 ∧
    ∃ call : OrbCall,
      (self.update_impl K timeout_ms already_active (pre ++ ev :: rest)).acks = [call] ∧
      call.data.command = ev.vehicle_command.command ∧
      call.data.result = K.VEHICLE_CMD_RESULT_ACCEPTED ∧
      call.data.target_system = ev.vehicle_command.source_system ∧
      call.data.target_component = ev.vehicle_command.source_component ∧
      call.data.result_param1 = 0 ∧ call.data.result_param2 = 0 ∧
      call.data.from_external = false ∧
      (self._vehicle_command_ack_pub = false →
        call = OrbCall.orb_advertise_queue call.data K.ORB_QUEUE_LENGTH) ∧
      (self._vehicle_command_ack_pub = true → call = OrbCall.orb_publish call.data) ∧
      (self.update_impl K timeout_ms already_active
        (pre ++ ev :: rest)).self._vehicle_command_ack_pub = true := by
  unfold InputMavlinkCmdMount.update_impl at hreach ⊢
  have key : (self.dispatch K ev.vehicle_command ev.ack_time).exit_loop = true ∧
      ∃ s : InputMavlinkCmdMount,
        s._vehicle_command_ack_pub = self._vehicle_command_ack_pub ∧
        (self.dispatch K ev.vehicle_command ev.ack_time).self =
          (s._ack_vehicle_command K ev.vehicle_command ev.ack_time).1 ∧
        (self.dispatch K ev.vehicle_command ev.ack_time).acks =
          (s._ack_vehicle_command K ev.vehicle_command ev.ack_time).2 := by
    rcases hc with hc | hc
    · rw [dispatch_mount_configure K hK self _ ev.ack_time hc]
      exact ⟨rfl, (self.switch_mount_configure K ev.vehicle_command).1.capture_flags
        ev.vehicle_command, switch_mount_configure_pub K self ev.vehicle_command, rfl, rfl⟩
    · rw [dispatch_digicam_control K hK self _ ev.ack_time hc]
      exact ⟨rfl, self.set_zoom ev.vehicle_command, rfl, rfl, rfl⟩
  obtain ⟨hx, s, hs, e1, e2⟩ := key
  have hlen := poll_loop_reaches_exact K self pre ev rest hd hev ha hx _ hreach
  have hrest := poll_loop_rest_unused K self pre ev rest hd hev ha hx
    (toInt32 (timeout_ms : Int))
  obtain ⟨r1, _, r3, r4⟩ := poll_loop_reaches K self pre ev rest hd hev ha hx _ hlen
  obtain ⟨call, c1, c2, c3, c4, c5⟩ :=
    ack_vehicle_command_spec K s ev.vehicle_command ev.ack_time
  refine ⟨hlen, hrest, r1, call, ?_, ?_, ?_, ?_, ?_, ?_, ?_, ?_, ?_, ?_, ?_⟩
  · rw [r4, e2, c1]
  · rw [c2]
    rfl
  · rw [c2]
    rfl
  · rw [c2]
    rfl
  · rw [c2]
    rfl
  · rw [c2]
    rfl
  · rw [c2]
    rfl
  · rw [c2]
    rfl
  · intro h
    exact c3 (by rw [hs, h])
  · intro h
    exact c4 (by rw [hs, h])
  · rw [r3, e1]
    exact c5

/-- C6 at a concrete run: a command for another system is discarded, then a
`DO_MOUNT_CONFIGURE` from system 255, component 190 is handled, with a second
`DO_MOUNT_CONFIGURE` pending behind it; no channel exists before the call. -/
theorem C6_exactly_one_ack_witness :
    (cmdMount0.update_impl px4 100 false
      ([delivered 300 otherSystemCommand] ++
        delivered 300 configureCommand :: [delivered 300 configureCommand])).waits.length
      = [delivered 300 otherSystemCommand].length + 1 ∧
    ∃ call : OrbCall,
      (cmdMount0.update_impl px4 100 false
        ([delivered 300 otherSystemCommand] ++
          delivered 300 configureCommand :: [delivered 300 configureCommand])).acks
        = [call] ∧
      call.data.command = 204 ∧ call.data.target_system = 255 ∧
      call.data.target_component = 190 :=
  let h := C6_exactly_one_ack px4 (by decide) cmdMount0 100 false
    [delivered 300 otherSystemCommand] (delivered 300 configureCommand)
    [delivered 300 configureCommand]
    (by decide) (by decide) (by decide) (by decide) (by decide)
  ⟨h.1, h.2.2.2.elim fun call hc => ⟨call, hc.1, hc.2.1, hc.2.2.2.1, hc.2.2.2.2.1⟩⟩

/-! ## C7: non-finite pitch or yaw -/

theorem F32.expo_pack_inf (s : Nat) (hs : s < 2) : (F32.pack s 255 0).expo = 255 := by
  unfold F32.pack F32.expo
  dsimp only
  omega

/-- A product with an infinite or NaN factor is not finite. -/
theorem F32.mul_not_finite (x c : F32) (h : x.isFinite = false) :
    (F32.mul x c).isFinite = false := by
  have hx : x.expo = 255 := by
    unfold F32.isFinite at h
    simpa using h
  have hs : (x.sign + c.sign) % 2 < 2 := Nat.mod_lt _ (by decide)
  have hp : (F32.pack ((x.sign + c.sign) % 2) 255 0).isFinite = false := by
    unfold F32.isFinite
    rw [F32.expo_pack_inf _ hs]
    rfl
  have hq : F32.qNaN.isFinite = false := by decide
  unfold F32.mul
  dsimp only
  by_cases h1 : (x.isNaN || c.isNaN) = true
  · rw [if_pos h1]
    exact hq
  · rw [if_neg h1]
    by_cases h2 : x.isInf = true
    · rw [if_pos h2]
      split_ifs
      · exact hq
      · exact hp
    · exfalso
      unfold F32.isNaN at h1
      unfold F32.isInf at h2
      simp [hx] at h1 h2
      exact h2 h1.1

theorem case_MAVLINK_TARGETING_not_finite (K : Consts) (self : InputMavlinkCmdMount)
    (cmd : vehicle_command_s)
    (h : cmd.param1.isFinite = false ∨ cmd.param3.isFinite = false) :
    (self.case_MAVLINK_TARGETING K cmd)._control_data.type_data.angle.angles =
      self._control_data.type_data.angle.angles := by
  have hc : ((F32.mul cmd.param1 K.M_DEG_TO_RAD_F).isFinite &&
      (F32.mul cmd.param3 K.M_DEG_TO_RAD_F).isFinite) = false := by
    rcases h with h | h
    · rw [F32.mul_not_finite _ _ h]
      rfl
    · rw [F32.mul_not_finite _ _ h]
      simp
  unfold InputMavlinkCmdMount.case_MAVLINK_TARGETING
  dsimp only
  rw [hc]
  rfl

/-- C7: whenever `update_impl` gets to an addressed `DO_MOUNT_CONTROL` command
with mode MAVLINK_TARGETING whose `param1` (pitch) or `param3` (yaw) is an
infinity or a NaN, the call returns 0 and reports a change, the type is Angle
after it, and the three angles of the Angle payload are the ones from before
the call. (`hlen` says that the call gets to the command: it issues one wait
per record up to and including the one that delivers it.) -/
theorem C7_non_finite_angles_not_written (K : Consts) (hK : K.distinct)
    (self : InputMavlinkCmdMount) (timeout_ms : Nat) (already_active : Bool)
    (pre : List CmdPoll) (ev : CmdPoll) (rest : List CmdPoll)
    (hd : ∀ e ∈ pre, e.discarded K self) (hev : ev.delivers K)
    (ha : self.addressed ev.vehicle_command)
    (hc : ev.vehicle_command.command = K.VEHICLE_CMD_DO_MOUNT_CONTROL)
    (hm : F32.toInt ev.vehicle_command.param7 = K.VEHICLE_MOUNT_MODE_MAVLINK_TARGETING)
    (hn : ev.vehicle_command.param1.isFinite = false ∨
      ev.vehicle_command.param3.isFinite = false)
    (hlen : (self.update_impl K timeout_ms already_active (pre ++ ev :: rest)).waits.length =
      pre.length + 1) :
    (self.update_impl K timeout_ms already_active (pre ++ ev :: rest)).ret = some 0 ∧
    (self.update_impl K timeout_ms already_active (pre ++ ev :: rest)).changed = true ∧
    (self.update_impl K timeout_ms already_active (pre ++ ev :: rest)).self._control_data.type =
      ControlDataType.Angle ∧
    (self.update_impl K timeout_ms already_active
        (pre ++ ev :: rest)).self._control_data.type_data.angle.angles =
      self._control_data.type_data.angle.angles := by
  unfold InputMavlinkCmdMount.update_impl at hlen ⊢
  have e : self.dispatch K ev.vehicle_command ev.ack_time =
      { self := self.case_MAVLINK_TARGETING K ev.vehicle_command, changed := true, acks := [],
        exit_loop := true } := by
    rw [dispatch_mount_control K self _ _ hc, switch_mount_control_targeting K hK self _ hm]
  obtain ⟨r1, r2, r3, _⟩ :=
    poll_loop_reaches K self pre ev rest hd hev ha (by rw [e]) _ hlen
  rw [e] at r2 r3
  refine ⟨r1, r2, ?_, ?_⟩
  · rw [r3]
    exact case_MAVLINK_TARGETING_type K self _
  · rw [r3]
    exact case_MAVLINK_TARGETING_not_finite K self _ hn

/-- C7 at a concrete run: angles (1, 2, 3) before the call, a targeting command
with infinite pitch. -/
theorem C7_non_finite_angles_not_written_witness :
    (cmdMount1.update_impl px4 100 false
        ([] ++ delivered 300 infinitePitchCommand :: [])).self._control_data.type_data.angle.angles
      = ⟨⟨0x3F800000⟩, ⟨0x40000000⟩, ⟨0x40400000⟩⟩ :=
  (C7_non_finite_angles_not_written px4 (by decide) cmdMount1 100 false []
    (delivered 300 infinitePitchCommand) [] (by decide) (by decide) (by decide) (by decide)
    (by decide) (by decide) (by decide)).2.2.2

/-! ## C8: the address check -/

/-- C8: a command copied out of the topic goes through the dispatch on its id
when its target system is the configured system id and its target component is
the configured component id or 0. Every other command has no effect: the
object is unchanged, `*control_data` is not set, nothing is published, and the
loop goes on as if the command had not been there, apart from the wait it ended
and the time charged for it. -/
theorem C8_address_check (K : Consts) (self : InputMavlinkCmdMount)
    (cmd : vehicle_command_s) (now : Nat) :
    (self.addressed cmd → self.on_vehicle_command K cmd now = self.dispatch K cmd now) ∧
    (¬ self.addressed cmd →
      self.on_vehicle_command K cmd now =
        { self := self, changed := false, acks := [], exit_loop := false }) ∧
    (¬ self.addressed cmd →
      ∀ (ev : CmdPoll) (rest : List CmdPoll) (poll_timeout : Int),
        ev.vehicle_command = cmd → ev.ack_time = now → ev.delivers K → 0 ≤ poll_timeout →
        self.poll_loop K poll_timeout (ev :: rest) =
          { self.poll_loop K (ev.charge poll_timeout) rest with
            waits := poll_timeout :: (self.poll_loop K (ev.charge poll_timeout) rest).waits }) := by
  refine ⟨on_vehicle_command_addressed K self cmd now,
    on_vehicle_command_not_addressed K self cmd now, ?_⟩
  intro hna ev rest poll_timeout hcmd hnow hev hp
  subst hcmd hnow
  exact poll_loop_continue K self poll_timeout ev rest hp hev
    (by rw [on_vehicle_command_not_addressed K self _ _ hna])

/-- C8 at concrete commands: one for system 1, component 1 is dispatched, one
for system 7 is discarded. -/
theorem C8_address_check_witness :
    cmdMount0.on_vehicle_command px4 retractCommand 5 =
      cmdMount0.dispatch px4 retractCommand 5 ∧
    cmdMount0.on_vehicle_command px4 otherSystemCommand 5 =
      { self := cmdMount0, changed := false, acks := [], exit_loop := false } :=
  ⟨(C8_address_check px4 cmdMount0 retractCommand 5).1 (by decide),
   (C8_address_check px4 cmdMount0 otherSystemCommand 5).2.1 (by decide)⟩

/-! ## C9: NEUTRAL runs on into MAVLINK_TARGETING -/

theorem case_MAVLINK_TARGETING_congr (K : Consts) (self : InputMavlinkCmdMount)
    (cmd cmd' : vehicle_command_s) (h1 : cmd'.param1 = cmd.param1)
    (h2 : cmd'.param2 = cmd.param2) (h3 : cmd'.param3 = cmd.param3) :
    InputMavlinkCmdMount.case_MAVLINK_TARGETING K
      { self with
        _control_data :=
          { self._control_data with
            type := ControlDataType.Neutral
            gimbal_shutter_retract := false } } cmd =
    InputMavlinkCmdMount.case_MAVLINK_TARGETING K
      { self with _control_data := { self._control_data with gimbal_shutter_retract := false } }
      cmd' := by
  unfold InputMavlinkCmdMount.case_MAVLINK_TARGETING
  dsimp only
  rw [h1, h2, h3]

/-- C9: an addressed `DO_MOUNT_CONTROL` command with mode NEUTRAL is handled
exactly as a MAVLINK_TARGETING command with the same `param1`, `param2` and
`param3` is handled by the object with `gimbal_shutter_retract` cleared: the two
calls of `update_impl` give the same result. The call returns 0 and reports a
change, and after it the type is Angle and `gimbal_shutter_retract` is false. -/
theorem C9_neutral_falls_through (K : Consts) (hK : K.distinct)
    (self : InputMavlinkCmdMount) (timeout_ms : Nat) (already_active : Bool)
    (ev : CmdPoll) (rest : List CmdPoll) (cmd' : vehicle_command_s)
    (hT : timeout_ms < 2 ^ 31) (hev : ev.delivers K)
    (ha : self.addressed ev.vehicle_command) (ha' : self.addressed cmd')
    (hc : ev.vehicle_command.command = K.VEHICLE_CMD_DO_MOUNT_CONTROL)
    (hm : F32.toInt ev.vehicle_command.param7 = K.VEHICLE_MOUNT_MODE_NEUTRAL)
    (hc' : cmd'.command = K.VEHICLE_CMD_DO_MOUNT_CONTROL)
    (hm' : F32.toInt cmd'.param7 = K.VEHICLE_MOUNT_MODE_MAVLINK_TARGETING)
    (h1 : cmd'.param1 = ev.vehicle_command.param1)
    (h2 : cmd'.param2 = ev.vehicle_command.param2)
    (h3 : cmd'.param3 = ev.vehicle_command.param3) :
    self.update_impl K timeout_ms already_active (ev :: rest) =
      InputMavlinkCmdMount.update_impl K
        { self with _control_data := { self._control_data with gimbal_shutter_retract := false } }
        timeout_ms already_active ({ ev with vehicle_command := cmd' } :: rest) ∧
    (self.update_impl K timeout_ms already_active (ev :: rest)).ret = some 0 ∧
    (self.update_impl K timeout_ms already_active (ev :: rest)).changed = true ∧
    (self.update_impl K timeout_ms already_active (ev :: rest)).self._control_data.type =
      ControlDataType.Angle ∧
    (self.update_impl K timeout_ms already_active
      (ev :: rest)).self._control_data.gimbal_shutter_retract = false := by
  have hp := toInt32_nonneg_of_lt timeout_ms hT
  have e : self.dispatch K ev.vehicle_command ev.ack_time =
      { self := InputMavlinkCmdMount.case_MAVLINK_TARGETING K
          { self with
            _control_data :=
              { self._control_data with
                type := ControlDataType.Neutral
                gimbal_shutter_retract := false } } ev.vehicle_command
        changed := true, acks := [], exit_loop := true } := by
    rw [dispatch_mount_control K self _ _ hc, switch_mount_control_neutral K hK self _ hm]
  have e' : InputMavlinkCmdMount.dispatch K
      { self with _control_data := { self._control_data with gimbal_shutter_retract := false } }
      cmd' ev.ack_time =
      { self := InputMavlinkCmdMount.case_MAVLINK_TARGETING K
          { self with
            _control_data := { self._control_data with gimbal_shutter_retract := false } } cmd'
        changed := true, acks := [], exit_loop := true } := by
    rw [dispatch_mount_control K _ _ _ hc', switch_mount_control_targeting K hK _ _ hm']
  have l := poll_loop_delivered K self (toInt32 (timeout_ms : Int)) ev rest hp hev ha
    (by rw [e])
  have l' := poll_loop_delivered K
    { self with _control_data := { self._control_data with gimbal_shutter_retract := false } }
    (toInt32 (timeout_ms : Int)) { ev with vehicle_command := cmd' } rest hp hev ha'
    (by exact (by rw [e'] : (InputMavlinkCmdMount.dispatch K _ cmd' ev.ack_time).exit_loop = true))
  unfold InputMavlinkCmdMount.update_impl
  rw [l, e]
  refine ⟨?_, rfl, rfl, ?_, ?_⟩
  · rw [l']
    dsimp only
    rw [e', case_MAVLINK_TARGETING_congr K self ev.vehicle_command cmd' h1 h2 h3]
  · exact case_MAVLINK_TARGETING_type K _ _
  · exact case_MAVLINK_TARGETING_retract K _ _

/-- C9 at a concrete run: the retracted object `cmdMount1`, a NEUTRAL command
and the targeting command with the same angles. -/
theorem C9_neutral_falls_through_witness :
    cmdMount1.update_impl px4 100 false (delivered 300 neutralCommand :: []) =
      InputMavlinkCmdMount.update_impl px4
        { cmdMount1 with
          _control_data := { cmdMount1._control_data with gimbal_shutter_retract := false } }
        100 false
        ({ delivered 300 neutralCommand with vehicle_command := targetingCommand } :: []) :=
  (C9_neutral_falls_through px4 (by decide) cmdMount1 100 false (delivered 300 neutralCommand)
    [] targetingCommand (by decide) (by decide) (by decide) (by decide) (by decide) (by decide)
    (by decide) (by decide) (by decide) (by decide) (by decide)).1

/-! ## C10: a failing wait -/

/-- The two ways an iteration on a positive `px4_poll` result can go: the loop
ends with return value 0 after this one wait, or it goes on with the object
unchanged. -/
theorem poll_loop_positive_cases (K : Consts) (self : InputMavlinkCmdMount)
    (poll_timeout : Int) (ev : CmdPoll) (rest : List CmdPoll)
    (hp : 0 ≤ poll_timeout) (hr : 0 < ev.ret) :
    (∃ c s a, self.poll_loop K poll_timeout (ev :: rest) =
      { ret := some 0, changed := c, self := s, acks := a, waits := [poll_timeout] }) ∨
    self.poll_loop K poll_timeout (ev :: rest) =
      { self.poll_loop K (ev.charge poll_timeout) rest with
        waits := poll_timeout :: (self.poll_loop K (ev.charge poll_timeout) rest).waits } := by
  have hr1 : ¬ ev.ret < 0 := by omega
  have hr2 : ¬ ev.ret = 0 := by omega
  by_cases hv : ev.revents &&& K.POLLIN ≠ 0
  · by_cases hx : (self.on_vehicle_command K ev.vehicle_command ev.ack_time).exit_loop = true
    · left
      refine ⟨(self.on_vehicle_command K ev.vehicle_command ev.ack_time).changed,
        (self.on_vehicle_command K ev.vehicle_command ev.ack_time).self,
        (self.on_vehicle_command K ev.vehicle_command ev.ack_time).acks, ?_⟩
      simp only [InputMavlinkCmdMount.poll_loop, ge_iff_le, hp, hr1, hr2, hv, hx, if_true,
        if_false, ne_eq, not_false_eq_true]
    · right
      exact poll_loop_continue K self poll_timeout ev rest hp ⟨hr, hv⟩ (by simpa using hx)
  · left
    refine ⟨false, self, [], ?_⟩
    simp only [InputMavlinkCmdMount.poll_loop, ge_iff_le, hp, hr1, hr2, hv, if_true, if_false]

/-- What the loop returns in terms of the waits it issued: a failed wait gives
the negated `errno`, a wait that timed out gives 0, in both cases with nothing
changed and nothing published; and a non-zero return value comes from a failed
wait. -/
theorem poll_loop_failed_or_timed_out (K : Consts) (self : InputMavlinkCmdMount)
    (evs : List CmdPoll) (poll_timeout : Int) :
    (∀ ev ∈ (self.poll_loop K poll_timeout evs).waited evs, ev.ret < 0 →
      (self.poll_loop K poll_timeout evs).ret = some (-ev.errno) ∧
      (self.poll_loop K poll_timeout evs).changed = false ∧
      (self.poll_loop K poll_timeout evs).self = self ∧
      (self.poll_loop K poll_timeout evs).acks = []) ∧
    (∀ ev ∈ (self.poll_loop K poll_timeout evs).waited evs, ev.ret = 0 →
      (self.poll_loop K poll_timeout evs).ret = some 0 ∧
      (self.poll_loop K poll_timeout evs).changed = false ∧
      (self.poll_loop K poll_timeout evs).self = self ∧
      (self.poll_loop K poll_timeout evs).acks = []) ∧
    (∀ e, (self.poll_loop K poll_timeout evs).ret = some e → e ≠ 0 →
      ∃ ev ∈ (self.poll_loop K poll_timeout evs).waited evs, ev.ret < 0) := by
  induction evs generalizing poll_timeout with
  | nil =>
    unfold CmdResult.waited
    refine ⟨by simp, by simp, ?_⟩
    intro e he hne
    by_cases hp : poll_timeout ≥ 0
    · simp [InputMavlinkCmdMount.poll_loop, hp] at he
    · simp [InputMavlinkCmdMount.poll_loop, hp] at he
      exact absurd he.symm hne
  | cons ev rest ih =>
    by_cases hp : 0 ≤ poll_timeout
    · rcases lt_trichotomy ev.ret 0 with hr | hr | hr
      · rw [poll_loop_fails K self _ ev rest hp hr]
        unfold CmdResult.waited
        simp only [List.length_singleton, List.take_succ_cons, List.take_zero,
          List.mem_singleton, forall_eq]
        refine ⟨fun _ => by simp, fun h0 => by omega, ?_⟩
        intro e _ _
        exact ⟨ev, rfl, hr⟩
      · rw [poll_loop_timesOut K self _ ev rest hp hr]
        unfold CmdResult.waited
        simp only [List.length_singleton, List.take_succ_cons, List.take_zero,
          List.mem_singleton, forall_eq]
        refine ⟨fun h0 => by omega, fun _ => by simp, ?_⟩
        intro e he hne
        simp only [Option.some.injEq] at he
        exact absurd he.symm hne
      · rcases poll_loop_positive_cases K self poll_timeout ev rest hp hr with
          ⟨c, s, a, h⟩ | h
        · rw [h]
          unfold CmdResult.waited
          simp only [List.length_singleton, List.take_succ_cons, List.take_zero,
            List.mem_singleton, forall_eq]
          refine ⟨fun h0 => by omega, fun h0 => by omega, ?_⟩
          intro e he hne
          simp only [Option.some.injEq] at he
          exact absurd he.symm hne
        · obtain ⟨i1, i2, i3⟩ := ih (ev.charge poll_timeout)
          rw [h]
          unfold CmdResult.waited at i1 i2 i3 ⊢
          simp only [List.length_cons, List.take_succ_cons, List.mem_cons, forall_eq_or_imp,
            exists_eq_or_imp]
          refine ⟨⟨fun h0 => by omega, i1⟩, ⟨fun h0 => by omega, i2⟩, ?_⟩
          intro e he hne
          exact Or.inr (i3 e he hne)
    · rw [poll_loop_negative K self _ _ (by omega)]
      unfold CmdResult.waited
      refine ⟨by simp, by simp, ?_⟩
      intro e he hne
      simp only [Option.some.injEq] at he
      exact absurd he.symm hne

/-- C10: `update_impl` of either input returns a non-zero value exactly when a
`px4_poll` it issued failed (`errno` being positive after a failed call); the
value is the negated `errno`, `*control_data` is null, the object is what it
was before the call and nothing was published. When a `px4_poll` it issued
timed out, it returns 0 with `*control_data` null, the object what it was
before the call and nothing published. -/
theorem C10_failed_wait_is_the_only_error (K : Consts)
    (roi : InputMavlinkROI) (roi_timeout : Nat) (roi_active : Bool) (rev : RoiPoll)
    (self : InputMavlinkCmdMount) (timeout_ms : Nat) (already_active : Bool)
    (evs : List CmdPoll)
    (hre : rev.ret < 0 → 0 < rev.errno)
    (hce : ∀ ev ∈ evs, ev.ret < 0 → 0 < ev.errno) :
    ((roi.update_impl K roi_timeout roi_active rev).ret ≠ 0 ↔ rev.ret < 0) ∧
    (rev.ret < 0 →
      roi.update_impl K roi_timeout roi_active rev =
        { ret := -rev.errno, changed := false, self := roi }) ∧
    (rev.ret = 0 →
      roi.update_impl K roi_timeout roi_active rev =
        { ret := 0, changed := false, self := roi }) ∧
    ((∃ e, (self.update_impl K timeout_ms already_active evs).ret = some e ∧ e ≠ 0) ↔
      ∃ ev ∈ (self.update_impl K timeout_ms already_active evs).waited evs, ev.ret < 0) ∧
    (∀ ev ∈ (self.update_impl K timeout_ms already_active evs).waited evs, ev.ret < 0 →
      (self.update_impl K timeout_ms already_active evs).ret = some (-ev.errno) ∧
      (self.update_impl K timeout_ms already_active evs).changed = false ∧
      (self.update_impl K timeout_ms already_active evs).self = self ∧
      (self.update_impl K timeout_ms already_active evs).acks = []) ∧
    (∀ ev ∈ (self.update_impl K timeout_ms already_active evs).waited evs, ev.ret = 0 →
      (self.update_impl K timeout_ms already_active evs).ret = some 0 ∧
      (self.update_impl K timeout_ms already_active evs).changed = false ∧
      (self.update_impl K timeout_ms already_active evs).self = self ∧
      (self.update_impl K timeout_ms already_active evs).acks = []) := by
  have hroi1 : rev.ret < 0 →
      roi.update_impl K roi_timeout roi_active rev =
        { ret := -rev.errno, changed := false, self := roi } := by
    intro h
    simp [InputMavlinkROI.update_impl, h]
  have hroi2 : rev.ret = 0 →
      roi.update_impl K roi_timeout roi_active rev =
        { ret := 0, changed := false, self := roi } := by
    intro h
    simp [InputMavlinkROI.update_impl, h]
  have hroi3 : ¬ rev.ret < 0 → (roi.update_impl K roi_timeout roi_active rev).ret = 0 := by
    intro h
    unfold InputMavlinkROI.update_impl
    rw [if_neg h]
    split_ifs <;> rfl
  obtain ⟨p1, p2, p3⟩ :=
    poll_loop_failed_or_timed_out K self evs (toInt32 (timeout_ms : Int))
  unfold InputMavlinkCmdMount.update_impl
  refine ⟨?_, hroi1, hroi2, ?_, p1, p2⟩
  · constructor
    · intro hne
      by_contra hn
      exact hne (hroi3 hn)
    · intro h
      rw [hroi1 h]
      have := hre h
      show -rev.errno ≠ 0
      omega
  · constructor
    · rintro ⟨e, he, hne⟩
      exact p3 e he hne
    · rintro ⟨ev, hev, hr⟩
      refine ⟨-ev.errno, (p1 ev hev hr).1, ?_⟩
      have := hce ev (List.mem_of_mem_take hev) hr
      omega

/-- C10 at a concrete run: a failing wait of the ROI input, and for the
command input a discarded command followed by a failing wait. -/
theorem C10_failed_wait_is_the_only_error_witness :
    roi0.update_impl px4 100 false roiFailed =
      { ret := -roiFailed.errno, changed := false, self := roi0 } ∧
    (cmdMount0.update_impl px4 100 false [delivered 300 otherSystemCommand, failed 200]).ret =
      some (-(failed 200).errno) ∧
    (cmdMount0.update_impl px4 100 false [delivered 300 otherSystemCommand, failed 200]).self =
      cmdMount0 :=
  let h := C10_failed_wait_is_the_only_error px4 roi0 100 false roiFailed cmdMount0 100 false
    [delivered 300 otherSystemCommand, failed 200] (by decide) (by decide)
  ⟨h.2.1 (by decide), (h.2.2.2.2.1 (failed 200) (by decide) (by decide)).1,
    (h.2.2.2.2.1 (failed 200) (by decide) (by decide)).2.2.1⟩

/-! ## C11: DO_MOUNT_CONFIGURE -/

theorem ack_vehicle_command_frame (K : Consts) (s : InputMavlinkCmdMount)
    (cmd : vehicle_command_s) (now : Nat) :
    (s._ack_vehicle_command K cmd now).1._control_data = s._control_data ∧
    (s._ack_vehicle_command K cmd now).1._stabilize = s._stabilize ∧
    (s._ack_vehicle_command K cmd now).1._mav_sys_id = s._mav_sys_id ∧
    (s._ack_vehicle_command K cmd now).1._mav_comp_id = s._mav_comp_id := by
  unfold InputMavlinkCmdMount._ack_vehicle_command
  dsimp only
  split_ifs <;> exact ⟨rfl, rfl, rfl, rfl⟩

theorem switch_mount_configure_retract (K : Consts) (self : InputMavlinkCmdMount)
    (cmd : vehicle_command_s) (hm : F32.toInt cmd.param1 = K.VEHICLE_MOUNT_MODE_RETRACT) :
    (self.switch_mount_configure K cmd).1 =
      { self with _control_data := { self._control_data with gimbal_shutter_retract := true } } := by
  unfold InputMavlinkCmdMount.switch_mount_configure
  simp [hm]

theorem switch_mount_configure_neutral (K : Consts) (hK : K.distinct)
    (self : InputMavlinkCmdMount) (cmd : vehicle_command_s)
    (hm : F32.toInt cmd.param1 = K.VEHICLE_MOUNT_MODE_NEUTRAL) :
    (self.switch_mount_configure K cmd).1 =
      { self with
        _control_data :=
          { self._control_data with
            type := ControlDataType.Neutral
            gimbal_shutter_retract := false } } := by
  have h1 : K.VEHICLE_MOUNT_MODE_NEUTRAL ≠ K.VEHICLE_MOUNT_MODE_RETRACT := Ne.symm hK.1
  unfold InputMavlinkCmdMount.switch_mount_configure
  simp [hm, h1]

theorem switch_mount_configure_other (K : Consts) (self : InputMavlinkCmdMount)
    (cmd : vehicle_command_s) (h1 : F32.toInt cmd.param1 ≠ K.VEHICLE_MOUNT_MODE_RETRACT)
    (h2 : F32.toInt cmd.param1 ≠ K.VEHICLE_MOUNT_MODE_NEUTRAL) :
    (self.switch_mount_configure K cmd).1 = self := by
  unfold InputMavlinkCmdMount.switch_mount_configure
  simp [h1, h2]

/-- C11: whenever `update_impl` gets to an addressed `DO_MOUNT_CONFIGURE`
command, whatever `(int)param1` is, the call returns 0 and reports a change,
`_stabilize` becomes `((uint8_t)param2 == 1, (uint8_t)param3 == 1,
(uint8_t)param4 == 1)` and the `is_speed` flags of the Angle payload become
`((uint8_t)param5 == 1, (uint8_t)param6 == 1, (uint8_t)param7 == 1)`. With mode
RETRACT `gimbal_shutter_retract` is true after the call; with mode NEUTRAL the
type is Neutral and `gimbal_shutter_retract` is false; with any other mode both
are what they were. (`hlen` says that the call gets to the command.) -/
theorem C11_mount_configure (K : Consts) (hK : K.distinct) (self : InputMavlinkCmdMount)
    (timeout_ms : Nat) (already_active : Bool)
    (pre : List CmdPoll) (ev : CmdPoll) (rest : List CmdPoll)
    (hd : ∀ e ∈ pre, e.discarded K self) (hev : ev.delivers K)
    (ha : self.addressed ev.vehicle_command)
    (hc : ev.vehicle_command.command = K.VEHICLE_CMD_DO_MOUNT_CONFIGURE)
    (hlen : (self.update_impl K timeout_ms already_active (pre ++ ev :: rest)).waits.length =
      pre.length + 1) :
    (self.update_impl K timeout_ms already_active (pre ++ ev :: rest)).ret = some 0 ∧
    (self.update_impl K timeout_ms already_active (pre ++ ev :: rest)).changed = true ∧
    (self.update_impl K timeout_ms already_active (pre ++ ev :: rest)).self._stabilize =
      ⟨decide (F32.toUInt8 ev.vehicle_command.param2 = 1),
       decide (F32.toUInt8 ev.vehicle_command.param3 = 1),
       decide (F32.toUInt8 ev.vehicle_command.param4 = 1)⟩ ∧
    (self.update_impl K timeout_ms already_active
        (pre ++ ev :: rest)).self._control_data.type_data.angle.is_speed =
      ⟨decide (F64.toUInt8 ev.vehicle_command.param5 = 1),
       decide (F64.toUInt8 ev.vehicle_command.param6 = 1),
       decide (F32.toUInt8 ev.vehicle_command.param7 = 1)⟩ ∧
    (F32.toInt ev.vehicle_command.param1 = K.VEHICLE_MOUNT_MODE_RETRACT →
      (self.update_impl K timeout_ms already_active
        (pre ++ ev :: rest)).self._control_data.gimbal_shutter_retract = true) ∧
    (F32.toInt ev.vehicle_command.param1 = K.VEHICLE_MOUNT_MODE_NEUTRAL →
      (self.update_impl K timeout_ms already_active
        (pre ++ ev :: rest)).self._control_data.type = ControlDataType.Neutral ∧
      (self.update_impl K timeout_ms already_active
        (pre ++ ev :: rest)).self._control_data.gimbal_shutter_retract = false) ∧
    (F32.toInt ev.vehicle_command.param1 ≠ K.VEHICLE_MOUNT_MODE_RETRACT →
      F32.toInt ev.vehicle_command.param1 ≠ K.VEHICLE_MOUNT_MODE_NEUTRAL →
      (self.update_impl K timeout_ms already_active
        (pre ++ ev :: rest)).self._control_data.type = self._control_data.type ∧
      (self.update_impl K timeout_ms already_active
        (pre ++ ev :: rest)).self._control_data.gimbal_shutter_retract =
        self._control_data.gimbal_shutter_retract) := by
  unfold InputMavlinkCmdMount.update_impl at hlen ⊢
  have e := dispatch_mount_configure K hK self ev.vehicle_command ev.ack_time hc
  obtain ⟨r1, r2, r3, _⟩ := poll_loop_reaches K self pre ev rest hd hev ha (by rw [e]) _ hlen
  rw [e] at r2 r3
  have f := ack_vehicle_command_frame K
    ((self.switch_mount_configure K ev.vehicle_command).1.capture_flags ev.vehicle_command)
    ev.vehicle_command ev.ack_time
  dsimp only at r3
  refine ⟨r1, r2, ?_, ?_, ?_, ?_, ?_⟩
  · rw [r3, f.2.1]
    rfl
  · rw [r3, f.1]
    rfl
  · intro hm
    rw [r3, f.1]
    show (self.switch_mount_configure K ev.vehicle_command).1._control_data.gimbal_shutter_retract
      = true
    rw [switch_mount_configure_retract K self _ hm]
  · intro hm
    rw [r3, f.1]
    constructor
    · show (self.switch_mount_configure K ev.vehicle_command).1._control_data.type =
        ControlDataType.Neutral
      rw [switch_mount_configure_neutral K hK self _ hm]
    · show (self.switch_mount_configure K
        ev.vehicle_command).1._control_data.gimbal_shutter_retract = false
      rw [switch_mount_configure_neutral K hK self _ hm]
  · intro h1 h2
    rw [r3, f.1]
    constructor
    · show (self.switch_mount_configure K ev.vehicle_command).1._control_data.type = _
      rw [switch_mount_configure_other K self _ h1 h2]
    · show (self.switch_mount_configure K
        ev.vehicle_command).1._control_data.gimbal_shutter_retract = _
      rw [switch_mount_configure_other K self _ h1 h2]

/-- C11 at a concrete run: mode RETRACT with `param2 = 1.5f`, `param3 = 2.0f`,
`param4 = 1.0f`, `param5 = 1.0`, `param6 = 2.0`, `param7 = 1.0f`. -/
theorem C11_mount_configure_witness :
    (cmdMount0.update_impl px4 100 false
        ([] ++ delivered 300 configureFlagsCommand :: [])).self._stabilize =
      ⟨true, false, true⟩ ∧
    (cmdMount0.update_impl px4 100 false
        ([] ++ delivered 300 configureFlagsCommand ::
          [])).self._control_data.type_data.angle.is_speed = ⟨true, false, true⟩ ∧
    (cmdMount0.update_impl px4 100 false
        ([] ++ delivered 300 configureFlagsCommand ::
          [])).self._control_data.gimbal_shutter_retract = true :=
  let h := C11_mount_configure px4 (by decide) cmdMount0 100 false []
    (delivered 300 configureFlagsCommand) [] (by decide) (by decide) (by decide) (by decide)
    (by decide)
  ⟨h.2.2.1, h.2.2.2.1, h.2.2.2.2.1 (by decide)⟩

/-! ## C14: DO_DIGICAM_CONTROL -/

/-- In the range of `int`, `(int)x` is `x` with its fraction discarded. -/
theorem F32.toInt_eq_trunc (x : F32) (hn : x.isNaN = false)
    (h1 : -(2 ^ 31) ≤ x.trunc) (h2 : x.trunc ≤ 2 ^ 31 - 1) : x.toInt = x.trunc := by
  unfold F32.toInt
  rw [hn]
  simp only [Bool.false_eq_true, if_false]
  omega

/-- C14: whenever `update_impl` issues the wait that delivers an addressed
`DO_DIGICAM_CONTROL` command, the loop ends on that command: that wait is the
last one of the call and the records after it are not used. The call returns 0
with `*control_data` null, and the object differs from what it was before the
call in `zoom`, which is `(float)(int)param2`, and in the acknowledgment channel
only: type, payload, `gimbal_shutter_retract`, `stabilize_axis` and `_stabilize`
are unchanged. `(int)param2` is `param2` with its fraction discarded when that
is in the range of `int`. (`hreach` says that the call gets to the command: it
issues more waits than there are records before the one that delivers it.) -/
theorem C14_digicam_control (K : Consts) (hK : K.distinct) (self : InputMavlinkCmdMount)
    (timeout_ms : Nat) (already_active : Bool)
    (pre : List CmdPoll) (ev : CmdPoll) (rest : List CmdPoll)
    (hd : ∀ e ∈ pre, e.discarded K self) (hev : ev.delivers K)
    (ha : self.addressed ev.vehicle_command)
    (hc : ev.vehicle_command.command = K.VEHICLE_CMD_DO_DIGICAM_CONTROL)
    (hreach : pre.length <
      (self.update_impl K timeout_ms already_active (pre ++ ev :: rest)).waits.length) :
    (self.update_impl K timeout_ms already_active (pre ++ ev :: rest)).waits.length =
      pre.length + 1 ∧
    self.update_impl K timeout_ms already_active (pre ++ ev :: rest) =
      self.update_impl K timeout_ms already_active (pre ++ [ev]) ∧
    (self.update_impl K timeout_ms already_active (pre ++ ev :: rest)).ret = some 0 ∧
    (self.update_impl K timeout_ms already_active (pre ++ ev :: rest)).changed = false ∧
    (self.update_impl K timeout_ms already_active (pre ++ ev :: rest)).self._control_data =
      { self._control_data with
        zoom := F32.ofInt (F32.toInt ev.vehicle_command.param2) } ∧
    (self.update_impl K timeout_ms already_active (pre ++ ev :: rest)).self._stabilize =
      self._stabilize ∧
    (ev.vehicle_command.param2.isNaN = false →
      -(2 ^ 31) ≤ ev.vehicle_command.param2.trunc →
      ev.vehicle_command.param2.trunc ≤ 2 ^ 31 - 1 →
      F32.toInt ev.vehicle_command.param2 = ev.vehicle_command.param2.trunc) := by
  unfold InputMavlinkCmdMount.update_impl at hreach ⊢
  have e := dispatch_digicam_control K hK self ev.vehicle_command ev.ack_time hc
  have hx : (self.dispatch K ev.vehicle_command ev.ack_time).exit_loop = true := by rw [e]
  have hlen := poll_loop_reaches_exact K self pre ev rest hd hev ha hx _ hreach
  have hrest := poll_loop_rest_unused K self pre ev rest hd hev ha hx
    (toInt32 (timeout_ms : Int))
  obtain ⟨r1, r2, r3, _⟩ := poll_loop_reaches K self pre ev rest hd hev ha hx _ hlen
  rw [e] at r2 r3
  have f := ack_vehicle_command_frame K (self.set_zoom ev.vehicle_command)
    ev.vehicle_command ev.ack_time
  dsimp only at r3
  refine ⟨hlen, hrest, r1, r2, ?_, ?_, F32.toInt_eq_trunc _⟩
  · rw [r3, f.1]
    rfl
  · rw [r3, f.2.1]
    rfl

/-- C14 at a concrete run: `param2 = 3.75f` gives `zoom = 3.0f`, and a RETRACT
command pending behind the `DO_DIGICAM_CONTROL` command is not waited for. -/
theorem C14_digicam_control_witness :
    (cmdMount0.update_impl px4 100 false
        ([] ++ delivered 300 digicamCommand :: [delivered 300 retractCommand])).waits.length
      = ([] : List CmdPoll).length + 1 ∧
    (cmdMount0.update_impl px4 100 false
        ([] ++ delivered 300 digicamCommand :: [delivered 300 retractCommand])).changed
      = false ∧
    (cmdMount0.update_impl px4 100 false
        ([] ++ delivered 300 digicamCommand ::
          [delivered 300 retractCommand])).self._control_data =
      { cmdMount0._control_data with zoom := ⟨0x40400000⟩ } :=
  let h := C14_digicam_control px4 (by decide) cmdMount0 100 false []
    (delivered 300 digicamCommand) [delivered 300 retractCommand]
    (by decide) (by decide) (by decide) (by decide) (by decide)
  ⟨h.1, h.2.2.2.1, h.2.2.2.2.1⟩

/-! ## C15, C16, C18: the ROI input -/

theorem roi_update_roiReady (K : Consts) (self : InputMavlinkROI)
    (timeout_ms : Nat) (already_active : Bool) (ev : RoiPoll) (h : ev.roiReady K) :
    self.update_impl K timeout_ms already_active ev =
      { ret := 0
        changed :=
          (if ev.revents1 &&& K.POLLIN ≠ 0 then
            (self.on_vehicle_roi K ev).1.on_position_setpoint K (self.on_vehicle_roi K ev).2 ev
          else self.on_vehicle_roi K ev).2
        self :=
          (if ev.revents1 &&& K.POLLIN ≠ 0 then
            (self.on_vehicle_roi K ev).1.on_position_setpoint K (self.on_vehicle_roi K ev).2 ev
          else self.on_vehicle_roi K ev).1 } := by
  obtain ⟨h0, h3⟩ := h
  have h1 : ¬ ev.ret < 0 := by omega
  have h2 : ¬ ev.ret = 0 := by omega
  unfold InputMavlinkROI.update_impl
  simp only [h1, h2, h3, if_false, ne_eq, not_false_eq_true, if_true]

/-- The setpoint block writes `lon`, `lat` and `altitude` of the LonLat payload
and nothing else. -/
theorem on_position_setpoint_frame (K : Consts) (s : InputMavlinkROI) (c : Bool)
    (ev : RoiPoll) :
    (s.on_position_setpoint K c ev).1._control_data.type = s._control_data.type ∧
    (s.on_position_setpoint K c ev).1._control_data.gimbal_shutter_retract =
      s._control_data.gimbal_shutter_retract ∧
    (s.on_position_setpoint K c ev).1._control_data.stabilize_axis =
      s._control_data.stabilize_axis ∧
    (s.on_position_setpoint K c ev).1._cur_roi_mode = s._cur_roi_mode ∧
    (c = true → (s.on_position_setpoint K c ev).2 = true) := by
  unfold InputMavlinkROI.on_position_setpoint
    InputMavlinkROI._read_control_data_from_position_setpoint_sub
  split_ifs
  · exact ⟨rfl, rfl, rfl, rfl, fun _ => rfl⟩
  · exact ⟨rfl, rfl, rfl, rfl, fun h => h⟩

theorem on_position_setpoint_wpnext (K : Consts) (s : InputMavlinkROI) (c : Bool)
    (ev : RoiPoll) (h : s._cur_roi_mode = K.ROI_WPNEXT) :
    s.on_position_setpoint K c ev =
      (s._read_control_data_from_position_setpoint_sub ev.position_setpoint_triplet, true) := by
  unfold InputMavlinkROI.on_position_setpoint
  rw [if_pos h]

theorem on_position_setpoint_other (K : Consts) (s : InputMavlinkROI) (c : Bool)
    (ev : RoiPoll) (h : s._cur_roi_mode ≠ K.ROI_WPNEXT) :
    s.on_position_setpoint K c ev = (s, c) := by
  unfold InputMavlinkROI.on_position_setpoint
  rw [if_neg h]

/-- What the ROI block does for every mode. -/
theorem on_vehicle_roi_common (K : Consts) (s : InputMavlinkROI) (ev : RoiPoll) :
    (s.on_vehicle_roi K ev).1._control_data.gimbal_shutter_retract = false ∧
    (s.on_vehicle_roi K ev).1._control_data.stabilize_axis = ⟨false, false, false⟩ ∧
    (s.on_vehicle_roi K ev).1._cur_roi_mode = ev.vehicle_roi.mode := by
  unfold InputMavlinkROI.on_vehicle_roi InputMavlinkROI.control_data_set_lon_lat
    InputMavlinkROI._read_control_data_from_position_setpoint_sub
  dsimp only
  split_ifs <;> exact ⟨rfl, rfl, rfl⟩

theorem on_vehicle_roi_none (K : Consts) (s : InputMavlinkROI) (ev : RoiPoll)
    (h : ev.vehicle_roi.mode = K.ROI_NONE) :
    (s.on_vehicle_roi K ev).1._control_data.type = ControlDataType.Neutral ∧
    (s.on_vehicle_roi K ev).2 = true := by
  unfold InputMavlinkROI.on_vehicle_roi
  dsimp only
  rw [if_pos h]
  exact ⟨rfl, rfl⟩

theorem on_vehicle_roi_wpnext (K : Consts) (hR : K.roiDistinct) (s : InputMavlinkROI)
    (ev : RoiPoll) (h : ev.vehicle_roi.mode = K.ROI_WPNEXT) :
    (s.on_vehicle_roi K ev).1._control_data.type = s._control_data.type ∧
    (s.on_vehicle_roi K ev).2 = true ∧
    (s.on_vehicle_roi K ev).1._control_data.type_data.lonlat.lon =
      ev.position_setpoint_triplet.next.lon ∧
    (s.on_vehicle_roi K ev).1._control_data.type_data.lonlat.lat =
      ev.position_setpoint_triplet.next.lat ∧
    (s.on_vehicle_roi K ev).1._control_data.type_data.lonlat.altitude =
      ev.position_setpoint_triplet.next.alt := by
  have hne : ¬ ev.vehicle_roi.mode = K.ROI_NONE := by
    rw [h]
    exact Ne.symm hR.1
  unfold InputMavlinkROI.on_vehicle_roi
    InputMavlinkROI._read_control_data_from_position_setpoint_sub
  dsimp only
  rw [if_neg hne, if_pos h]
  exact ⟨rfl, rfl, rfl, rfl, rfl⟩

theorem on_vehicle_roi_unsupported (K : Consts) (hR : K.roiDistinct) (s : InputMavlinkROI)
    (ev : RoiPoll)
    (h : ev.vehicle_roi.mode = K.ROI_WPINDEX ∨ ev.vehicle_roi.mode = K.ROI_TARGET) :
    (s.on_vehicle_roi K ev).2 = false := by
  obtain ⟨d1, d2, d3, d4, d5, d6, d7, d8, d9, d10⟩ := hR
  unfold InputMavlinkROI.on_vehicle_roi
  dsimp only
  rcases h with h | h
  · rw [h, if_neg (Ne.symm d2), if_neg (Ne.symm d5), if_pos rfl]
  · rw [h, if_neg (Ne.symm d4), if_neg (Ne.symm d7), if_neg (Ne.symm d9),
      if_neg (Ne.symm d10), if_pos rfl]

theorem roi_update_none (K : Consts) (self : InputMavlinkROI)
    (timeout_ms : Nat) (already_active : Bool) (ev : RoiPoll) (h : ev.roiReady K)
    (hn : ev.vehicle_roi.mode = K.ROI_NONE) :
    (self.update_impl K timeout_ms already_active ev).self._control_data.type =
      ControlDataType.Neutral ∧
    (self.update_impl K timeout_ms already_active ev).changed = true := by
  rw [roi_update_roiReady K self timeout_ms already_active ev h]
  obtain ⟨n1, n2⟩ := on_vehicle_roi_none K self ev hn
  have f := on_position_setpoint_frame K (self.on_vehicle_roi K ev).1
    (self.on_vehicle_roi K ev).2 ev
  dsimp only
  by_cases hs : ev.revents1 &&& K.POLLIN ≠ 0
  · rw [if_pos hs]
    exact ⟨by rw [f.1, n1], f.2.2.2.2 n2⟩
  · rw [if_neg hs]
    exact ⟨n1, n2⟩

/-- C15: for every ROI message delivered to `update_impl`, whatever its mode,
the call returns 0 and after it `gimbal_shutter_retract` is false and the three
`stabilize_axis` flags are false. With mode NONE the type is Neutral and a
change is reported. With mode WPINDEX or TARGET and the setpoint source not
ready, no change is reported. -/
theorem C15_roi_message_resets (K : Consts) (hR : K.roiDistinct) (self : InputMavlinkROI)
    (timeout_ms : Nat) (already_active : Bool) (ev : RoiPoll) (h : ev.roiReady K) :
    (self.update_impl K timeout_ms already_active ev).ret = 0 ∧
    (self.update_impl K timeout_ms already_active ev).self._control_data.gimbal_shutter_retract
      = false ∧
    (self.update_impl K timeout_ms already_active ev).self._control_data.stabilize_axis =
      ⟨false, false, false⟩ ∧
    (ev.vehicle_roi.mode = K.ROI_NONE →
      (self.update_impl K timeout_ms already_active ev).self._control_data.type =
        ControlDataType.Neutral ∧
      (self.update_impl K timeout_ms already_active ev).changed = true) ∧
    (ev.vehicle_roi.mode = K.ROI_WPINDEX ∨ ev.vehicle_roi.mode = K.ROI_TARGET →
      ev.revents1 &&& K.POLLIN = 0 →
      (self.update_impl K timeout_ms already_active ev).changed = false) := by
  have hnone := roi_update_none K self timeout_ms already_active ev h
  suffices hrest :
      (self.update_impl K timeout_ms already_active ev).ret = 0 ∧
      (self.update_impl K timeout_ms already_active
        ev).self._control_data.gimbal_shutter_retract = false ∧
      (self.update_impl K timeout_ms already_active ev).self._control_data.stabilize_axis =
        ⟨false, false, false⟩ ∧
      (ev.vehicle_roi.mode = K.ROI_WPINDEX ∨ ev.vehicle_roi.mode = K.ROI_TARGET →
        ev.revents1 &&& K.POLLIN = 0 →
        (self.update_impl K timeout_ms already_active ev).changed = false) from
    ⟨hrest.1, hrest.2.1, hrest.2.2.1, hnone, hrest.2.2.2⟩
  rw [roi_update_roiReady K self timeout_ms already_active ev h]
  obtain ⟨c1, c2, c3⟩ := on_vehicle_roi_common K self ev
  have f := on_position_setpoint_frame K (self.on_vehicle_roi K ev).1
    (self.on_vehicle_roi K ev).2 ev
  dsimp only
  by_cases hs : ev.revents1 &&& K.POLLIN ≠ 0
  · rw [if_pos hs]
    refine ⟨rfl, by rw [f.2.1, c1], by rw [f.2.2.1, c2], ?_⟩
    intro _ h0
    exact absurd h0 hs
  · rw [if_neg hs]
    refine ⟨rfl, c1, c2, ?_⟩
    intro hm _
    exact on_vehicle_roi_unsupported K hR self ev hm

/-- C15 at a concrete run: an ROI message with mode TARGET on a retracted
object. -/
theorem C15_roi_message_resets_witness :
    (InputMavlinkROI.update_impl px4
        { roi0 with
          _control_data := { ControlData.zeroed with gimbal_shutter_retract := true } }
        100 false (roiPoll 1 1 0 4 (mkTriplet 0 0 0))).self._control_data.gimbal_shutter_retract
      = false :=
  (C15_roi_message_resets px4 (by decide)
    { roi0 with _control_data := { ControlData.zeroed with gimbal_shutter_retract := true } }
    100 false (roiPoll 1 1 0 4 (mkTriplet 0 0 0)) (by decide)).2.1

/-- C16: after every `update_impl` call the stored `_cur_roi_mode` is the mode
of the ROI message delivered in that call when there was one, whatever the
mode, and its previous value otherwise. So after a WPNEXT message followed by a
WPINDEX message, a call in which only the setpoint source is ready returns 0,
reports no change and leaves the object as it was. -/
theorem C16_cur_roi_mode (K : Consts) (hR : K.roiDistinct) (self : InputMavlinkROI)
    (timeout_ms : Nat) (already_active : Bool) (ev : RoiPoll) :
    (ev.roiReady K →
      (self.update_impl K timeout_ms already_active ev).self._cur_roi_mode =
        ev.vehicle_roi.mode) ∧
    (¬ ev.roiReady K →
      (self.update_impl K timeout_ms already_active ev).self._cur_roi_mode =
        self._cur_roi_mode) ∧
    (∀ ev2 ev3 : RoiPoll, ev.roiReady K → ev.vehicle_roi.mode = K.ROI_WPNEXT →
      ev2.roiReady K → ev2.vehicle_roi.mode = K.ROI_WPINDEX → ev3.setpointOnly K →
      InputMavlinkROI.update_impl K
          (InputMavlinkROI.after K timeout_ms self [ev, ev2]) timeout_ms already_active ev3 =
        { ret := 0, changed := false
          self := InputMavlinkROI.after K timeout_ms self [ev, ev2] }) := by
  refine ⟨roi_update_roi_message_mode K self timeout_ms already_active ev,
    roi_update_without_roi_message K self timeout_ms already_active ev, ?_⟩
  intro ev2 ev3 _ _ h2 hm2 h3
  have hmode : (InputMavlinkROI.after K timeout_ms self [ev, ev2])._cur_roi_mode =
      K.ROI_WPINDEX := by
    unfold InputMavlinkROI.after
    simp only [List.foldl_cons, List.foldl_nil]
    rw [roi_update_roi_message_mode K _ timeout_ms false ev2 h2, hm2]
  rw [roi_update_setpoint_only K _ timeout_ms already_active ev3 h3,
    on_position_setpoint_other K _ _ _ (by rw [hmode]; exact Ne.symm hR.2.2.2.2.1)]

/-- C16 at a concrete run: WPNEXT, then WPINDEX, then a setpoint-only wake-up. -/
theorem C16_cur_roi_mode_witness :
    (InputMavlinkROI.update_impl px4
        (InputMavlinkROI.after px4 100 roi0
          [roiPoll 1 1 0 1 (mkTriplet 0 0 0), roiPoll 1 1 0 2 (mkTriplet 0 0 0)])
        100 false (roiPoll 1 0 1 0 (mkTriplet 11 22 33))).changed = false :=
  congrArg RoiResult.changed
    ((C16_cur_roi_mode px4 (by decide) roi0 100 false (roiPoll 1 1 0 1 (mkTriplet 0 0 0))).2.2
      (roiPoll 1 1 0 2 (mkTriplet 0 0 0)) (roiPoll 1 0 1 0 (mkTriplet 11 22 33))
      (by decide) (by decide) (by decide) (by decide) (by decide))

/-- C18: a call that processes an ROI message with mode WPNEXT, and a call in
which only the setpoint source is ready while `_cur_roi_mode` is WPNEXT, report
a change and set `lon`, `lat` and `altitude` of the LonLat payload from the next
leg of the setpoint triplet, and leave `type` as it was before the call. So
after a NONE message a WPNEXT message is reported as a change with type
Neutral. -/
theorem C18_wpnext_keeps_type (K : Consts) (hR : K.roiDistinct) (self : InputMavlinkROI)
    (timeout_ms : Nat) (already_active : Bool) (ev : RoiPoll) :
    ((ev.roiReady K ∧ ev.vehicle_roi.mode = K.ROI_WPNEXT) ∨
        (ev.setpointOnly K ∧ self._cur_roi_mode = K.ROI_WPNEXT) →
      (self.update_impl K timeout_ms already_active ev).changed = true ∧
      (self.update_impl K timeout_ms already_active ev).self._control_data.type =
        self._control_data.type ∧
      (self.update_impl K timeout_ms already_active ev).self._control_data.type_data.lonlat.lon
        = ev.position_setpoint_triplet.next.lon ∧
      (self.update_impl K timeout_ms already_active ev).self._control_data.type_data.lonlat.lat
        = ev.position_setpoint_triplet.next.lat ∧
      (self.update_impl K timeout_ms already_active
          ev).self._control_data.type_data.lonlat.altitude =
        ev.position_setpoint_triplet.next.alt) ∧
    (∀ ev0 : RoiPoll, ev0.roiReady K → ev0.vehicle_roi.mode = K.ROI_NONE →
      ev.roiReady K → ev.vehicle_roi.mode = K.ROI_WPNEXT →
      (InputMavlinkROI.update_impl K (self.update_impl K timeout_ms already_active ev0).self
        timeout_ms already_active ev).changed = true ∧
      (InputMavlinkROI.update_impl K (self.update_impl K timeout_ms already_active ev0).self
        timeout_ms already_active ev).self._control_data.type = ControlDataType.Neutral) := by
  have key : ∀ s : InputMavlinkROI,
      ((ev.roiReady K ∧ ev.vehicle_roi.mode = K.ROI_WPNEXT) ∨
        (ev.setpointOnly K ∧ s._cur_roi_mode = K.ROI_WPNEXT)) →
      (s.update_impl K timeout_ms already_active ev).changed = true ∧
      (s.update_impl K timeout_ms already_active ev).self._control_data.type =
        s._control_data.type ∧
      (s.update_impl K timeout_ms already_active ev).self._control_data.type_data.lonlat.lon
        = ev.position_setpoint_triplet.next.lon ∧
      (s.update_impl K timeout_ms already_active ev).self._control_data.type_data.lonlat.lat
        = ev.position_setpoint_triplet.next.lat ∧
      (s.update_impl K timeout_ms already_active
          ev).self._control_data.type_data.lonlat.altitude =
        ev.position_setpoint_triplet.next.alt := by
    intro s hcase
    rcases hcase with ⟨hr, hm⟩ | ⟨hs, hm⟩
    · rw [roi_update_roiReady K s timeout_ms already_active ev hr]
      obtain ⟨w1, w2, w3, w4, w5⟩ := on_vehicle_roi_wpnext K hR s ev hm
      have hcur := (on_vehicle_roi_common K s ev).2.2
      dsimp only
      by_cases hsp : ev.revents1 &&& K.POLLIN ≠ 0
      · rw [if_pos hsp, on_position_setpoint_wpnext K _ _ _ (by rw [hcur, hm])]
        exact ⟨rfl, w1, rfl, rfl, rfl⟩
      · rw [if_neg hsp]
        exact ⟨w2, w1, w3, w4, w5⟩
    · rw [roi_update_setpoint_only K s timeout_ms already_active ev hs,
        on_position_setpoint_wpnext K _ _ _ hm]
      exact ⟨rfl, rfl, rfl, rfl, rfl⟩
  refine ⟨key self, ?_⟩
  intro ev0 h0 hm0 hr hm
  have t0 := (roi_update_none K self timeout_ms already_active ev0 h0 hm0).1
  obtain ⟨k1, k2, _⟩ := key (self.update_impl K timeout_ms already_active ev0).self
    (Or.inl ⟨hr, hm⟩)
  exact ⟨k1, by rw [k2, t0]⟩

/-- C18 at a concrete run: a NONE message, then a WPNEXT message. -/
theorem C18_wpnext_keeps_type_witness :
    (InputMavlinkROI.update_impl px4
        (roi0.update_impl px4 100 false (roiPoll 1 1 0 0 (mkTriplet 0 0 0))).self
        100 false (roiPoll 1 1 0 1 (mkTriplet 11 22 33))).changed = true ∧
    (InputMavlinkROI.update_impl px4
        (roi0.update_impl px4 100 false (roiPoll 1 1 0 0 (mkTriplet 0 0 0))).self
        100 false (roiPoll 1 1 0 1 (mkTriplet 11 22 33))).self._control_data.type =
      ControlDataType.Neutral :=
  (C18_wpnext_keeps_type px4 (by decide) roi0 100 false
    (roiPoll 1 1 0 1 (mkTriplet 11 22 33))).2 (roiPoll 1 1 0 0 (mkTriplet 0 0 0))
    (by decide) (by decide) (by decide) (by decide)

/-! ## C19: `stabilize_axis` is not written by the command input -/

/-- Handling a command never writes `stabilize_axis`, `_mav_sys_id` or
`_mav_comp_id`. -/
theorem on_vehicle_command_frame (K : Consts) (s : InputMavlinkCmdMount)
    (cmd : vehicle_command_s) (now : Nat) :
    (s.on_vehicle_command K cmd now).self._control_data.stabilize_axis =
      s._control_data.stabilize_axis ∧
    (s.on_vehicle_command K cmd now).self._mav_sys_id = s._mav_sys_id ∧
    (s.on_vehicle_command K cmd now).self._mav_comp_id = s._mav_comp_id := by
  unfold InputMavlinkCmdMount.on_vehicle_command InputMavlinkCmdMount.dispatch
    InputMavlinkCmdMount.switch_mount_control InputMavlinkCmdMount.switch_mount_configure
    InputMavlinkCmdMount.case_MAVLINK_TARGETING InputMavlinkCmdMount.capture_flags
    InputMavlinkCmdMount.set_zoom InputMavlinkCmdMount._ack_vehicle_command
  dsimp only
  split_ifs <;> exact ⟨rfl, rfl, rfl⟩

/-- The object after the loop is the object before it, or the object left by
the handling of one of the delivered commands. -/
theorem poll_loop_self_cases (K : Consts) (self : InputMavlinkCmdMount)
    (evs : List CmdPoll) (poll_timeout : Int) :
    (self.poll_loop K poll_timeout evs).self = self ∨
    ∃ ev ∈ evs, (self.poll_loop K poll_timeout evs).self =
      (self.on_vehicle_command K ev.vehicle_command ev.ack_time).self := by
  induction evs generalizing poll_timeout with
  | nil =>
    left
    unfold InputMavlinkCmdMount.poll_loop
    split_ifs <;> rfl
  | cons ev rest ih =>
    by_cases hp : 0 ≤ poll_timeout
    · rcases lt_trichotomy ev.ret 0 with hr | hr | hr
      · left
        rw [poll_loop_fails K self _ ev rest hp hr]
      · left
        rw [poll_loop_timesOut K self _ ev rest hp hr]
      · have hr1 : ¬ ev.ret < 0 := by omega
        have hr2 : ¬ ev.ret = 0 := by omega
        by_cases hv : ev.revents &&& K.POLLIN ≠ 0
        · by_cases hx :
            (self.on_vehicle_command K ev.vehicle_command ev.ack_time).exit_loop = true
          · right
            refine ⟨ev, List.mem_cons_self _ _, ?_⟩
            simp only [InputMavlinkCmdMount.poll_loop, ge_iff_le, hp, hr1, hr2, hv, hx,
              if_true, if_false, ne_eq, not_false_eq_true]
          · rw [poll_loop_continue K self poll_timeout ev rest hp ⟨hr, hv⟩
              (by simpa using hx)]
            rcases ih (ev.charge poll_timeout) with h | ⟨e, he, h⟩
            · left
              exact h
            · right
              exact ⟨e, List.mem_cons_of_mem _ he, h⟩
        · left
          simp only [InputMavlinkCmdMount.poll_loop, ge_iff_le, hp, hr1, hr2, hv, if_true,
            if_false]
    · left
      rw [poll_loop_negative K self _ _ (by omega)]

/-- C19: for every state, timeout and sequence of delivered records, the
`stabilize_axis` flags of `_control_data` after an `update_impl` call of the
command input are the ones from before the call. The flags taken from a
`DO_MOUNT_CONFIGURE` command go to the member `_stabilize`. -/
theorem C19_stabilize_axis_untouched (K : Consts) (self : InputMavlinkCmdMount)
    (timeout_ms : Nat) (already_active : Bool) (evs : List CmdPoll) :
    (self.update_impl K timeout_ms already_active evs).self._control_data.stabilize_axis =
      self._control_data.stabilize_axis := by
  unfold InputMavlinkCmdMount.update_impl
  rcases poll_loop_self_cases K self evs (toInt32 (timeout_ms : Int)) with h | ⟨ev, _, h⟩
  · rw [h]
  · rw [h]
    exact (on_vehicle_command_frame K self ev.vehicle_command ev.ack_time).1

/-! ## C20: the conversion of the timeout -/

theorem dispatch_recognized_exits (K : Consts) (self : InputMavlinkCmdMount)
    (cmd : vehicle_command_s) (now : Nat) (h : ¬ K.unrecognized cmd) :
    (self.dispatch K cmd now).exit_loop = true := by
  unfold Consts.unrecognized at h
  unfold InputMavlinkCmdMount.dispatch
  split_ifs with h1 h2 h3
  · rfl
  · rfl
  · rfl
  · exact absurd ⟨h1, h2, h3⟩ h

/-- An iteration on a record that does not deliver a discarded command is the
last one. -/
theorem poll_loop_not_discarded (K : Consts) (self : InputMavlinkCmdMount)
    (poll_timeout : Int) (ev : CmdPoll) (rest : List CmdPoll) (hp : 0 ≤ poll_timeout)
    (h : ¬ ev.discarded K self) :
    (self.poll_loop K poll_timeout (ev :: rest)).waits = [poll_timeout] := by
  rcases lt_trichotomy ev.ret 0 with hr | hr | hr
  · rw [poll_loop_fails K self _ ev rest hp hr]
  · rw [poll_loop_timesOut K self _ ev rest hp hr]
  · have hr1 : ¬ ev.ret < 0 := by omega
    have hr2 : ¬ ev.ret = 0 := by omega
    by_cases hv : ev.revents &&& K.POLLIN ≠ 0
    · have hd : ev.delivers K := ⟨hr, hv⟩
      have ha : self.addressed ev.vehicle_command := by
        by_contra hna
        exact h ⟨hd, Or.inl hna⟩
      have hu : ¬ K.unrecognized ev.vehicle_command := fun hu => h ⟨hd, Or.inr hu⟩
      rw [poll_loop_delivered K self _ ev rest hp hd ha
        (dispatch_recognized_exits K self _ _ hu)]
    · simp only [InputMavlinkCmdMount.poll_loop, ge_iff_le, hp, hr1, hr2, hv, if_true,
        if_false]

/-- The budget left after a wait with timeout 0, for a monotonic clock: still 0
when less than 1000 microseconds were measured, negative when 1 ms or more
(and less than `2^31` ms) was measured. -/
theorem charge_zero (ev : CmdPoll) (hm : ev.monotonic) :
    (ev.elapsed_us < 1000 → ev.charge 0 = 0) ∧
    (1000 ≤ ev.elapsed_us → ev.elapsed_us < 1000 * 2 ^ 31 → ev.charge 0 < 0) := by
  obtain ⟨hm1, hm2⟩ := hm
  unfold CmdPoll.charge CmdPoll.elapsed_ms CmdPoll.elapsed_us toUInt64 toInt32
  constructor
  · intro h
    omega
  · intro h1 h2
    omega

/-- C20, as the code has it: `poll_timeout` is `timeout_ms` modulo `2^32` read as
a signed 32-bit value. For `2^31 <= timeout_ms < 2^32` it is negative and the
call returns 0 with `*control_data` null at once: no wait is issued, no record
is used, nothing is published and the object is unchanged, whatever is pending.
For `timeout_ms = 0` the first wait has timeout 0. A second wait follows
exactly when the first one delivers a command that is discarded and the budget
left after charging it is not negative; its timeout is that budget. In every
other case the first wait is the only one of the call. With a monotonic clock
the budget left is 0 when less than 1000 microseconds were measured for the
wait, and negative when 1 ms or more (below `2^31` ms) was measured. -/
theorem C20_timeout_conversion (K : Consts) (self : InputMavlinkCmdMount)
    (timeout_ms : Nat) (already_active : Bool) (evs : List CmdPoll) :
    (2 ^ 31 ≤ timeout_ms → timeout_ms < 2 ^ 32 →
      toInt32 (timeout_ms : Int) = (timeout_ms : Int) - 2 ^ 32 ∧
      toInt32 (timeout_ms : Int) < 0 ∧
      self.update_impl K timeout_ms already_active evs =
        { ret := some 0, changed := false, self := self, acks := [], waits := [] }) ∧
    (∃ tl, (self.update_impl K 0 already_active evs).waits = 0 :: tl) ∧
    (∀ ev rest, evs = ev :: rest → ¬ ev.discarded K self →
      (self.update_impl K 0 already_active evs).waits = [0]) ∧
    (∀ ev rest, evs = ev :: rest → ev.discarded K self → ev.charge 0 < 0 →
      self.update_impl K 0 already_active evs =
        { ret := some 0, changed := false, self := self, acks := [], waits := [0] }) ∧
    (∀ ev rest, evs = ev :: rest → ev.discarded K self → 0 ≤ ev.charge 0 →
      ∃ tl, (self.update_impl K 0 already_active evs).waits = 0 :: ev.charge 0 :: tl) ∧
    (evs = [] → (self.update_impl K 0 already_active evs).waits = [0]) ∧
    (∀ ev : CmdPoll, ev.monotonic →
      (ev.elapsed_us < 1000 → ev.charge 0 = 0) ∧
      (1000 ≤ ev.elapsed_us → ev.elapsed_us < 1000 * 2 ^ 31 → ev.charge 0 < 0)) := by
  have z : toInt32 ((0 : Nat) : Int) = 0 := by decide
  refine ⟨?_, ?_, ?_, ?_, ?_, ?_, charge_zero⟩
  · intro h1 h2
    have e : toInt32 (timeout_ms : Int) = (timeout_ms : Int) - 2 ^ 32 := by
      unfold toInt32
      omega
    have hneg : toInt32 (timeout_ms : Int) < 0 := by
      rw [e]
      omega
    refine ⟨e, hneg, ?_⟩
    unfold InputMavlinkCmdMount.update_impl
    exact poll_loop_negative K self _ evs hneg
  · unfold InputMavlinkCmdMount.update_impl
    exact poll_loop_waits_head K self evs _ (by decide)
  · intro ev rest he hnd
    subst he
    unfold InputMavlinkCmdMount.update_impl
    exact poll_loop_not_discarded K self _ ev rest (by decide) hnd
  · intro ev rest he hdis hneg
    subst he
    unfold InputMavlinkCmdMount.update_impl
    rw [z, poll_loop_continue K self 0 ev rest (le_refl 0) hdis.1
      (by rw [on_vehicle_command_discarded K self ev hdis]),
      poll_loop_negative K self _ _ hneg]
  · intro ev rest he hdis hnn
    subst he
    unfold InputMavlinkCmdMount.update_impl
    obtain ⟨tl, htl⟩ := poll_loop_waits_head K self rest _ hnn
    refine ⟨tl, ?_⟩
    rw [z, poll_loop_continue K self 0 ev rest (le_refl 0) hdis.1
      (by rw [on_vehicle_command_discarded K self ev hdis]), htl]
  · intro he
    subst he
    unfold InputMavlinkCmdMount.update_impl
    rw [z]
    simp [InputMavlinkCmdMount.poll_loop]

/-- C20 at concrete runs: `timeout_ms = 2^31` with a RETRACT command pending;
`timeout_ms = 0` with a discarded command for which 1500 microseconds were
measured and a RETRACT command pending behind it; and `timeout_ms = 0` with a
discarded command for which 200 microseconds were measured. -/
theorem C20_timeout_conversion_witness :
    cmdMount0.update_impl px4 (2 ^ 31) false [delivered 0 retractCommand] =
      { ret := some 0, changed := false, self := cmdMount0, acks := [], waits := [] } ∧
    cmdMount0.update_impl px4 0 false
        [delivered 1500 otherSystemCommand, delivered 0 retractCommand] =
      { ret := some 0, changed := false, self := cmdMount0, acks := [], waits := [0] } ∧
    ∃ tl, (cmdMount0.update_impl px4 0 false
        [delivered 200 otherSystemCommand, timedOut 0]).waits =
      0 :: (delivered 200 otherSystemCommand).charge 0 :: tl :=
  ⟨((C20_timeout_conversion px4 cmdMount0 (2 ^ 31) false [delivered 0 retractCommand]).1
      (by decide) (by decide)).2.2,
    (C20_timeout_conversion px4 cmdMount0 0 false
      [delivered 1500 otherSystemCommand, delivered 0 retractCommand]).2.2.2.1
      (delivered 1500 otherSystemCommand) [delivered 0 retractCommand] rfl (by decide)
      (by decide),
    (C20_timeout_conversion px4 cmdMount0 0 false
      [delivered 200 otherSystemCommand, timedOut 0]).2.2.2.2.1
      (delivered 200 otherSystemCommand) [timedOut 0] rfl (by decide) (by decide)⟩

/-- C20 as stated fails in its last part: with `timeout_ms = 0` and a command
for another system pending, the first zero-timeout wait delivers it, it is
discarded, and a second wait with timeout 0 is issued. -/
theorem C20_counterexample :
    (delivered 200 otherSystemCommand).discarded px4 cmdMount0 ∧
    (cmdMount0.update_impl px4 0 false
      [delivered 200 otherSystemCommand, timedOut 0]).waits = [0, 0] ∧
    ¬ ((cmdMount0.update_impl px4 0 false
      [delivered 200 otherSystemCommand, timedOut 0]).waits.length = 1) := by
  decide

/-! ## C13: parameters that cannot be resolved -/

theorem construct_ids (init : InputMavlinkCmdMount) (stabilize : Bool)
    (MAV_SYS_ID MAV_COMP_ID : Option Int) :
    (init.construct stabilize MAV_SYS_ID MAV_COMP_ID)._mav_sys_id =
      MAV_SYS_ID.getD init._mav_sys_id ∧
    (init.construct stabilize MAV_SYS_ID MAV_COMP_ID)._mav_comp_id =
      MAV_COMP_ID.getD init._mav_comp_id ∧
    (init.construct stabilize MAV_SYS_ID MAV_COMP_ID)._stabilize =
      ⟨stabilize, stabilize, stabilize⟩ := by
  unfold InputMavlinkCmdMount.construct
  cases MAV_SYS_ID <;> cases MAV_COMP_ID <;> exact ⟨rfl, rfl, rfl⟩

/-- C13, as the code has it: a parameter that cannot be resolved leaves the
member at the value its initialiser gave it, and the address check is the same
equality test as ever. After construction a command goes through the dispatch
exactly when its target system is the stored system id (the resolved parameter,
or the initial value when it cannot be resolved) and its target component is
the stored component id or 0; every other command is discarded. -/
theorem C13_unresolved_parameter_keeps_initial_id (K : Consts) (init : InputMavlinkCmdMount)
    (stabilize : Bool) (MAV_SYS_ID MAV_COMP_ID : Option Int)
    (cmd : vehicle_command_s) (now : Nat) :
    (init.construct stabilize none MAV_COMP_ID)._mav_sys_id = init._mav_sys_id ∧
    (init.construct stabilize MAV_SYS_ID none)._mav_comp_id = init._mav_comp_id ∧
    (((cmd.target_system : Int) = MAV_SYS_ID.getD init._mav_sys_id ∧
        ((cmd.target_component : Int) = MAV_COMP_ID.getD init._mav_comp_id ∨
          cmd.target_component = 0)) →
      (init.construct stabilize MAV_SYS_ID MAV_COMP_ID).on_vehicle_command K cmd now =
        (init.construct stabilize MAV_SYS_ID MAV_COMP_ID).dispatch K cmd now) ∧
    (¬ ((cmd.target_system : Int) = MAV_SYS_ID.getD init._mav_sys_id ∧
        ((cmd.target_component : Int) = MAV_COMP_ID.getD init._mav_comp_id ∨
          cmd.target_component = 0)) →
      (init.construct stabilize MAV_SYS_ID MAV_COMP_ID).on_vehicle_command K cmd now =
        { self := init.construct stabilize MAV_SYS_ID MAV_COMP_ID, changed := false,
          acks := [], exit_loop := false }) := by
  obtain ⟨i1, i2, _⟩ := construct_ids init stabilize MAV_SYS_ID MAV_COMP_ID
  refine ⟨(construct_ids init stabilize none MAV_COMP_ID).1,
    (construct_ids init stabilize MAV_SYS_ID none).2.1, ?_, ?_⟩
  · intro h
    apply on_vehicle_command_addressed
    unfold InputMavlinkCmdMount.addressed
    rw [i1, i2]
    exact h
  · intro h
    apply on_vehicle_command_not_addressed
    unfold InputMavlinkCmdMount.addressed
    rw [i1, i2]
    exact h

/-- C13 at a concrete construction: initial ids 1 and 1, neither parameter
resolved, a command for system 7. -/
theorem C13_unresolved_parameter_keeps_initial_id_witness :
    (cmdMount0.construct false none none).on_vehicle_command px4 otherSystemCommand 5 =
      { self := cmdMount0.construct false none none, changed := false, acks := [],
        exit_loop := false } :=
  (C13_unresolved_parameter_keeps_initial_id px4 cmdMount0 false none none
    otherSystemCommand 5).2.2.2 (by decide)

/-- C13 as stated fails: constructed from initial ids 1 and 1 with neither
parameter resolved, the input discards a RETRACT command for system 7 and
component 0. And whatever the initial ids are, when the system-id parameter
cannot be resolved there is a target system all of whose commands are
discarded, and when the component-id parameter cannot be resolved there is a
target component all of whose commands are discarded: no initial value makes a
filter match everything. -/
theorem C13_counterexample :
    ((cmdMount0.construct false none none).on_vehicle_command px4
        { retractCommand with target_system := 7, target_component := 0 } 5).exit_loop
      = false ∧
    (∀ (init : InputMavlinkCmdMount) (stabilize : Bool) (MAV_COMP_ID : Option Int),
      ∃ t : Nat, ∀ cmd : vehicle_command_s, cmd.target_system = t →
        ((init.construct stabilize none MAV_COMP_ID).on_vehicle_command px4 cmd 5).exit_loop
          = false) ∧
    (∀ (init : InputMavlinkCmdMount) (stabilize : Bool) (MAV_SYS_ID : Option Int),
      ∃ c : Nat, ∀ cmd : vehicle_command_s, cmd.target_component = c →
        ((init.construct stabilize MAV_SYS_ID none).on_vehicle_command px4 cmd 5).exit_loop
          = false) := by
  refine ⟨by decide, ?_, ?_⟩
  · intro init stabilize MAV_COMP_ID
    have i1 := (construct_ids init stabilize none MAV_COMP_ID).1
    rw [Option.getD_none] at i1
    by_cases h : init._mav_sys_id = 0
    · refine ⟨1, fun cmd hc => ?_⟩
      rw [on_vehicle_command_not_addressed]
      unfold InputMavlinkCmdMount.addressed
      rw [i1, hc, h]
      intro hx
      have := hx.1
      omega
    · refine ⟨0, fun cmd hc => ?_⟩
      rw [on_vehicle_command_not_addressed]
      unfold InputMavlinkCmdMount.addressed
      rw [i1, hc]
      intro hx
      exact h hx.1.symm
  · intro init stabilize MAV_SYS_ID
    have i2 := (construct_ids init stabilize MAV_SYS_ID none).2.1
    rw [Option.getD_none] at i2
    by_cases h : init._mav_comp_id = 1
    · refine ⟨2, fun cmd hc => ?_⟩
      rw [on_vehicle_command_not_addressed]
      unfold InputMavlinkCmdMount.addressed
      rw [i2, hc, h]
      intro hx
      have := hx.2
      omega
    · refine ⟨1, fun cmd hc => ?_⟩
      rw [on_vehicle_command_not_addressed]
      unfold InputMavlinkCmdMount.addressed
      rw [i2, hc]
      intro hx
      rcases hx.2 with h1 | h1
      · exact h h1.symm
      · omega

/-! ## C17: a non-finite roll -/

theorem case_MAVLINK_TARGETING_finite (K : Consts) (self : InputMavlinkCmdMount)
    (cmd : vehicle_command_s)
    (h1 : (F32.mul cmd.param1 K.M_DEG_TO_RAD_F).isFinite = true)
    (h3 : (F32.mul cmd.param3 K.M_DEG_TO_RAD_F).isFinite = true) :
    (self.case_MAVLINK_TARGETING K cmd)._control_data.type_data.angle.angles =
      ⟨F32.mul cmd.param2 K.M_DEG_TO_RAD_F, F32.mul cmd.param1 K.M_DEG_TO_RAD_F,
        F32.mul cmd.param3 K.M_DEG_TO_RAD_F⟩ := by
  unfold InputMavlinkCmdMount.case_MAVLINK_TARGETING
  dsimp only
  rw [h1, h3]
  rfl

/-- What `update_impl` leaves when it gets to an addressed `DO_MOUNT_CONTROL`
command with mode MAVLINK_TARGETING. -/
theorem update_impl_targeting (K : Consts) (hK : K.distinct)
    (self : InputMavlinkCmdMount) (timeout_ms : Nat) (already_active : Bool)
    (pre : List CmdPoll) (ev : CmdPoll) (rest : List CmdPoll)
    (hd : ∀ e ∈ pre, e.discarded K self) (hev : ev.delivers K)
    (ha : self.addressed ev.vehicle_command)
    (hc : ev.vehicle_command.command = K.VEHICLE_CMD_DO_MOUNT_CONTROL)
    (hm : F32.toInt ev.vehicle_command.param7 = K.VEHICLE_MOUNT_MODE_MAVLINK_TARGETING)
    (hlen : (self.update_impl K timeout_ms already_active (pre ++ ev :: rest)).waits.length =
      pre.length + 1) :
    (self.update_impl K timeout_ms already_active (pre ++ ev :: rest)).ret = some 0 ∧
    (self.update_impl K timeout_ms already_active (pre ++ ev :: rest)).changed = true ∧
    (self.update_impl K timeout_ms already_active (pre ++ ev :: rest)).self =
      self.case_MAVLINK_TARGETING K ev.vehicle_command := by
  unfold InputMavlinkCmdMount.update_impl at hlen ⊢
  have e : self.dispatch K ev.vehicle_command ev.ack_time =
      { self := self.case_MAVLINK_TARGETING K ev.vehicle_command, changed := true, acks := [],
        exit_loop := true } := by
    rw [dispatch_mount_control K self _ _ hc, switch_mount_control_targeting K hK self _ hm]
  obtain ⟨r1, r2, r3, _⟩ :=
    poll_loop_reaches K self pre ev rest hd hev ha (by rw [e]) _ hlen
  rw [e] at r2 r3
  exact ⟨r1, r2, r3⟩

/-- C17, as the code has it: the guard tests `pitch` and `yaw` only. Whenever
`update_impl` gets to an addressed `DO_MOUNT_CONTROL` command with mode
MAVLINK_TARGETING whose `pitch` and `yaw` (the products with `M_DEG_TO_RAD_F`)
are finite and whose `param2` (roll) is an infinity or a NaN, the three angles
are written, `angles[0]` with the product of `param2` and `M_DEG_TO_RAD_F`,
which is not finite. (`hlen` says that the call gets to the command.) -/
theorem C17_non_finite_roll_is_written (K : Consts) (hK : K.distinct)
    (self : InputMavlinkCmdMount) (timeout_ms : Nat) (already_active : Bool)
    (pre : List CmdPoll) (ev : CmdPoll) (rest : List CmdPoll)
    (hd : ∀ e ∈ pre, e.discarded K self) (hev : ev.delivers K)
    (ha : self.addressed ev.vehicle_command)
    (hc : ev.vehicle_command.command = K.VEHICLE_CMD_DO_MOUNT_CONTROL)
    (hm : F32.toInt ev.vehicle_command.param7 = K.VEHICLE_MOUNT_MODE_MAVLINK_TARGETING)
    (h1 : (F32.mul ev.vehicle_command.param1 K.M_DEG_TO_RAD_F).isFinite = true)
    (h3 : (F32.mul ev.vehicle_command.param3 K.M_DEG_TO_RAD_F).isFinite = true)
    (h2 : ev.vehicle_command.param2.isFinite = false)
    (hlen : (self.update_impl K timeout_ms already_active (pre ++ ev :: rest)).waits.length =
      pre.length + 1) :
    (self.update_impl K timeout_ms already_active
        (pre ++ ev :: rest)).self._control_data.type_data.angle.angles =
      ⟨F32.mul ev.vehicle_command.param2 K.M_DEG_TO_RAD_F,
        F32.mul ev.vehicle_command.param1 K.M_DEG_TO_RAD_F,
        F32.mul ev.vehicle_command.param3 K.M_DEG_TO_RAD_F⟩ ∧
    (self.update_impl K timeout_ms already_active
        (pre ++ ev :: rest)).self._control_data.type_data.angle.angles.x0.isFinite = false := by
  obtain ⟨_, _, r3⟩ := update_impl_targeting K hK self timeout_ms already_active pre ev rest
    hd hev ha hc hm hlen
  have a := case_MAVLINK_TARGETING_finite K self ev.vehicle_command h1 h3
  rw [r3, a]
  exact ⟨rfl, F32.mul_not_finite _ _ h2⟩

/-- C17 at a concrete run: angles (1, 2, 3) before the call, pitch 90, yaw 180
and a NaN roll. -/
theorem C17_non_finite_roll_is_written_witness :
    (cmdMount1.update_impl px4 100 false
        ([] ++ delivered 300 nanRollCommand ::
          [])).self._control_data.type_data.angle.angles.x0.isFinite = false :=
  (C17_non_finite_roll_is_written px4 (by decide) cmdMount1 100 false []
    (delivered 300 nanRollCommand) [] (by decide) (by decide) (by decide) (by decide)
    (by decide) (by decide) (by decide) (by decide) (by decide)).2

/-- C17 as stated fails: with angles (1.0f, 2.0f, 3.0f) before the call, finite
pitch and yaw and a NaN roll, `angles[0]` after the call is not the prior
`1.0f`: it holds a NaN. -/
theorem C17_counterexample :
    (F32.mul nanRollCommand.param1 px4.M_DEG_TO_RAD_F).isFinite = true ∧
    (F32.mul nanRollCommand.param3 px4.M_DEG_TO_RAD_F).isFinite = true ∧
    nanRollCommand.param2.isFinite = false ∧
    cmdMount1._control_data.type_data.angle.angles.x0 = ⟨0x3F800000⟩ ∧
    (cmdMount1.update_impl px4 100 false
        [delivered 300 nanRollCommand]).self._control_data.type_data.angle.angles =
      ⟨⟨0x7FC00000⟩, ⟨0x3FC90FDB⟩, ⟨0x40490FDB⟩⟩ ∧
    ¬ ((cmdMount1.update_impl px4 100 false
        [delivered 300 nanRollCommand]).self._control_data.type_data.angle.angles.x0 =
      cmdMount1._control_data.type_data.angle.angles.x0) := by
  decide

/-! ## C12: degrees to radians -/

namespace F32

theorem bitLength_zero (fuel : Nat) : bitLength fuel 0 = 0 := by
  cases fuel <;> simp [bitLength]

theorem bitLength_spec (fuel : Nat) :
    ∀ n, n ≤ fuel → n < 2 ^ bitLength fuel n ∧ (0 < n → 2 ^ bitLength fuel n ≤ 2 * n) := by
  induction fuel with
  | zero =>
    intro n hn
    have : n = 0 := by omega
    subst this
    simp [bitLength]
  | succ fuel ih =>
    intro n hn
    by_cases h0 : n = 0
    · subst h0
      simp [bitLength]
    · have hb : bitLength (fuel + 1) n = bitLength fuel (n / 2) + 1 := by
        simp [bitLength, h0]
      rw [hb, pow_succ]
      obtain ⟨i1, i2⟩ := ih (n / 2) (by omega)
      by_cases h2 : n / 2 = 0
      · rw [h2, bitLength_zero] at i1 ⊢
        simp only [pow_zero]
        omega
      · have i3 := i2 (by omega)
        constructor
        · omega
        · intro _
          omega

theorem roundShift_spec (m k : Nat) (hk : 0 < k) :
    roundShift m k * 2 ^ k ≤ m + 2 ^ (k - 1) ∧ m ≤ roundShift m k * 2 ^ k + 2 ^ (k - 1) ∧
    m / 2 ^ k ≤ roundShift m k ∧ roundShift m k ≤ m / 2 ^ k + 1 := by
  have hD : 2 ^ k = 2 * 2 ^ (k - 1) := by
    conv_lhs => rw [show k = (k - 1) + 1 by omega]
    rw [pow_succ]
    ring
  have hdm := Nat.div_add_mod m (2 ^ k)
  have hlt : m % 2 ^ k < 2 ^ k := Nat.mod_lt _ (by positivity)
  have hk0 : ¬ k = 0 := by omega
  unfold roundShift
  simp only [hk0, if_false]
  split_ifs with h
  · have e : (m / 2 ^ k + 1) * 2 ^ k = 2 ^ k * (m / 2 ^ k) + 2 ^ k := by ring
    rw [e]
    refine ⟨?_, ?_, ?_, ?_⟩ <;> omega
  · have e : (m / 2 ^ k) * 2 ^ k = 2 ^ k * (m / 2 ^ k) := by ring
    rw [e]
    refine ⟨?_, ?_, ?_, ?_⟩ <;> omega

theorem pack_fields (s e f : Nat) (hs : s < 2) (he : e < 256) (hf : f < 2 ^ 23) :
    (pack s e f).sign = s ∧ (pack s e f).expo = e ∧ (pack s e f).frac = f := by
  unfold pack sign expo frac
  dsimp only
  refine ⟨?_, ?_, ?_⟩ <;> omega

theorem round_eq_encode (s m : Nat) (q : Int) (hm : m ≠ 0) :
    round s m q =
      encode s
        (if max (q + (bitLength m m : Nat) - 24) (-149) ≤ q then
          m * 2 ^ (q - max (q + (bitLength m m : Nat) - 24) (-149)).toNat
        else roundShift m (max (q + (bitLength m m : Nat) - 24) (-149) - q).toNat)
        (max (q + (bitLength m m : Nat) - 24) (-149)) := by
  unfold round encode
  rw [if_neg hm]

theorem encode_spec (s n : Nat) (q1 : Int) (hs : s < 2) (hn : n ≤ 2 ^ 24)
    (hq : -149 ≤ q1) (hq' : q1 ≤ 103) (hsub : n < 2 ^ 23 → q1 = -149) :
    (encode s n q1).expo ≠ 255 ∧ (encode s n q1).sign = s ∧
    ((encode s n q1).mant : ℚ) * 2 ^ (encode s n q1).qexp = (n : ℚ) * 2 ^ q1 := by
  unfold encode
  dsimp only
  by_cases h24 : n ≥ 2 ^ 24
  · have hn24 : n = 2 ^ 24 := by omega
    subst hn24
    have e1 : (2 : Nat) ^ 24 / 2 = 2 ^ 23 := by norm_num
    have c2 : ¬ (q1 + 1 + 150 ≥ 255) := by omega
    simp only [ge_iff_le, le_refl, if_true, e1, lt_irrefl, if_false, c2, Nat.sub_self]
    obtain ⟨p1, p2, p3⟩ := pack_fields s (q1 + 1 + 150).toNat 0 hs (by omega) (by norm_num)
    have hne : (q1 + 1 + 150).toNat ≠ 0 := by omega
    refine ⟨by rw [p2]; omega, p1, ?_⟩
    unfold mant qexp
    rw [p2, p3, if_neg hne, if_neg hne]
    have e2 : (((q1 + 1 + 150).toNat : Int) - 150) = q1 + 1 := by omega
    rw [e2, zpow_add₀ (by norm_num : (2 : ℚ) ≠ 0)]
    push_cast
    ring
  · rw [if_neg h24, if_neg h24]
    by_cases h23 : n < 2 ^ 23
    · rw [if_pos h23]
      obtain ⟨p1, p2, p3⟩ := pack_fields s 0 n hs (by norm_num) h23
      refine ⟨by rw [p2]; omega, p1, ?_⟩
      unfold mant qexp
      rw [p2, p3, hsub h23]
      simp
    · have c2 : ¬ (q1 + 150 ≥ 255) := by omega
      rw [if_neg h23, if_neg c2]
      obtain ⟨p1, p2, p3⟩ := pack_fields s (q1 + 150).toNat (n - 2 ^ 23) hs (by omega)
        (by omega)
      have hne : (q1 + 150).toNat ≠ 0 := by omega
      refine ⟨by rw [p2]; omega, p1, ?_⟩
      unfold mant qexp
      rw [p2, p3, if_neg hne, if_neg hne]
      have e2 : (((q1 + 150).toNat : Int) - 150) = q1 := by omega
      have e3 : 2 ^ 23 + (n - 2 ^ 23) = n := by omega
      rw [e2, e3]

theorem round_spec (s m : Nat) (q : Int) (hs : s < 2) (hm : 0 < m)
    (hq : q + (bitLength m m : Nat) ≤ 127) :
    (round s m q).expo ≠ 255 ∧ (round s m q).sign = s ∧
    |((round s m q).mant : ℚ) * 2 ^ (round s m q).qexp - (m : ℚ) * 2 ^ q| ≤
      2 ^ (-24 : ℤ) * ((m : ℚ) * 2 ^ q) + 2 ^ (-150 : ℤ) := by
  obtain ⟨b1, b2⟩ := bitLength_spec m m le_rfl
  have b3 := b2 hm
  rw [round_eq_encode s m q (by omega)]
  generalize bitLength m m = L at b1 b3 hq ⊢
  obtain ⟨q1, hq1⟩ : ∃ q1 : Int, q1 = max (q + (L : Nat) - 24) (-149) := ⟨_, rfl⟩
  rw [← hq1]
  have two : (2 : ℚ) ≠ 0 := by norm_num
  have hq1a : -149 ≤ q1 := by rw [hq1]; exact le_max_right _ _
  have hq1b : q + (L : Int) - 24 ≤ q1 := by rw [hq1]; exact le_max_left _ _
  have hq1c : q1 = -149 ∨ q1 = q + (L : Int) - 24 := by
    rcases max_choice (q + (L : Int) - 24) (-149) with h | h
    · right
      rw [hq1, h]
    · left
      rw [hq1, h]
  have hq1d : q1 ≤ 103 := by
    rcases hq1c with h | h <;> omega
  have hmq : (0 : ℚ) ≤ (m : ℚ) * 2 ^ q := by positivity
  by_cases hA : q1 ≤ q
  · rw [if_pos hA]
    obtain ⟨j, hj⟩ : ∃ j : Nat, (j : Int) = q - q1 := ⟨(q - q1).toNat, by omega⟩
    have hj' : (q - q1).toNat = j := by omega
    rw [hj']
    have hLj : L + j ≤ 24 := by omega
    have hn24 : m * 2 ^ j < 2 ^ 24 :=
      calc m * 2 ^ j < 2 ^ L * 2 ^ j := Nat.mul_lt_mul_of_pos_right b1 (by positivity)
        _ = 2 ^ (L + j) := (pow_add 2 L j).symm
        _ ≤ 2 ^ 24 := Nat.pow_le_pow_right (by norm_num) hLj
    have hsub : m * 2 ^ j < 2 ^ 23 → q1 = -149 := by
      intro h23
      rcases hq1c with h | h
      · exact h
      · exfalso
        have hLj2 : L + j = 24 := by omega
        have : 2 ^ L * 2 ^ j = 2 ^ 24 := by rw [← pow_add, hLj2]
        have h2 : 2 ^ L * 2 ^ j ≤ 2 * m * 2 ^ j := Nat.mul_le_mul_right _ b3
        have h3 : 2 * m * 2 ^ j = 2 * (m * 2 ^ j) := by ring
        omega
    obtain ⟨e1, e2, e3⟩ := encode_spec s (m * 2 ^ j) q1 hs (le_of_lt hn24) hq1a hq1d hsub
    refine ⟨e1, e2, ?_⟩
    rw [e3]
    have ex : ((m * 2 ^ j : Nat) : ℚ) * 2 ^ q1 = (m : ℚ) * 2 ^ q := by
      have hqq : q = (j : Int) + q1 := by omega
      rw [hqq, zpow_add₀ two, zpow_natCast]
      push_cast
      ring
    rw [ex, sub_self, abs_zero]
    positivity
  · rw [if_neg hA]
    obtain ⟨k, hk⟩ : ∃ k : Nat, (k : Int) = q1 - q := ⟨(q1 - q).toNat, by omega⟩
    have hk' : (q1 - q).toNat = k := by omega
    rw [hk']
    have hk0 : 0 < k := by omega
    have hLk : L ≤ k + 24 := by omega
    obtain ⟨r1, r2, r3, r4⟩ := roundShift_spec m k hk0
    have hpk : 0 < 2 ^ k := by positivity
    have hm24 : m / 2 ^ k < 2 ^ 24 := by
      apply Nat.div_lt_of_lt_mul
      calc m < 2 ^ L := b1
        _ ≤ 2 ^ (k + 24) := Nat.pow_le_pow_right (by norm_num) hLk
        _ = 2 ^ k * 2 ^ 24 := pow_add 2 k 24
    have hnorm : q1 ≠ -149 → 2 ^ k * 2 ^ 23 ≤ m := by
      intro hne
      have hq1e : q1 = q + (L : Int) - 24 := by
        rcases hq1c with h | h
        · exact absurd h hne
        · exact h
      have hLk2 : L = k + 24 := by omega
      have h1 : 2 ^ L = 2 * (2 ^ k * 2 ^ 23) := by
        rw [hLk2, pow_add]
        norm_num
        ring
      omega
    have hsub : roundShift m k < 2 ^ 23 → q1 = -149 := by
      intro h23
      by_contra hne
      have h1 := hnorm hne
      have h2 : 2 ^ 23 ≤ m / 2 ^ k := by
        rw [Nat.le_div_iff_mul_le hpk]
        rw [Nat.mul_comm]
        exact h1
      omega
    obtain ⟨e1, e2, e3⟩ := encode_spec s (roundShift m k) q1 hs (by omega) hq1a hq1d hsub
    refine ⟨e1, e2, ?_⟩
    rw [e3]
    have hD : (2 : Nat) ^ k = 2 * 2 ^ (k - 1) := by
      conv_lhs => rw [show k = (k - 1) + 1 by omega]
      rw [pow_succ]
      ring
    have hq1q : q1 = (k : Int) + q := by omega
    have c1 : ((roundShift m k : Nat) : ℚ) * 2 ^ k ≤ (m : ℚ) + 2 ^ (k - 1) := by
      exact_mod_cast r1
    have c2 : (m : ℚ) ≤ ((roundShift m k : Nat) : ℚ) * 2 ^ k + 2 ^ (k - 1) := by
      exact_mod_cast r2
    have hpq : (0 : ℚ) < 2 ^ q := by positivity
    have eq1 : ((roundShift m k : Nat) : ℚ) * 2 ^ q1 - (m : ℚ) * 2 ^ q =
        (((roundShift m k : Nat) : ℚ) * 2 ^ k - (m : ℚ)) * 2 ^ q := by
      rw [hq1q, zpow_add₀ two, zpow_natCast]
      ring
    have habs : |((roundShift m k : Nat) : ℚ) * 2 ^ k - (m : ℚ)| ≤ (2 : ℚ) ^ (k - 1) := by
      rw [abs_le]
      constructor <;> linarith
    rw [eq1, abs_mul, abs_of_pos hpq]
    have step : |((roundShift m k : Nat) : ℚ) * 2 ^ k - (m : ℚ)| * 2 ^ q ≤
        (2 : ℚ) ^ (k - 1) * 2 ^ q := mul_le_mul_of_nonneg_right habs (le_of_lt hpq)
    refine le_trans step ?_
    by_cases h149 : q1 = -149
    · have e150 : (2 : ℚ) ^ (k - 1) * 2 ^ q = 2 ^ (-150 : ℤ) := by
        rw [← zpow_natCast, ← zpow_add₀ two]
        congr 1
        omega
      rw [e150]
      linarith [mul_nonneg (by positivity : (0 : ℚ) ≤ 2 ^ (-24 : ℤ)) hmq]
    · have h1 := hnorm h149
      have h2 : (2 : Nat) ^ (k - 1) * 2 ^ 24 ≤ m := by
        have : (2 : Nat) ^ (k - 1) * 2 ^ 24 = 2 ^ k * 2 ^ 23 := by
          rw [hD]
          norm_num
          ring
        omega
      have h3 : (2 : ℚ) ^ (k - 1) * 2 ^ 24 ≤ (m : ℚ) := by exact_mod_cast h2
      have h4 : (2 : ℚ) ^ (k - 1) ≤ 2 ^ (-24 : ℤ) * (m : ℚ) := by
        have e24 : (2 : ℚ) ^ (-24 : ℤ) = 1 / 2 ^ 24 := by
          rw [zpow_neg, one_div]
          norm_num
        rw [e24]
        have : (0 : ℚ) < 2 ^ 24 := by positivity
        rw [one_div, inv_mul_eq_div, le_div_iff₀ this]
        exact h3
      have h5 : (2 : ℚ) ^ (k - 1) * 2 ^ q ≤ 2 ^ (-24 : ℤ) * (m : ℚ) * 2 ^ q :=
        mul_le_mul_of_nonneg_right h4 (le_of_lt hpq)
      have h6 : (0 : ℚ) ≤ 2 ^ (-150 : ℤ) := by positivity
      linarith

theorem sign_lt_two (x : F32) : x.sign < 2 := Nat.mod_lt _ (by decide)

theorem mant_lt (x : F32) : x.mant < 2 ^ 24 := by
  have : x.frac < 2 ^ 23 := Nat.mod_lt _ (by positivity)
  unfold mant
  split_ifs <;> omega

theorem qexp_le (x : F32) (h : x.expo ≤ 254) : x.qexp ≤ 104 ∧ -149 ≤ x.qexp := by
  unfold qexp
  split_ifs <;> omega

theorem toRat_abs (x : F32) : |x.toRat| = (x.mant : ℚ) * 2 ^ x.qexp := by
  have h : (0 : ℚ) ≤ (x.mant : ℚ) * 2 ^ x.qexp := by positivity
  unfold toRat
  split_ifs
  · rw [show (-1 : ℚ) * (x.mant : ℚ) * 2 ^ x.qexp = -((x.mant : ℚ) * 2 ^ x.qexp) by ring,
      abs_neg, abs_of_nonneg h]
  · rw [one_mul, abs_of_nonneg h]

/-- The binary32 product of a finite `x` with a finite `c` below `0.5` in
magnitude is finite and is the exact product up to a relative error of `2^-24`
and an absolute error of `2^-150`. -/
theorem mul_spec (x c : F32) (hx : x.isFinite = true) (hc : c.expo ≤ 125) :
    (mul x c).isFinite = true ∧
    |(mul x c).toRat - x.toRat * c.toRat| ≤
      2 ^ (-24 : ℤ) * |x.toRat * c.toRat| + 2 ^ (-150 : ℤ) := by
  have hxe : x.expo ≠ 255 := by
    unfold isFinite at hx
    simpa using hx
  have hxe' : x.expo < 256 := Nat.mod_lt _ (by decide)
  have n1 : x.isNaN = false := by simp [isNaN, hxe]
  have n2 : c.isNaN = false := by
    have : c.expo ≠ 255 := by omega
    simp [isNaN, this]
  have n3 : x.isInf = false := by simp [isInf, hxe]
  have n4 : c.isInf = false := by
    have : c.expo ≠ 255 := by omega
    simp [isInf, this]
  have hmul : mul x c = round ((x.sign + c.sign) % 2) (x.mant * c.mant) (x.qexp + c.qexp) := by
    unfold mul
    simp [n1, n2, n3, n4]
  rw [hmul]
  have hs : (x.sign + c.sign) % 2 < 2 := Nat.mod_lt _ (by decide)
  have hxs := sign_lt_two x
  have hcs := sign_lt_two c
  have two : (2 : ℚ) ≠ 0 := by norm_num
  have hprod : x.toRat * c.toRat =
      (if (x.sign + c.sign) % 2 = 1 then -1 else 1) *
        (((x.mant * c.mant : Nat) : ℚ) * 2 ^ (x.qexp + c.qexp)) := by
    unfold toRat
    rw [zpow_add₀ two]
    push_cast
    have h1 : x.sign = 0 ∨ x.sign = 1 := by omega
    have h2 : c.sign = 0 ∨ c.sign = 1 := by omega
    rcases h1 with h1 | h1 <;> rcases h2 with h2 | h2 <;> simp [h1, h2] <;> ring
  by_cases hM : x.mant * c.mant = 0
  · have hr : round ((x.sign + c.sign) % 2) (x.mant * c.mant) (x.qexp + c.qexp) =
        pack ((x.sign + c.sign) % 2) 0 0 := by
      unfold round
      rw [if_pos hM]
    obtain ⟨p1, p2, p3⟩ := pack_fields ((x.sign + c.sign) % 2) 0 0 hs (by norm_num)
      (by norm_num)
    rw [hr, hprod, hM]
    constructor
    · unfold isFinite
      rw [p2]
      rfl
    · have hz : (pack ((x.sign + c.sign) % 2) 0 0).toRat = 0 := by
        unfold toRat mant
        rw [p2, p3]
        simp
      rw [hz]
      simp only [CharP.cast_eq_zero, zero_mul, mul_zero, sub_self, abs_zero, zero_add]
      positivity
  · have hMpos : 0 < x.mant * c.mant := Nat.pos_of_ne_zero hM
    have hM48 : x.mant * c.mant < 2 ^ 48 := by
      have a := mant_lt x
      have b := mant_lt c
      calc x.mant * c.mant < 2 ^ 24 * 2 ^ 24 :=
            Nat.mul_lt_mul'' a b
        _ = 2 ^ 48 := by norm_num
    obtain ⟨b1, b2⟩ := bitLength_spec (x.mant * c.mant) (x.mant * c.mant) le_rfl
    have b3 := b2 hMpos
    have hL : bitLength (x.mant * c.mant) (x.mant * c.mant) ≤ 48 := by
      by_contra hcon
      have : 2 ^ 49 ≤ 2 ^ bitLength (x.mant * c.mant) (x.mant * c.mant) :=
        Nat.pow_le_pow_right (by norm_num) (by omega)
      omega
    have hqx := (qexp_le x (by omega)).1
    have hqc : c.qexp ≤ -25 := by
      unfold qexp
      split_ifs <;> omega
    obtain ⟨r1, r2, r3⟩ := round_spec ((x.sign + c.sign) % 2) (x.mant * c.mant)
      (x.qexp + c.qexp) hs hMpos (by omega)
    constructor
    · unfold isFinite
      simpa using r1
    · rw [hprod]
      have hv : (0 : ℚ) ≤ ((x.mant * c.mant : Nat) : ℚ) * 2 ^ (x.qexp + c.qexp) := by
        positivity
      unfold toRat
      rw [r2]
      split_ifs
      · rw [show (-1 : ℚ) * _ * _ - -1 * (((x.mant * c.mant : Nat) : ℚ) * 2 ^ (x.qexp + c.qexp))
            = -(((round ((x.sign + c.sign) % 2) (x.mant * c.mant) (x.qexp + c.qexp)).mant : ℚ)
                * 2 ^ (round ((x.sign + c.sign) % 2) (x.mant * c.mant) (x.qexp + c.qexp)).qexp
              - ((x.mant * c.mant : Nat) : ℚ) * 2 ^ (x.qexp + c.qexp)) by ring]
        rw [abs_neg, show (-1 : ℚ) * (((x.mant * c.mant : Nat) : ℚ) * 2 ^ (x.qexp + c.qexp)) =
          -(((x.mant * c.mant : Nat) : ℚ) * 2 ^ (x.qexp + c.qexp)) by ring, abs_neg,
          abs_of_nonneg hv]
        exact r3
      · rw [one_mul, one_mul, abs_of_nonneg hv]
        exact r3

/-- The constant `0.01745329251994f` as a rational number. -/
theorem toRat_deg_to_rad : (⟨0x3C8EFA35⟩ : F32).toRat = 9370165 / 2 ^ 29 := by
  have h1 : (⟨0x3C8EFA35⟩ : F32).sign = 0 := by decide
  have h2 : (⟨0x3C8EFA35⟩ : F32).mant = 9370165 := by decide
  have h3 : (⟨0x3C8EFA35⟩ : F32).qexp = -29 := by decide
  unfold toRat
  rw [h1, h2, h3]
  norm_num

/-- The constant `0.01745329251994f` is below `π / 180` by less than `2^-24` of
it. -/
theorem deg_to_rad_bounds :
    (((⟨0x3C8EFA35⟩ : F32).toRat : ℚ) : ℝ) ≤ Real.pi / 180 ∧
    Real.pi / 180 - (((⟨0x3C8EFA35⟩ : F32).toRat : ℚ) : ℝ) ≤ 2 ^ (-24 : ℤ) * (Real.pi / 180) ∧
    (0 : ℝ) ≤ (((⟨0x3C8EFA35⟩ : F32).toRat : ℚ) : ℝ) := by
  have lo := Real.pi_gt_d20
  have hi := Real.pi_lt_d20
  have e24 : (2 : ℝ) ^ (-24 : ℤ) = 1 / 16777216 := by
    rw [zpow_neg, one_div]
    norm_num
  rw [toRat_deg_to_rad, e24]
  push_cast
  refine ⟨?_, ?_, ?_⟩
  · norm_num at lo ⊢
    linarith
  · norm_num at hi ⊢
    linarith
  · positivity

/-- Degrees to radians in binary32: for a finite `x` the product with
`0.01745329251994f` is finite and differs from `x * π / 180` by at most `2^-23`
of its magnitude plus `2^-150`. -/
theorem mul_deg_to_rad (x : F32) (hx : x.isFinite = true) :
    (mul x ⟨0x3C8EFA35⟩).isFinite = true ∧
    |(((mul x ⟨0x3C8EFA35⟩).toRat : ℚ) : ℝ) - ((x.toRat : ℚ) : ℝ) * (Real.pi / 180)| ≤
      2 ^ (-23 : ℤ) * (|((x.toRat : ℚ) : ℝ)| * (Real.pi / 180)) + 2 ^ (-150 : ℤ) := by
  obtain ⟨m1, m2⟩ := mul_spec x ⟨0x3C8EFA35⟩ hx (by decide)
  obtain ⟨d1, d2, d3⟩ := deg_to_rad_bounds
  refine ⟨m1, ?_⟩
  have m3 : |(((mul x ⟨0x3C8EFA35⟩).toRat : ℚ) : ℝ) -
      ((x.toRat : ℚ) : ℝ) * (((⟨0x3C8EFA35⟩ : F32).toRat : ℚ) : ℝ)| ≤
      2 ^ (-24 : ℤ) * |((x.toRat : ℚ) : ℝ) * (((⟨0x3C8EFA35⟩ : F32).toRat : ℚ) : ℝ)| +
        2 ^ (-150 : ℤ) := by
    have h := (Rat.cast_le (K := ℝ)).mpr m2
    simp only [Rat.cast_abs, Rat.cast_sub, Rat.cast_mul, Rat.cast_add, Rat.cast_zpow,
      Rat.cast_ofNat] at h
    exact h
  generalize (((mul x ⟨0x3C8EFA35⟩).toRat : ℚ) : ℝ) = r at m3 ⊢
  generalize (((⟨0x3C8EFA35⟩ : F32).toRat : ℚ) : ℝ) = c at m3 d1 d2 d3
  generalize ((x.toRat : ℚ) : ℝ) = v at m3 ⊢
  generalize Real.pi / 180 = p at d1 d2 ⊢
  have e23 : (2 : ℝ) ^ (-23 : ℤ) = 2 * 2 ^ (-24 : ℤ) := by
    rw [show (-23 : ℤ) = 1 + (-24) by norm_num, zpow_add₀ (by norm_num : (2 : ℝ) ≠ 0)]
    norm_num
  have t24 : (0 : ℝ) ≤ 2 ^ (-24 : ℤ) := by positivity
  have hv : 0 ≤ |v| := abs_nonneg v
  have a1 : |v * c| = |v| * c := by rw [abs_mul, abs_of_nonneg d3]
  have a2 : |v * c - v * p| = |v| * (p - c) := by
    rw [← mul_sub, abs_mul, abs_sub_comm, abs_of_nonneg (by linarith : 0 ≤ p - c)]
  have tri : |r - v * p| ≤ |r - v * c| + |v * c - v * p| := by
    have := abs_add (r - v * c) (v * c - v * p)
    rwa [show r - v * c + (v * c - v * p) = r - v * p by ring] at this
  rw [a1] at m3
  rw [a2] at tri
  rw [e23]
  have k1 : |v| * c ≤ |v| * p := mul_le_mul_of_nonneg_left d1 hv
  have k2 : |v| * (p - c) ≤ |v| * (2 ^ (-24 : ℤ) * p) := mul_le_mul_of_nonneg_left d2 hv
  have k3 : 2 ^ (-24 : ℤ) * (|v| * c) ≤ 2 ^ (-24 : ℤ) * (|v| * p) :=
    mul_le_mul_of_nonneg_left k1 t24
  nlinarith

end F32

/-- C12: whenever `update_impl` gets to an addressed `DO_MOUNT_CONTROL` command
with mode MAVLINK_TARGETING and finite `param1`, `param2`, `param3`, with
`M_DEG_TO_RAD_F = 0.01745329251994f`, the call returns 0 and reports a change,
the type is Angle, and the angles are the binary32 products
`angles[0] = param2 * M_DEG_TO_RAD_F` (roll), `angles[1] = param1 *
M_DEG_TO_RAD_F` (pitch), `angles[2] = param3 * M_DEG_TO_RAD_F` (yaw). Each of
them is finite and equals the parameter times `π / 180` within floating-point
tolerance: the difference is at most `2^-23` of the magnitude of that number
plus `2^-150`. (`hlen` says that the call gets to the command.) -/
theorem C12_targeting_angles (K : Consts) (hK : K.distinct)
    (hdeg : K.M_DEG_TO_RAD_F = ⟨0x3C8EFA35⟩)
    (self : InputMavlinkCmdMount) (timeout_ms : Nat) (already_active : Bool)
    (pre : List CmdPoll) (ev : CmdPoll) (rest : List CmdPoll)
    (hd : ∀ e ∈ pre, e.discarded K self) (hev : ev.delivers K)
    (ha : self.addressed ev.vehicle_command)
    (hc : ev.vehicle_command.command = K.VEHICLE_CMD_DO_MOUNT_CONTROL)
    (hm : F32.toInt ev.vehicle_command.param7 = K.VEHICLE_MOUNT_MODE_MAVLINK_TARGETING)
    (h1 : ev.vehicle_command.param1.isFinite = true)
    (h2 : ev.vehicle_command.param2.isFinite = true)
    (h3 : ev.vehicle_command.param3.isFinite = true)
    (hlen : (self.update_impl K timeout_ms already_active (pre ++ ev :: rest)).waits.length =
      pre.length + 1) :
    (self.update_impl K timeout_ms already_active (pre ++ ev :: rest)).ret = some 0 ∧
    (self.update_impl K timeout_ms already_active (pre ++ ev :: rest)).changed = true ∧
    (self.update_impl K timeout_ms already_active (pre ++ ev :: rest)).self._control_data.type =
      ControlDataType.Angle ∧
    (self.update_impl K timeout_ms already_active
        (pre ++ ev :: rest)).self._control_data.type_data.angle.angles =
      ⟨F32.mul ev.vehicle_command.param2 K.M_DEG_TO_RAD_F,
        F32.mul ev.vehicle_command.param1 K.M_DEG_TO_RAD_F,
        F32.mul ev.vehicle_command.param3 K.M_DEG_TO_RAD_F⟩ ∧
    ((F32.mul ev.vehicle_command.param2 K.M_DEG_TO_RAD_F).isFinite = true ∧
      |(((F32.mul ev.vehicle_command.param2 K.M_DEG_TO_RAD_F).toRat : ℚ) : ℝ) -
          ((ev.vehicle_command.param2.toRat : ℚ) : ℝ) * (Real.pi / 180)| ≤
        2 ^ (-23 : ℤ) * (|((ev.vehicle_command.param2.toRat : ℚ) : ℝ)| * (Real.pi / 180)) +
          2 ^ (-150 : ℤ)) ∧
    ((F32.mul ev.vehicle_command.param1 K.M_DEG_TO_RAD_F).isFinite = true ∧
      |(((F32.mul ev.vehicle_command.param1 K.M_DEG_TO_RAD_F).toRat : ℚ) : ℝ) -
          ((ev.vehicle_command.param1.toRat : ℚ) : ℝ) * (Real.pi / 180)| ≤
        2 ^ (-23 : ℤ) * (|((ev.vehicle_command.param1.toRat : ℚ) : ℝ)| * (Real.pi / 180)) +
          2 ^ (-150 : ℤ)) ∧
    ((F32.mul ev.vehicle_command.param3 K.M_DEG_TO_RAD_F).isFinite = true ∧
      |(((F32.mul ev.vehicle_command.param3 K.M_DEG_TO_RAD_F).toRat : ℚ) : ℝ) -
          ((ev.vehicle_command.param3.toRat : ℚ) : ℝ) * (Real.pi / 180)| ≤
        2 ^ (-23 : ℤ) * (|((ev.vehicle_command.param3.toRat : ℚ) : ℝ)| * (Real.pi / 180)) +
          2 ^ (-150 : ℤ)) := by
  obtain ⟨r1, r2, r3⟩ := update_impl_targeting K hK self timeout_ms already_active pre ev rest
    hd hev ha hc hm hlen
  have m1 := F32.mul_deg_to_rad ev.vehicle_command.param1 h1
  have m2 := F32.mul_deg_to_rad ev.vehicle_command.param2 h2
  have m3 := F32.mul_deg_to_rad ev.vehicle_command.param3 h3
  rw [← hdeg] at m1 m2 m3
  refine ⟨r1, r2, ?_, ?_, m2, m1, m3⟩
  · rw [r3]
    exact case_MAVLINK_TARGETING_type K self _
  · rw [r3]
    exact case_MAVLINK_TARGETING_finite K self _ m1.1 m3.1

/-- C12 at a concrete run: pitch 90, roll 0, yaw 180 give the binary32 numbers
`0`, `0x3FC90FDB` and `0x40490FDB`, which are `π / 2` within `2^-22` and `π`
within `2^-21`. -/
theorem C12_targeting_angles_witness :
    (cmdMount0.update_impl px4 100 false
        ([] ++ delivered 300 targetingCommand ::
          [])).self._control_data.type_data.angle.angles =
      ⟨⟨0⟩, ⟨0x3FC90FDB⟩, ⟨0x40490FDB⟩⟩ ∧
    |(((⟨0x3FC90FDB⟩ : F32).toRat : ℚ) : ℝ) - Real.pi / 2| ≤ 2 ^ (-22 : ℤ) ∧
    |(((⟨0x40490FDB⟩ : F32).toRat : ℚ) : ℝ) - Real.pi| ≤ 2 ^ (-21 : ℤ) := by
  have h := C12_targeting_angles px4 (by decide) rfl cmdMount0 100 false []
    (delivered 300 targetingCommand) [] (by decide) (by decide) (by decide) (by decide)
    (by decide) (by decide) (by decide) (by decide) (by decide)
  have hp := h.2.2.2.2.2.1.2
  have hy := h.2.2.2.2.2.2.2
  have e1 : F32.mul (delivered 300 targetingCommand).vehicle_command.param1 px4.M_DEG_TO_RAD_F =
      ⟨0x3FC90FDB⟩ := by decide
  have e3 : F32.mul (delivered 300 targetingCommand).vehicle_command.param3 px4.M_DEG_TO_RAD_F =
      ⟨0x40490FDB⟩ := by decide
  have v1 : (delivered 300 targetingCommand).vehicle_command.param1.toRat = 90 := by
    have a : (delivered 300 targetingCommand).vehicle_command.param1.sign = 0 := by decide
    have b : (delivered 300 targetingCommand).vehicle_command.param1.mant = 11796480 := by
      decide
    have c : (delivered 300 targetingCommand).vehicle_command.param1.qexp = -17 := by decide
    unfold F32.toRat
    rw [a, b, c]
    norm_num
  have v3 : (delivered 300 targetingCommand).vehicle_command.param3.toRat = 180 := by
    have a : (delivered 300 targetingCommand).vehicle_command.param3.sign = 0 := by decide
    have b : (delivered 300 targetingCommand).vehicle_command.param3.mant = 11796480 := by
      decide
    have c : (delivered 300 targetingCommand).vehicle_command.param3.qexp = -16 := by decide
    unfold F32.toRat
    rw [a, b, c]
    norm_num
  rw [e1, v1] at hp
  rw [e3, v3] at hy
  have lo := Real.pi_gt_three
  have hi : Real.pi < 7 / 2 := by
    have h315 := Real.pi_lt_d2
    norm_num at h315
    linarith
  have e23 : (2 : ℝ) ^ (-23 : ℤ) = 1 / 8388608 := by
    rw [zpow_neg, one_div]
    norm_num
  have e22 : (2 : ℝ) ^ (-22 : ℤ) = 1 / 4194304 := by
    rw [zpow_neg, one_div]
    norm_num
  have e21 : (2 : ℝ) ^ (-21 : ℤ) = 1 / 2097152 := by
    rw [zpow_neg, one_div]
    norm_num
  have e150 : (2 : ℝ) ^ (-150 : ℤ) ≤ 1 / 8388608 * (1 / 10) := by
    rw [zpow_neg, one_div]
    norm_num
  refine ⟨h.2.2.2.1, ?_, ?_⟩
  · rw [e22]
    rw [e23] at hp
    have q : ((90 : ℚ) : ℝ) * (Real.pi / 180) = Real.pi / 2 := by
      push_cast
      ring
    rw [q] at hp
    have a90 : |((90 : ℚ) : ℝ)| = 90 := by
      push_cast
      norm_num
    rw [a90] at hp
    refine le_trans hp ?_
    linarith
  · rw [e21]
    rw [e23] at hy
    have q : ((180 : ℚ) : ℝ) * (Real.pi / 180) = Real.pi := by
      push_cast
      ring
    rw [q] at hy
    have a180 : |((180 : ℚ) : ℝ)| = 180 := by
      push_cast
      norm_num
    rw [a180] at hy
    refine le_trans hy ?_
    linarith

end vmount
